import Mathlib

/-!
Verification of the pigment color library against its specification.

The C++ sources are shallowly embedded:
* 8-bit channels (`uint8_t`) become `ℕ` (theorems carry the `≤ 255` range
  assumptions where relevant);
* `double`/`float` arithmetic is embedded as exact arithmetic, in `ℚ` where
  the code only uses field operations, truncations and comparisons, and in
  `ℝ` where the code calls `std::pow`, `std::cbrt`, `std::sqrt`, `std::sin`,
  `std::cos` or `std::atan2`;
* `static_cast<uint8_t>`/`static_cast<int>` of a nonnegative value is
  truncation toward zero, `std::round` rounds half away from zero (which on
  the clamped nonnegative values that reach it agrees with `round`),
  and `std::fmod`/C integer `%` are the C truncated remainder.
-/

set_option maxRecDepth 10000
set_option maxHeartbeats 1000000

/-- Truncation toward zero of a rational, as `static_cast<int>` on a double. -/
def truncQ (q : ℚ) : ℤ := if 0 ≤ q then ⌊q⌋ else ⌈q⌉

/-- `std::fmod` on exact rationals: `x - trunc(x/y) * y`. -/
def fmodQ (x y : ℚ) : ℚ := x - (truncQ (x / y)) * y

/-- `std::clamp` on rationals. -/
def clampQ (x lo hi : ℚ) : ℚ := if x < lo then lo else if hi < x then hi else x

/-- `std::clamp` on integers. -/
def clampZ (x lo hi : ℤ) : ℤ := if x < lo then lo else if hi < x then hi else x

/-- RGB color: four 8-bit channels r, g, b, a (types_basic.hpp). -/
structure RGB where
  r : ℕ
  g : ℕ
  b : ℕ
  a : ℕ
  deriving DecidableEq, Repr

/-- `RGB::operator+`: per-channel `std::clamp(int(x) + y, 0, 255)` on all four
channels (types_basic.hpp lines 172-177). -/
def RGB.add (x y : RGB) : RGB :=
  ⟨(clampZ ((x.r : ℤ) + y.r) 0 255).toNat,
   (clampZ ((x.g : ℤ) + y.g) 0 255).toNat,
   (clampZ ((x.b : ℤ) + y.b) 0 255).toNat,
   (clampZ ((x.a : ℤ) + y.a) 0 255).toNat⟩

/-- `RGB::operator-`: per-channel `std::clamp(int(x) - y, 0, 255)` on all four
channels (types_basic.hpp lines 179-184). -/
def RGB.sub (x y : RGB) : RGB :=
  ⟨(clampZ ((x.r : ℤ) - y.r) 0 255).toNat,
   (clampZ ((x.g : ℤ) - y.g) 0 255).toNat,
   (clampZ ((x.b : ℤ) - y.b) 0 255).toNat,
   (clampZ ((x.a : ℤ) - y.a) 0 255).toNat⟩

/-- One color channel of `RGB::operator*`:
`x * factor > 255 ? 255 : (x * factor < 0 ? 0 : uint8_t(x * factor))`. -/
def mulChannel (x : ℕ) (factor : ℚ) : ℕ :=
  if (255 : ℚ) < x * factor then 255
  else if x * factor < 0 then 0
  else (truncQ (x * factor)).toNat

/-- `RGB::operator*(double factor)`: the ternary-clamped product on r, g, b and
the alpha channel passed through unchanged (types_basic.hpp lines 188-192). -/
def RGB.mulF (x : RGB) (factor : ℚ) : RGB :=
  ⟨mulChannel x.r factor, mulChannel x.g factor, mulChannel x.b factor, x.a⟩

/-- The blended output alpha `alpha_fg + alpha_bg * (1 - alpha_fg)` computed by
`RGB::alpha_blend` (types_basic.hpp line 267). -/
def alphaOut (fg bg : RGB) : ℚ :=
  (fg.a : ℚ) / 255 + (bg.a : ℚ) / 255 * (1 - (fg.a : ℚ) / 255)

/-- `RGB::alpha_blend(background)` (types_basic.hpp lines 259-282). -/
def RGB.alphaBlend (fg bg : RGB) : RGB :=
  if fg.a = 255 then fg
  else if fg.a = 0 then bg
  else
    let alpha_fg : ℚ := (fg.a : ℚ) / 255
    let alpha_bg : ℚ := (bg.a : ℚ) / 255
    let alpha_out := alphaOut fg bg
    if alpha_out = 0 then ⟨0, 0, 0, 0⟩
    else
      ⟨(truncQ ((fg.r * alpha_fg + bg.r * alpha_bg * (1 - alpha_fg)) / alpha_out)).toNat,
       (truncQ ((fg.g * alpha_fg + bg.g * alpha_bg * (1 - alpha_fg)) / alpha_out)).toNat,
       (truncQ ((fg.b * alpha_fg + bg.b * alpha_bg * (1 - alpha_fg)) / alpha_out)).toNat,
       (truncQ (alpha_out * 255)).toNat⟩

/-- HSL color: fixed-point hue (`uint16_t`, degrees × 100), 8-bit saturation,
lightness and alpha (types_hsl.hpp). -/
structure HSL where
  h : ℕ
  s : ℕ
  l : ℕ
  alpha : ℕ
  deriving DecidableEq, Repr

/-- `HSL::adjust_hue(degrees)`: `int new_hue = h + int(degrees * 100)` followed
by the double-modulo `((new_hue % 36000) + 36000) % 36000` with C truncated `%`
(types_hsl.hpp lines 222-228). -/
def HSL.adjust_hue (c : HSL) (degrees : ℚ) : HSL :=
  let new_hue : ℤ := (c.h : ℤ) + truncQ (degrees * 100)
  ⟨(((new_hue.tmod 36000) + 36000).tmod 36000).toNat, c.s, c.l, c.alpha⟩

/-- `HSL::complement()`: 180 degree rotation (types_hsl.hpp line 267). -/
def HSL.complement (c : HSL) : HSL := c.adjust_hue 180

/-- `HSL::triadic()`: `{*this, adjust_hue(120.0), adjust_hue(240.0)}`
(types_hsl.hpp line 270). -/
def HSL.triadic (c : HSL) : List HSL := [c, c.adjust_hue 120, c.adjust_hue 240]

/-- HSV color: floating hue, saturation, value, embedded as exact rationals
(types_hsv.hpp). -/
structure HSV where
  h : ℚ
  s : ℚ
  v : ℚ
  deriving DecidableEq, Repr

/-- `HSV::normalize()`: wrap hue into [0,360) via `fmod` plus a conditional
`+= 360` (reading the already-updated field), then clamp saturation and value
into [0,1] (types_hsv.hpp lines 48-57). -/
def HSV.normalize (c : HSV) : HSV :=
  let h1 := if c.h < 0 ∨ 360 ≤ c.h then
      (let m := fmodQ c.h 360; if m < 0 then m + 360 else m)
    else c.h
  ⟨h1, clampQ c.s 0 1, clampQ c.v 0 1⟩

/- ### Helper lemmas on the integer/rational primitives -/

theorem clampZ_of_mem {x lo hi : ℤ} (h1 : lo ≤ x) (h2 : x ≤ hi) :
    clampZ x lo hi = x := by
  unfold clampZ
  rw [if_neg (by omega), if_neg (by omega)]

theorem truncQ_natCast (n : ℕ) : truncQ (n : ℚ) = n := by
  unfold truncQ
  rw [if_pos (by positivity)]
  exact_mod_cast Int.floor_natCast n

theorem truncQ_nonneg {q : ℚ} (h : 0 ≤ q) : 0 ≤ truncQ q := by
  unfold truncQ
  rw [if_pos h]
  positivity

theorem tmod_gt_neg36000 (n : ℤ) : -36000 < n.tmod 36000 := by
  cases n with
  | ofNat m =>
    have h : (0:ℤ) ≤ (Int.ofNat m).tmod 36000 := Int.tmod_nonneg 36000 (Int.ofNat_nonneg m)
    omega
  | negSucc m =>
    have h1 : (Int.negSucc m).tmod 36000 = -(((m + 1 : ℕ) : ℤ) % 36000) := rfl
    have h2 : (((m + 1 : ℕ) : ℤ) % 36000) < 36000 := Int.emod_lt_of_pos _ (by norm_num)
    omega

theorem tmod_emod_36000 (n : ℤ) : (n.tmod 36000) % 36000 = n % 36000 := by
  have h := Int.tmod_def n 36000
  have h2 : n.tmod 36000 = n + 36000 * (-(n.tdiv 36000)) := by omega
  rw [h2, Int.add_mul_emod_self_left]

/-- The double-modulo `((n % 36000) + 36000) % 36000` written with C truncated
`%` equals the Euclidean remainder of `n` modulo 36000. -/
theorem doubleTmod (n : ℤ) : ((n.tmod 36000) + 36000).tmod 36000 = n % 36000 := by
  have h1 := tmod_gt_neg36000 n
  have h3 : ((n.tmod 36000) + 36000).tmod 36000 = ((n.tmod 36000) + 36000) % 36000 :=
    Int.tmod_eq_emod (by omega) (by norm_num)
  have h4 : ((n.tmod 36000) + 36000) % 36000 = (n.tmod 36000) % 36000 := by
    have h5 := Int.add_mul_emod_self_left (n.tmod 36000) 36000 1
    simp only [mul_one] at h5
    exact h5
  rw [h3, h4, tmod_emod_36000]

/-- The hue produced by `adjust_hue` as a plain Euclidean remainder. -/
theorem adjust_hue_h (c : HSL) (degrees : ℚ) :
    (c.adjust_hue degrees).h = (((c.h : ℤ) + truncQ (degrees * 100)) % 36000).toNat := by
  unfold HSL.adjust_hue
  dsimp only
  rw [doubleTmod]

theorem adjust_hue_h_lt (c : HSL) (degrees : ℚ) :
    (c.adjust_hue degrees).h < 36000 := by
  rw [adjust_hue_h]
  have h1 : ((c.h : ℤ) + truncQ (degrees * 100)) % 36000 < 36000 :=
    Int.emod_lt_of_pos _ (by norm_num)
  omega

theorem adjust_hue_sla (c : HSL) (degrees : ℚ) :
    (c.adjust_hue degrees).s = c.s ∧ (c.adjust_hue degrees).l = c.l ∧
      (c.adjust_hue degrees).alpha = c.alpha := by
  unfold HSL.adjust_hue
  exact ⟨rfl, rfl, rfl⟩

/-- Rotating by a whole number of degrees `d` adds `100 d` to the fixed-point
hue, modulo 36000. -/
theorem adjust_hue_int (c : HSL) (d : ℤ) :
    (c.adjust_hue (d : ℚ)).h = (((c.h : ℤ) + 100 * d) % 36000).toNat := by
  rw [adjust_hue_h]
  have h1 : truncQ ((d : ℚ) * 100) = 100 * d := by
    have h2 : ((d : ℚ) * 100) = ((100 * d : ℤ) : ℚ) := by push_cast; ring
    unfold truncQ
    rw [h2]
    split
    · exact Int.floor_intCast _
    · exact Int.ceil_intCast _
  rw [h1]

/-- Hue wrap of `fmodQ` into [0,360): the conditional `+= 360` applied to
`fmodQ h 360`. -/
theorem fmodQ_wrap_mem (h : ℚ) :
    0 ≤ (if fmodQ h 360 < 0 then fmodQ h 360 + 360 else fmodQ h 360) ∧
      (if fmodQ h 360 < 0 then fmodQ h 360 + 360 else fmodQ h 360) < 360 := by
  have key : -360 < fmodQ h 360 ∧ fmodQ h 360 < 360 := by
    unfold fmodQ truncQ
    split
    · rename_i hpos
      constructor
      · have h1 : (⌊h / 360⌋ : ℚ) ≤ h / 360 := Int.floor_le _
        nlinarith
      · have h2 : h / 360 - 1 < (⌊h / 360⌋ : ℚ) := Int.sub_one_lt_floor _
        nlinarith
    · rename_i hneg
      constructor
      · have h2 : (⌈h / 360⌉ : ℚ) < h / 360 + 1 := Int.ceil_lt_add_one _
        nlinarith
      · have h1 : h / 360 ≤ (⌈h / 360⌉ : ℚ) := Int.le_ceil _
        nlinarith
  rcases key with ⟨k1, k2⟩
  split
  · rename_i hlt
    constructor <;> linarith
  · rename_i hge
    constructor <;> linarith

theorem hsv_normalize_h_mem (c : HSV) :
    0 ≤ c.normalize.h ∧ c.normalize.h < 360 := by
  unfold HSV.normalize
  dsimp only
  split
  · exact fmodQ_wrap_mem c.h
  · rename_i hcond
    push_neg at hcond
    exact ⟨hcond.1, hcond.2⟩

theorem clampQ_mem (x lo hi : ℚ) (h : lo ≤ hi) :
    lo ≤ clampQ x lo hi ∧ clampQ x lo hi ≤ hi := by
  unfold clampQ
  split
  · exact ⟨le_refl lo, h⟩
  · split
    · exact ⟨h, le_refl hi⟩
    · rename_i h1 h2
      push_neg at h1 h2
      exact ⟨h1, h2⟩

theorem clampQ_of_mem {x lo hi : ℚ} (h1 : lo ≤ x) (h2 : x ≤ hi) :
    clampQ x lo hi = x := by
  unfold clampQ
  rw [if_neg (by linarith), if_neg (by linarith)]


/- ### Channel characterizations for the RGB arithmetic operators -/

theorem addChannel_eq (a b : ℕ) :
    (clampZ ((a : ℤ) + b) 0 255).toNat = min 255 (a + b) := by
  unfold clampZ
  split
  · omega
  · split <;> omega

theorem subChannel_eq (a b : ℕ) :
    (clampZ ((a : ℤ) - b) 0 255).toNat = min 255 (a - b) := by
  unfold clampZ
  split
  · omega
  · split <;> omega

theorem mulChannel_eq (a : ℕ) (f : ℚ) :
    mulChannel a f = (clampZ (truncQ ((a : ℚ) * f)) 0 255).toNat := by
  unfold mulChannel
  split
  · rename_i hgt
    have h0 : (0 : ℚ) ≤ (a : ℚ) * f := by linarith
    have ht : truncQ ((a : ℚ) * f) = ⌊(a : ℚ) * f⌋ := if_pos h0
    have h1 : (255 : ℤ) ≤ ⌊(a : ℚ) * f⌋ := by
      rw [Int.le_floor]
      push_cast
      linarith
    unfold clampZ
    rw [ht, if_neg (by omega)]
    split <;> omega
  · split
    · rename_i hge hlt
      have ht : truncQ ((a : ℚ) * f) = ⌈(a : ℚ) * f⌉ := if_neg (by linarith)
      have h1 : ⌈(a : ℚ) * f⌉ ≤ 0 := by
        rw [Int.ceil_le]
        push_cast
        linarith
      unfold clampZ
      rw [ht]
      split
      · omega
      · split <;> omega
    · rename_i hc1 hc2
      push_neg at hc1 hc2
      have ht : truncQ ((a : ℚ) * f) = ⌊(a : ℚ) * f⌋ := if_pos hc2
      have hf0 : 0 ≤ ⌊(a : ℚ) * f⌋ := Int.floor_nonneg.mpr hc2
      have hf255 : ⌊(a : ℚ) * f⌋ ≤ 255 := by
        have h3 : ⌊(a : ℚ) * f⌋ ≤ ⌊(255 : ℚ)⌋ := Int.floor_le_floor hc1
        norm_num at h3
        exact h3
      unfold clampZ
      rw [ht, if_neg (by omega), if_neg (by omega)]

/-- C3 (counterexample): the claim asserts `operator*` computes the alpha
channel like the color channels, with saturation; but at
`RGB(10,10,10,100) * 2.0` the code returns alpha 100 unchanged, while the
claimed per-channel computation would give `trunc(100 * 2) = 200`. -/
theorem C3_counterexample :
    ¬ ((RGB.mulF ⟨10, 10, 10, 100⟩ 2).a = mulChannel 100 2) := by
  have h1 : (RGB.mulF ⟨10, 10, 10, 100⟩ 2).a = 100 := rfl
  have h2 : mulChannel 100 2 = 200 := by
    unfold mulChannel truncQ
    norm_num
    rfl
  rw [h1, h2]
  decide

/-- C3 (amended): `operator+` and `operator-` compute all four channels
independently with saturation to [0,255] (never wrapping); `operator*`
computes the three color channels r, g, b with saturation to [0,255] but
passes the alpha channel through unchanged. -/
theorem C3_arith_saturates (x y : RGB) (f : ℚ) :
    ((x.add y).r = min 255 (x.r + y.r) ∧ (x.add y).g = min 255 (x.g + y.g) ∧
     (x.add y).b = min 255 (x.b + y.b) ∧ (x.add y).a = min 255 (x.a + y.a)) ∧
    ((x.sub y).r = min 255 (x.r - y.r) ∧ (x.sub y).g = min 255 (x.g - y.g) ∧
     (x.sub y).b = min 255 (x.b - y.b) ∧ (x.sub y).a = min 255 (x.a - y.a)) ∧
    ((x.mulF f).r = (clampZ (truncQ ((x.r : ℚ) * f)) 0 255).toNat ∧
     (x.mulF f).g = (clampZ (truncQ ((x.g : ℚ) * f)) 0 255).toNat ∧
     (x.mulF f).b = (clampZ (truncQ ((x.b : ℚ) * f)) 0 255).toNat ∧
     (x.mulF f).a = x.a) := by
  refine ⟨⟨?_, ?_, ?_, ?_⟩, ⟨?_, ?_, ?_, ?_⟩, ⟨?_, ?_, ?_, ?_⟩⟩
  · exact addChannel_eq x.r y.r
  · exact addChannel_eq x.g y.g
  · exact addChannel_eq x.b y.b
  · exact addChannel_eq x.a y.a
  · exact subChannel_eq x.r y.r
  · exact subChannel_eq x.g y.g
  · exact subChannel_eq x.b y.b
  · exact subChannel_eq x.a y.a
  · exact mulChannel_eq x.r f
  · exact mulChannel_eq x.g f
  · exact mulChannel_eq x.b f
  · rfl

/-- C10: whenever the foreground alpha is strictly between 0 and 255 (the only
case in which `alpha_blend` reaches its arithmetic), the computed output alpha
`a_fg + a_bg * (1 - a_fg)` is strictly positive, so the fully-transparent-black
branch is unreachable and the per-channel division is by a nonzero quantity;
moreover the blended result has a positive alpha channel. -/
theorem C10_alphaBlend_out_pos (fg bg : RGB) (h0 : 0 < fg.a) (h255 : fg.a < 255) :
    0 < alphaOut fg bg ∧ 0 < (fg.alphaBlend bg).a ∧ fg.alphaBlend bg ≠ ⟨0, 0, 0, 0⟩ := by
  have hfg0 : (0 : ℚ) < (fg.a : ℚ) / 255 := by
    have : (0 : ℚ) < (fg.a : ℚ) := by exact_mod_cast h0
    linarith
  have hfg1 : (fg.a : ℚ) / 255 < 1 := by
    have : (fg.a : ℚ) < 255 := by exact_mod_cast h255
    linarith
  have hbg0 : (0 : ℚ) ≤ (bg.a : ℚ) / 255 := by positivity
  have hout : 0 < alphaOut fg bg := by
    unfold alphaOut
    nlinarith
  refine ⟨hout, ?_, ?_⟩
  · have ha : (fg.alphaBlend bg).a = (truncQ (alphaOut fg bg * 255)).toNat := by
      unfold RGB.alphaBlend
      rw [if_neg (by omega), if_neg (by omega), if_neg (by exact ne_of_gt hout)]
    rw [ha]
    have h1 : (1 : ℚ) ≤ alphaOut fg bg * 255 := by
      unfold alphaOut
      have h2 : (1 : ℚ) ≤ (fg.a : ℚ) := by exact_mod_cast h0
      nlinarith
    have h2 : (1 : ℤ) ≤ truncQ (alphaOut fg bg * 255) := by
      unfold truncQ
      rw [if_pos (by linarith)]
      rw [Int.le_floor]
      exact_mod_cast h1
    omega
  · intro hcontra
    have ha : (fg.alphaBlend bg).a = (truncQ (alphaOut fg bg * 255)).toNat := by
      unfold RGB.alphaBlend
      rw [if_neg (by omega), if_neg (by omega), if_neg (by exact ne_of_gt hout)]
    rw [hcontra] at ha
    have h1 : (1 : ℚ) ≤ alphaOut fg bg * 255 := by
      unfold alphaOut
      have h2 : (1 : ℚ) ≤ (fg.a : ℚ) := by exact_mod_cast h0
      nlinarith
    have h2 : (1 : ℤ) ≤ truncQ (alphaOut fg bg * 255) := by
      unfold truncQ
      rw [if_pos (by linarith)]
      rw [Int.le_floor]
      exact_mod_cast h1
    simp at ha
    omega

/-- C10 witness at a concrete foreground/background pair. -/
theorem C10_witness :
    0 < alphaOut ⟨10, 20, 30, 128⟩ ⟨1, 2, 3, 0⟩ ∧
      0 < (RGB.alphaBlend ⟨10, 20, 30, 128⟩ ⟨1, 2, 3, 0⟩).a ∧
      RGB.alphaBlend ⟨10, 20, 30, 128⟩ ⟨1, 2, 3, 0⟩ ≠ ⟨0, 0, 0, 0⟩ :=
  C10_alphaBlend_out_pos ⟨10, 20, 30, 128⟩ ⟨1, 2, 3, 0⟩ (by decide) (by decide)

/-- C5: (1) `HSL::adjust_hue` always yields a fixed-point hue in [0,36000),
for every rotation angle including large and negative ones; (2)
`HSV::normalize` always yields a hue in [0,360); (3) rotating an HSL value
(with the invariant hue `< 36000`) by a full circle of 360 degrees returns the
value unchanged. -/
theorem C5_hue_normalization :
    (∀ (c : HSL) (degrees : ℚ), (c.adjust_hue degrees).h < 36000) ∧
    (∀ c : HSV, 0 ≤ c.normalize.h ∧ c.normalize.h < 360) ∧
    (∀ c : HSL, c.h < 36000 → c.adjust_hue 360 = c) := by
  refine ⟨adjust_hue_h_lt, hsv_normalize_h_mem, ?_⟩
  intro c hc
  have hh : (c.adjust_hue 360).h = c.h := by
    have h1 : ((360 : ℤ) : ℚ) = (360 : ℚ) := by norm_num
    have h2 := adjust_hue_int c 360
    rw [h1] at h2
    rw [h2]
    have h3 : ((c.h : ℤ) + 100 * 360) % 36000 = (c.h : ℤ) % 36000 := by
      have h4 := Int.add_mul_emod_self_left (c.h : ℤ) 36000 1
      have h5 : (c.h : ℤ) + 100 * 360 = (c.h : ℤ) + 36000 * 1 := by ring
      rw [h5, h4]
    have hc2 : (c.h : ℤ) < 36000 := by exact_mod_cast hc
    have h9 : (c.h : ℤ) % 36000 = (c.h : ℤ) := Int.emod_eq_of_lt (by omega) hc2
    rw [h3, h9]
    omega
  obtain ⟨hs, hl, ha⟩ := adjust_hue_sla c 360
  cases hadj : c.adjust_hue 360 with
  | mk h2 s2 l2 a2 =>
    cases c with
    | mk h1 s1 l1 a1 =>
      rw [hadj] at hh hs hl ha
      simp only at hh hs hl ha
      rw [hh, hs, hl, ha]

/-- C5 witness: concrete instances of the three conjuncts, including a large
negative rotation; the full-circle no-op hypothesis is discharged at hue
12345. -/
theorem C5_witness :
    ((HSL.adjust_hue ⟨12345, 7, 8, 9⟩ (-12345678)).h < 36000) ∧
      (0 ≤ (HSV.normalize ⟨-725, 2, 3⟩).h ∧ (HSV.normalize ⟨-725, 2, 3⟩).h < 360) ∧
      HSL.adjust_hue ⟨12345, 7, 8, 9⟩ 360 = ⟨12345, 7, 8, 9⟩ :=
  ⟨C5_hue_normalization.1 ⟨12345, 7, 8, 9⟩ (-12345678),
   C5_hue_normalization.2.1 ⟨-725, 2, 3⟩,
   C5_hue_normalization.2.2 ⟨12345, 7, 8, 9⟩ (by decide)⟩

/-- C6: for an HSL value with the invariant hue `< 36000`, `triadic()` returns
exactly 3 colors whose fixed-point hues are the base hue and the base hue
rotated by 120 and 240 degrees (12000 and 24000 fixed-point units) modulo
36000, with saturation, lightness and alpha unchanged on all three; and
`complement()` applied twice returns the original value exactly. -/
theorem C6_triadic_complement (c : HSL) (hc : c.h < 36000) :
    c.triadic.length = 3 ∧
    c.triadic.map HSL.h =
      [c.h, (((c.h : ℤ) + 12000) % 36000).toNat, (((c.h : ℤ) + 24000) % 36000).toNat] ∧
    (∀ x ∈ c.triadic, x.s = c.s ∧ x.l = c.l ∧ x.alpha = c.alpha) ∧
    c.complement.complement = c := by
  refine ⟨rfl, ?_, ?_, ?_⟩
  · unfold HSL.triadic
    simp only [List.map_cons, List.map_nil]
    have h120 := adjust_hue_int c 120
    have h240 := adjust_hue_int c 240
    norm_num at h120 h240
    rw [h120, h240]
  · intro x hx
    unfold HSL.triadic at hx
    simp only [List.mem_cons, List.not_mem_nil, or_false] at hx
    rcases hx with h | h | h
    · rw [h]
      exact ⟨rfl, rfl, rfl⟩
    · rw [h]
      exact adjust_hue_sla c 120
    · rw [h]
      exact adjust_hue_sla c 240
  · have hh : (c.complement.complement).h = c.h := by
      unfold HSL.complement
      have h1 := adjust_hue_int (c.adjust_hue 180) 180
      have h2 := adjust_hue_int c 180
      norm_num at h1 h2
      rw [h1, h2]
      have hlt : ((c.h : ℤ) + 18000) % 36000 < 36000 := Int.emod_lt_of_pos _ (by norm_num)
      have hge : 0 ≤ ((c.h : ℤ) + 18000) % 36000 := Int.emod_nonneg _ (by norm_num)
      have h3 : ((((c.h : ℤ) + 18000) % 36000).toNat : ℤ) = ((c.h : ℤ) + 18000) % 36000 := by
        omega
      rw [h3]
      have h4 : (((c.h : ℤ) + 18000) % 36000 + 18000) % 36000 = ((c.h : ℤ) + 36000) % 36000 := by
        conv_lhs => rw [Int.add_emod, Int.emod_emod_of_dvd _ (by norm_num : (36000:ℤ) ∣ 36000)]
        rw [← Int.add_emod]
        have h5 : (c.h : ℤ) + 18000 + 18000 = (c.h : ℤ) + 36000 := by ring
        rw [h5]
      rw [h4]
      have h6 : ((c.h : ℤ) + 36000) % 36000 = (c.h : ℤ) % 36000 := by
        have h7 := Int.add_mul_emod_self_left (c.h : ℤ) 36000 1
        have h8 : (c.h : ℤ) + 36000 = (c.h : ℤ) + 36000 * 1 := by ring
        rw [h8, h7]
      have hc2 : (c.h : ℤ) < 36000 := by exact_mod_cast hc
      have h9 : (c.h : ℤ) % 36000 = (c.h : ℤ) := Int.emod_eq_of_lt (by omega) hc2
      rw [h6, h9]
      omega
    have hs1 := adjust_hue_sla (c.adjust_hue 180) 180
    have hs2 := adjust_hue_sla c 180
    unfold HSL.complement
    cases hcc : (c.adjust_hue 180).adjust_hue 180 with
    | mk h2 s2 l2 a2 =>
      cases c with
      | mk h1 s1 l1 a1 =>
        unfold HSL.complement at hh
        rw [hcc] at hh hs1
        simp only at hh hs1
        rw [hh, hs1.1, hs2.1, hs1.2.1, hs2.2.1, hs1.2.2, hs2.2.2]

/-- C6 witness at hue 30000 (so that the +120 and +240 rotations wrap). -/
theorem C6_witness :
    (HSL.triadic ⟨30000, 5, 6, 7⟩).length = 3 ∧
    (HSL.triadic ⟨30000, 5, 6, 7⟩).map HSL.h =
      [30000, (((30000 : ℤ) + 12000) % 36000).toNat, (((30000 : ℤ) + 24000) % 36000).toNat] ∧
    (∀ x ∈ HSL.triadic ⟨30000, 5, 6, 7⟩, x.s = 5 ∧ x.l = 6 ∧ x.alpha = 7) ∧
    HSL.complement (HSL.complement ⟨30000, 5, 6, 7⟩) = ⟨30000, 5, 6, 7⟩ :=
  C6_triadic_complement ⟨30000, 5, 6, 7⟩ (by decide)

/-- C7: `HSV::normalize` is idempotent: a second application leaves the hue,
saturation and value fields unchanged. -/
theorem C7_hsv_normalize_idempotent (c : HSV) :
    c.normalize.normalize = c.normalize := by
  obtain ⟨h0, h360⟩ := hsv_normalize_h_mem c
  obtain ⟨hs0, hs1⟩ := clampQ_mem c.s 0 1 (by norm_num)
  obtain ⟨hv0, hv1⟩ := clampQ_mem c.v 0 1 (by norm_num)
  have hh : c.normalize.normalize.h = c.normalize.h := by
    show (if c.normalize.h < 0 ∨ 360 ≤ c.normalize.h then
        (let m := fmodQ c.normalize.h 360; if m < 0 then m + 360 else m)
      else c.normalize.h) = c.normalize.h
    rw [if_neg (by push_neg; exact ⟨h0, h360⟩)]
  have hs : c.normalize.normalize.s = c.normalize.s := by
    show clampQ c.normalize.s 0 1 = c.normalize.s
    have : c.normalize.s = clampQ c.s 0 1 := rfl
    rw [this]
    exact clampQ_of_mem hs0 hs1
  have hv : c.normalize.normalize.v = c.normalize.v := by
    show clampQ c.normalize.v 0 1 = c.normalize.v
    have : c.normalize.v = clampQ c.v 0 1 := rfl
    rw [this]
    exact clampQ_of_mem hv0 hv1
  cases heq : c.normalize.normalize with
  | mk ha hb hc2 =>
    cases heq2 : c.normalize with
    | mk hd he hf =>
      rw [heq, heq2] at hh hs hv
      simp only at hh hs hv
      rw [hh, hs, hv]

/- ### Real-valued embeddings: gamma utilities and the perceptual metrics -/

/-- `std::clamp` on reals. -/
noncomputable def clampR (x lo hi : ℝ) : ℝ := if x < lo then lo else if hi < x then hi else x

/-- One channel of `RGB::apply_gamma`: normalize, `std::pow(., 1/gamma)`,
rescale, clamp to [0,255], truncate to `uint8_t` (types_basic.hpp 340-347). -/
noncomputable def applyGammaChannel (gamma : ℝ) (v : ℕ) : ℕ :=
  (⌊clampR (((v : ℝ) / 255) ^ ((1 : ℝ) / gamma) * 255) 0 255⌋).toNat

/-- One channel of `RGB::remove_gamma`: normalize, `std::pow(., gamma)`,
rescale, clamp to [0,255], truncate to `uint8_t` (types_basic.hpp 349-356). -/
noncomputable def removeGammaChannel (gamma : ℝ) (v : ℕ) : ℕ :=
  (⌊clampR (((v : ℝ) / 255) ^ gamma * 255) 0 255⌋).toNat

/-- `RGB::apply_gamma(gamma)`: per-color-channel gamma encoding, alpha kept. -/
noncomputable def RGB.apply_gamma (c : RGB) (gamma : ℝ) : RGB :=
  ⟨applyGammaChannel gamma c.r, applyGammaChannel gamma c.g, applyGammaChannel gamma c.b, c.a⟩

/-- `RGB::remove_gamma(gamma)`: per-color-channel gamma decoding, alpha kept. -/
noncomputable def RGB.remove_gamma (c : RGB) (gamma : ℝ) : RGB :=
  ⟨removeGammaChannel gamma c.r, removeGammaChannel gamma c.g, removeGammaChannel gamma c.b, c.a⟩

theorem clampR_of_mem {x lo hi : ℝ} (h1 : lo ≤ x) (h2 : x ≤ hi) :
    clampR x lo hi = x := by
  unfold clampR
  rw [if_neg (by linarith), if_neg (by linarith)]

theorem applyGammaChannel_one {v : ℕ} (hv : v ≤ 255) : applyGammaChannel 1 v = v := by
  unfold applyGammaChannel
  have h1 : ((1 : ℝ) / 1) = 1 := by norm_num
  rw [h1, Real.rpow_one]
  have h2 : ((v : ℝ) / 255) * 255 = v := by field_simp
  rw [h2]
  have h3 : clampR (v : ℝ) 0 255 = v :=
    clampR_of_mem (by positivity) (by exact_mod_cast hv)
  rw [h3, Int.floor_natCast]
  omega

theorem removeGammaChannel_one {v : ℕ} (hv : v ≤ 255) : removeGammaChannel 1 v = v := by
  unfold removeGammaChannel
  rw [Real.rpow_one]
  have h2 : ((v : ℝ) / 255) * 255 = v := by field_simp
  rw [h2]
  have h3 : clampR (v : ℝ) 0 255 = v :=
    clampR_of_mem (by positivity) (by exact_mod_cast hv)
  rw [h3, Int.floor_natCast]
  omega

/-- C4 (amended): at `gamma = 1.0` both `apply_gamma` and `remove_gamma` are
the exact identity on every RGB color; the ±2/255 round-trip bound for
arbitrary gamma fails (see the counterexample at `gamma = 1/1024`). -/
theorem C4_gamma_one_identity (c : RGB) (hr : c.r ≤ 255) (hg : c.g ≤ 255)
    (hb : c.b ≤ 255) : c.apply_gamma 1 = c ∧ c.remove_gamma 1 = c := by
  constructor
  · unfold RGB.apply_gamma
    cases c with
    | mk r g b a =>
      simp only at hr hg hb
      rw [applyGammaChannel_one hr, applyGammaChannel_one hg, applyGammaChannel_one hb]
  · unfold RGB.remove_gamma
    cases c with
    | mk r g b a =>
      simp only at hr hg hb
      rw [removeGammaChannel_one hr, removeGammaChannel_one hg, removeGammaChannel_one hb]

/-- C4 witness: the identity at `gamma = 1.0` evaluated on a concrete color. -/
theorem C4_witness :
    RGB.apply_gamma ⟨5, 7, 9, 200⟩ 1 = ⟨5, 7, 9, 200⟩ ∧
      RGB.remove_gamma ⟨5, 7, 9, 200⟩ 1 = ⟨5, 7, 9, 200⟩ :=
  C4_gamma_one_identity ⟨5, 7, 9, 200⟩ (by decide) (by decide) (by decide)

theorem applyGammaChannel_1024_three : applyGammaChannel (1 / 1024) 3 = 0 := by
  unfold applyGammaChannel
  have hexp : (1 : ℝ) / (1 / 1024) = ((1024 : ℕ) : ℝ) := by norm_num
  rw [hexp, Real.rpow_natCast]
  have hx : ((3 : ℕ) : ℝ) / 255 = 1 / 85 := by norm_num
  rw [hx]
  have hbound : ((1 : ℝ) / 85) ^ (1024 : ℕ) ≤ ((1 : ℝ) / 85) ^ (2 : ℕ) :=
    pow_le_pow_of_le_one (by norm_num) (by norm_num) (by norm_num)
  have h2 : ((1 : ℝ) / 85) ^ (2 : ℕ) = 1 / 7225 := by norm_num
  rw [h2] at hbound
  have h0 : (0 : ℝ) ≤ ((1 : ℝ) / 85) ^ (1024 : ℕ) := by positivity
  have hlt : ((1 : ℝ) / 85) ^ (1024 : ℕ) * 255 < 1 := by nlinarith
  have hcl : clampR (((1 : ℝ) / 85) ^ (1024 : ℕ) * 255) 0 255 =
      ((1 : ℝ) / 85) ^ (1024 : ℕ) * 255 :=
    clampR_of_mem (by positivity) (by linarith)
  rw [hcl]
  have hfl : ⌊((1 : ℝ) / 85) ^ (1024 : ℕ) * 255⌋ = 0 := by
    rw [Int.floor_eq_zero_iff]
    constructor
    · positivity
    · exact hlt
  rw [hfl]
  rfl

theorem removeGammaChannel_1024_zero : removeGammaChannel (1 / 1024) 0 = 0 := by
  unfold removeGammaChannel
  have hx : ((0 : ℕ) : ℝ) / 255 = 0 := by norm_num
  rw [hx]
  have h1 : (0 : ℝ) ^ ((1 : ℝ) / 1024) = 0 := Real.zero_rpow (by norm_num)
  rw [h1, zero_mul]
  have hcl : clampR (0 : ℝ) 0 255 = 0 := clampR_of_mem (le_refl 0) (by norm_num)
  rw [hcl]
  norm_num

/-- C4 (counterexample): the round trip `apply_gamma(g)` then `remove_gamma(g)`
at `g = 1/1024` maps the color RGB(3,3,3) to RGB(0,0,0): channel 3 comes back
as 0, off by 3 > 2/255-units, refuting the any-gamma ±2/255 bound. -/
theorem C4_counterexample :
    ((RGB.apply_gamma ⟨3, 3, 3, 255⟩ (1 / 1024)).remove_gamma (1 / 1024)) = ⟨0, 0, 0, 255⟩ ∧
      ¬ (((3 : ℤ) -
        (((RGB.apply_gamma ⟨3, 3, 3, 255⟩ (1 / 1024)).remove_gamma (1 / 1024)).r : ℤ)).natAbs ≤ 2) := by
  have h1 : RGB.apply_gamma ⟨3, 3, 3, 255⟩ (1 / 1024) = ⟨0, 0, 0, 255⟩ := by
    unfold RGB.apply_gamma
    rw [show (⟨3, 3, 3, 255⟩ : RGB).r = 3 from rfl, show (⟨3, 3, 3, 255⟩ : RGB).g = 3 from rfl,
      show (⟨3, 3, 3, 255⟩ : RGB).b = 3 from rfl, applyGammaChannel_1024_three]
  have h2 : RGB.remove_gamma ⟨0, 0, 0, 255⟩ (1 / 1024) = ⟨0, 0, 0, 255⟩ := by
    unfold RGB.remove_gamma
    rw [show (⟨0, 0, 0, 255⟩ : RGB).r = 0 from rfl, show (⟨0, 0, 0, 255⟩ : RGB).g = 0 from rfl,
      show (⟨0, 0, 0, 255⟩ : RGB).b = 0 from rfl, removeGammaChannel_1024_zero]
  rw [h1, h2]
  refine ⟨rfl, ?_⟩
  decide

/-- LAB color: L*, a*, b* and a float alpha (types_lab.hpp). -/
structure LAB where
  l : ℝ
  a : ℝ
  b : ℝ
  alpha : ℝ

/-- `LAB::delta_e` — CIE76, Euclidean in (L*, a*, b*)
(types_lab.hpp lines 177-182). -/
noncomputable def LAB.delta_e (x other : LAB) : ℝ :=
  let dl := x.l - other.l
  let da := x.a - other.a
  let db := x.b - other.b
  Real.sqrt (dl * dl + da * da + db * db)

/-- `LAB::delta_e_2000` — the library's simplified approximation, with
`sl = 1`, `sc = 1 + 0.045 c1`, `sh = 1 + 0.015 c1` built from the first
argument's chroma only (types_lab.hpp lines 185-202). -/
noncomputable def LAB.delta_e_2000 (x other : LAB) : ℝ :=
  let dl := x.l - other.l
  let da := x.a - other.a
  let db := x.b - other.b
  let c1 := Real.sqrt (x.a * x.a + x.b * x.b)
  let c2 := Real.sqrt (other.a * other.a + other.b * other.b)
  let dc := c1 - c2
  let dh := Real.sqrt (da * da + db * db - dc * dc)
  let sl := (1 : ℝ)
  let sc := 1 + 0.045 * c1
  let sh := 1 + 0.015 * c1
  Real.sqrt ((dl / sl) * (dl / sl) + (dc / sc) * (dc / sc) + (dh / sh) * (dh / sh))

/-- LCH color: lightness, chroma, hue degrees (types_lch.hpp). -/
structure LCH where
  l : ℝ
  c : ℝ
  h : ℝ

/-- `LCH::distance` — custom metric with a wrap-aware, chroma-weighted hue
term `2 sqrt(avg_c * other.c) sin(dh * pi / 360)` (types_lch.hpp 124-140). -/
noncomputable def LCH.distance (x other : LCH) : ℝ :=
  let dl := x.l - other.l
  let dc := x.c - other.c
  let dh0 := x.h - other.h
  let dh := if 180 < |dh0| then (if 0 < dh0 then dh0 - 360 else dh0 + 360) else dh0
  let avg_c := (x.c + other.c) / 2
  let dh_weighted := 2 * Real.sqrt (avg_c * other.c) * Real.sin (dh * Real.pi / 360)
  Real.sqrt (dl * dl + dc * dc + dh_weighted * dh_weighted)

theorem delta_e_self (x : LAB) : x.delta_e x = 0 := by
  unfold LAB.delta_e
  simp only [sub_self, mul_zero, zero_mul, add_zero, zero_add]
  exact Real.sqrt_zero

theorem delta_e_comm (x y : LAB) : x.delta_e y = y.delta_e x := by
  unfold LAB.delta_e
  ring_nf

theorem delta_e_2000_self (x : LAB) : x.delta_e_2000 x = 0 := by
  unfold LAB.delta_e_2000
  simp only [sub_self, mul_zero, zero_mul, add_zero, zero_add, zero_sub, neg_zero, zero_div]
  rw [Real.sqrt_zero]
  simp only [mul_zero, zero_mul, add_zero, zero_add, zero_div]
  exact Real.sqrt_zero

theorem lch_distance_self (x : LCH) : x.distance x = 0 := by
  unfold LCH.distance
  simp only [sub_self, abs_zero]
  rw [if_neg (by norm_num)]
  norm_num

/-- C2 (amended): each of the three metrics vanishes on identical arguments,
and `LAB::delta_e` is symmetric; the other two metrics are not symmetric (see
the counterexample theorem). -/
theorem C2_metric_properties :
    (∀ x : LAB, x.delta_e x = 0) ∧ (∀ x : LAB, x.delta_e_2000 x = 0) ∧
      (∀ x : LCH, x.distance x = 0) ∧ (∀ x y : LAB, x.delta_e y = y.delta_e x) :=
  ⟨delta_e_self, delta_e_2000_self, lch_distance_self, delta_e_comm⟩

theorem sqrt_twentyfive : Real.sqrt 25 = 5 := by
  rw [show (25 : ℝ) = 5 ^ 2 by norm_num, Real.sqrt_sq (by norm_num)]

/-- C2 (counterexample): `delta_e_2000` and `LCH::distance` are not symmetric.
At LAB points x = (0,3,4), y = (0,0,0): `x.delta_e_2000 y = 5/1.225` while
`y.delta_e_2000 x = 5`; at LCH points u = (0,4,180), v = (0,0,0):
`u.distance v = 4` while `v.distance u = sqrt 48 > 4`. -/
theorem C2_counterexample :
    LAB.delta_e_2000 ⟨0, 3, 4, 255⟩ ⟨0, 0, 0, 255⟩ ≠
        LAB.delta_e_2000 ⟨0, 0, 0, 255⟩ ⟨0, 3, 4, 255⟩ ∧
      LCH.distance ⟨0, 4, 180⟩ ⟨0, 0, 0⟩ ≠ LCH.distance ⟨0, 0, 0⟩ ⟨0, 4, 180⟩ := by
  constructor
  · have hxy : LAB.delta_e_2000 ⟨0, 3, 4, 255⟩ ⟨0, 0, 0, 255⟩ = 5 / 1.225 := by
      unfold LAB.delta_e_2000
      norm_num [sqrt_twentyfive]
      rw [show (40000 : ℝ) = 200 ^ 2 by norm_num, Real.sqrt_sq (by norm_num),
        show (2401 : ℝ) = 49 ^ 2 by norm_num, Real.sqrt_sq (by norm_num)]
    have hyx : LAB.delta_e_2000 ⟨0, 0, 0, 255⟩ ⟨0, 3, 4, 255⟩ = 5 := by
      unfold LAB.delta_e_2000
      norm_num [sqrt_twentyfive]
    rw [hxy, hyx]
    norm_num
  · have hd1 : LCH.distance ⟨0, 4, 180⟩ ⟨0, 0, 0⟩ = 4 := by
      unfold LCH.distance
      norm_num
      rw [show (16 : ℝ) = 4 ^ 2 by norm_num, Real.sqrt_sq (by norm_num)]
    have hd2 : LCH.distance ⟨0, 0, 0⟩ ⟨0, 4, 180⟩ = Real.sqrt 48 := by
      unfold LCH.distance
      norm_num
      rw [show (-(180 * Real.pi) / 360 : ℝ) = -(Real.pi / 2) by ring,
        Real.sin_neg, Real.sin_pi_div_two]
      have h8 : Real.sqrt 8 * Real.sqrt 8 = 8 := Real.mul_self_sqrt (by norm_num)
      have harg : (16 : ℝ) + 2 * Real.sqrt 8 * -1 * (2 * Real.sqrt 8 * -1)
          = 16 + 4 * (Real.sqrt 8 * Real.sqrt 8) := by ring
      rw [harg, h8]
      norm_num
    rw [hd1, hd2]
    intro hcontra
    have h16 : Real.sqrt 16 < Real.sqrt 48 := by
      apply Real.sqrt_lt_sqrt (by norm_num) (by norm_num)
    rw [show (16 : ℝ) = 4 ^ 2 by norm_num, Real.sqrt_sq (by norm_num)] at h16
    rw [← hcontra] at h16
    exact lt_irrefl _ h16

/- ### The table-based LAB pipeline (types_lab.hpp, lab_tables namespace) -/

/-- Entry `i` of the 256-entry gamma-to-linear table:
`(val > 0.04045) ? pow((val+0.055)/1.055, 2.4) : val/12.92` at `val = i/255`. -/
noncomputable def gammaToLinearEntry (i : ℕ) : ℝ :=
  if 0.04045 < (i : ℝ) / 255 then (((i : ℝ) / 255 + 0.055) / 1.055) ^ (2.4 : ℝ)
  else ((i : ℝ) / 255) / 12.92

/-- Entry `i` of the 4096-entry linear-to-gamma table:
`(val > 0.0031308) ? 1.055*pow(val, 1/2.4) - 0.055 : 12.92*val` at
`val = i/4095`. -/
noncomputable def linearToGammaEntry (i : ℕ) : ℝ :=
  if 0.0031308 < (i : ℝ) / 4095 then 1.055 * ((i : ℝ) / 4095) ^ ((1 : ℝ) / 2.4) - 0.055
  else 12.92 * ((i : ℝ) / 4095)

/-- Entry `i` of the 4096-entry LAB f table:
`(t > 0.008856) ? pow(t, 1/3) : 7.787 t + 16/116` at `t = i/4095*2`. -/
noncomputable def labFEntry (i : ℕ) : ℝ :=
  if 0.008856 < (i : ℝ) / 4095 * 2 then ((i : ℝ) / 4095 * 2) ^ ((1 : ℝ) / 3)
  else 7.787 * ((i : ℝ) / 4095 * 2) + 16 / 116

/-- Entry `i` of the 4096-entry LAB f-inverse table, with `t = i/4095*2` and
`t3 = t*t*t`: `(t3 > 0.008856) ? t3 : (t - 16/116)/7.787`. -/
noncomputable def labFInvEntry (i : ℕ) : ℝ :=
  let t : ℝ := (i : ℝ) / 4095 * 2
  if 0.008856 < t * t * t then t * t * t else (t - 16 / 116) / 7.787

/-- `fast_gamma_to_linear`: direct index into the 256-entry table. -/
noncomputable def fastGammaToLinear (v : ℕ) : ℝ := gammaToLinearEntry v

/-- `fast_linear_to_gamma`: clamp into [0,1], truncate `val*4095` to a table
index. -/
noncomputable def fastLinearToGamma (val : ℝ) : ℝ :=
  linearToGammaEntry (⌊clampR val 0 1 * 4095⌋).toNat

/-- `fast_lab_f`: clamp `t/2` into [0,1], truncate `t*4095` to an index. -/
noncomputable def fastLabF (t : ℝ) : ℝ :=
  labFEntry (⌊clampR (t / 2) 0 1 * 4095⌋).toNat

/-- `fast_lab_f_inv`: clamp `t/2` into [0,1], truncate to an index. -/
noncomputable def fastLabFInv (t : ℝ) : ℝ :=
  labFInvEntry (⌊clampR (t / 2) 0 1 * 4095⌋).toNat

/-- `LAB::fromRGB` (types_lab.hpp lines 119-147): table-based linearization,
sRGB matrix, D65 normalization, table-based f, then L*, a*, b*. -/
noncomputable def LAB.fromRGB (c : RGB) : LAB :=
  let r_val := fastGammaToLinear c.r
  let g_val := fastGammaToLinear c.g
  let b_val := fastGammaToLinear c.b
  let x := (r_val * 0.4124564 + g_val * 0.3575761 + b_val * 0.1804375) / 0.95047
  let y := (r_val * 0.2126729 + g_val * 0.7151522 + b_val * 0.0721750) / 1.00000
  let z := (r_val * 0.0193339 + g_val * 0.1191920 + b_val * 0.9503041) / 1.08883
  let fx := fastLabF x
  let fy := fastLabF y
  let fz := fastLabF z
  ⟨116 * fy - 16, 500 * (fx - fy), 200 * (fy - fz), (c.a : ℝ)⟩

/-- `std::clamp(int(std::round(v * 255)), 0, 255)` for the 8-bit outputs of
`LAB::to_rgb`. Negative half-integers round differently in C (`-0.5 ↦ -1`)
than under `round` (`-0.5 ↦ 0`), but both land on 0 after the clamp, so on
every input the two agree. -/
noncomputable def roundClamp255 (v : ℝ) : ℕ := (clampZ (round (v * 255)) 0 255).toNat

/-- `LAB::to_rgb` (types_lab.hpp lines 150-174). -/
noncomputable def LAB.to_rgb (lab : LAB) : RGB :=
  let fy := (lab.l + 16) / 116
  let fx := lab.a / 500 + fy
  let fz := fy - lab.b / 200
  let x := fastLabFInv fx * 0.95047
  let y := fastLabFInv fy * 1.00000
  let z := fastLabFInv fz * 1.08883
  let r_val := x * 3.2404542 + y * (-1.5371385) + z * (-0.4985314)
  let g_val := x * (-0.9692660) + y * 1.8760108 + z * 0.0415560
  let b_val := x * 0.0556434 + y * (-0.2040259) + z * 1.0572252
  ⟨roundClamp255 (fastLinearToGamma r_val), roundClamp255 (fastLinearToGamma g_val),
   roundClamp255 (fastLinearToGamma b_val), (⌊lab.alpha⌋).toNat⟩

/-- `utils::color_distance`: CIE76 delta E between the LAB images of two RGB
colors (utils.hpp lines 249-253). -/
noncomputable def color_distance (c1 c2 : RGB) : ℝ :=
  (LAB.fromRGB c1).delta_e (LAB.fromRGB c2)

/-- The scan loop of `utils::find_closest_color`: strict `<` update against
the running minimum (utils.hpp lines 315-321). -/
noncomputable def fccLoop (target : RGB) : List RGB → RGB × ℝ → RGB × ℝ
  | [], acc => acc
  | c :: rest, (best, bd) =>
      fccLoop target rest
        (if color_distance target c < bd then (c, color_distance target c) else (best, bd))

/-- `utils::find_closest_color` (utils.hpp lines 308-324): empty palette
returns the target; otherwise scan the whole palette starting from
`palette[0]` as the incumbent. -/
noncomputable def find_closest_color (target : RGB) (palette : List RGB) : RGB :=
  match palette with
  | [] => target
  | p :: _ => (fccLoop target palette (p, color_distance target p)).1

theorem fccLoop_spec (target : RGB) :
    ∀ (l : List RGB) (best : RGB) (bd : ℝ), bd = color_distance target best →
      ((fccLoop target l (best, bd)).2 =
          color_distance target (fccLoop target l (best, bd)).1) ∧
      (fccLoop target l (best, bd)).2 ≤ bd ∧
      (∀ c ∈ l, (fccLoop target l (best, bd)).2 ≤ color_distance target c) ∧
      ((fccLoop target l (best, bd)).1 = best ∨
        ∃ i, ∃ hi : i < l.length, (fccLoop target l (best, bd)).1 = l.get ⟨i, hi⟩ ∧
          (fccLoop target l (best, bd)).2 < bd ∧
          ∀ j, ∀ hj : j < l.length, j < i →
            (fccLoop target l (best, bd)).2 < color_distance target (l.get ⟨j, hj⟩)) := by
  intro l
  induction l with
  | nil =>
    intro best bd hbd
    refine ⟨?_, le_refl _, ?_, Or.inl rfl⟩
    · exact hbd
    · intro x hx
      exact absurd hx (List.not_mem_nil x)
  | cons c rest ih =>
    intro best bd hbd
    show _ ∧ _
    rw [show fccLoop target (c :: rest) (best, bd) = fccLoop target rest
        (if color_distance target c < bd then (c, color_distance target c)
         else (best, bd)) from rfl]
    by_cases h : color_distance target c < bd
    · rw [if_pos h]
      obtain ⟨ih1, ih2, ih3, ih4⟩ := ih c (color_distance target c) rfl
      refine ⟨ih1, le_of_lt (lt_of_le_of_lt ih2 h), ?_, ?_⟩
      · intro x hx
        rcases List.mem_cons.mp hx with hx | hx
        · rw [hx]; exact ih2
        · exact ih3 x hx
      · rcases ih4 with h4 | ⟨i, hi, hget, hlt, hfirst⟩
        · refine Or.inr ⟨0, by simp, ?_, lt_of_le_of_lt ih2 h, ?_⟩
          · rw [h4]; rfl
          · intro j hj hj0; omega
        · refine Or.inr ⟨i + 1, by simpa using Nat.succ_lt_succ hi, ?_, lt_trans hlt h, ?_⟩
          · rw [hget]; rfl
          · intro j hj hji
            cases j with
            | zero => exact hlt
            | succ j2 =>
              have hj2 : j2 < rest.length := by simpa using Nat.lt_of_succ_lt_succ hj
              have := hfirst j2 hj2 (by omega)
              exact this
    · rw [if_neg h]
      push_neg at h
      obtain ⟨ih1, ih2, ih3, ih4⟩ := ih best bd hbd
      refine ⟨ih1, ih2, ?_, ?_⟩
      · intro x hx
        rcases List.mem_cons.mp hx with hx | hx
        · rw [hx]; exact le_trans ih2 h
        · exact ih3 x hx
      · rcases ih4 with h4 | ⟨i, hi, hget, hlt, hfirst⟩
        · exact Or.inl h4
        · refine Or.inr ⟨i + 1, by simpa using Nat.succ_lt_succ hi, ?_, hlt, ?_⟩
          · rw [hget]; rfl
          · intro j hj hji
            cases j with
            | zero => exact lt_of_lt_of_le hlt h
            | succ j2 =>
              have hj2 : j2 < rest.length := by simpa using Nat.lt_of_succ_lt_succ hj
              exact hfirst j2 hj2 (by omega)

/-- C8: `find_closest_color` returns the target unchanged on an empty palette;
on a non-empty palette it returns the palette entry of minimal LAB `delta_e`
distance to the target, and among ties the first-encountered one in palette
order (every strictly earlier entry has strictly larger distance). -/
theorem C8_find_closest_color (target : RGB) (palette : List RGB) :
    (palette = [] → find_closest_color target palette = target) ∧
    (palette ≠ [] →
      ∃ i, ∃ hi : i < palette.length,
        find_closest_color target palette = palette.get ⟨i, hi⟩ ∧
        (∀ j, ∀ hj : j < palette.length,
          color_distance target (palette.get ⟨i, hi⟩) ≤
            color_distance target (palette.get ⟨j, hj⟩)) ∧
        (∀ j, ∀ hj : j < palette.length, j < i →
          color_distance target (palette.get ⟨i, hi⟩) <
            color_distance target (palette.get ⟨j, hj⟩))) := by
  constructor
  · intro hempty
    rw [hempty]
    rfl
  · intro hne
    match palette, hne with
    | p :: rest, _ =>
      obtain ⟨h1, h2, h3, h4⟩ :=
        fccLoop_spec target (p :: rest) p (color_distance target p) rfl
      set r := fccLoop target (p :: rest) (p, color_distance target p) with hr
      have hfc : find_closest_color target (p :: rest) = r.1 := rfl
      rcases h4 with h4 | ⟨i, hi, hget, hlt, hfirst⟩
      · refine ⟨0, by simp, ?_, ?_, ?_⟩
        · rw [hfc, h4]; rfl
        · intro j hj
          have := h3 ((p :: rest).get ⟨j, hj⟩) (List.get_mem _ _ hj)
          have hd : color_distance target ((p :: rest).get ⟨0, by simp⟩) = r.2 := by
            have : (p :: rest).get ⟨0, by simp⟩ = p := rfl
            rw [this]
            rw [h4] at h1
            exact h1.symm
          rw [hd]
          exact this
        · intro j hj hj0; omega
      · refine ⟨i, hi, ?_, ?_, ?_⟩
        · rw [hfc, hget]
        · intro j hj
          have := h3 ((p :: rest).get ⟨j, hj⟩) (List.get_mem _ _ hj)
          rw [← hget, ← h1]
          exact this
        · intro j hj hji
          rw [← hget, ← h1]
          exact hfirst j hj hji

/-- C8 witness: a two-element palette whose first entry is the target itself,
instantiating the non-empty branch (distance-0 first entry is selected). -/
theorem C8_witness :
    ∃ i, ∃ hi : i < ([⟨1, 2, 3, 255⟩, ⟨9, 9, 9, 255⟩] : List RGB).length,
      find_closest_color ⟨1, 2, 3, 255⟩ [⟨1, 2, 3, 255⟩, ⟨9, 9, 9, 255⟩] =
        ([⟨1, 2, 3, 255⟩, ⟨9, 9, 9, 255⟩] : List RGB).get ⟨i, hi⟩ ∧
      (∀ j, ∀ hj : j < ([⟨1, 2, 3, 255⟩, ⟨9, 9, 9, 255⟩] : List RGB).length,
        color_distance ⟨1, 2, 3, 255⟩
            (([⟨1, 2, 3, 255⟩, ⟨9, 9, 9, 255⟩] : List RGB).get ⟨i, hi⟩) ≤
          color_distance ⟨1, 2, 3, 255⟩
            (([⟨1, 2, 3, 255⟩, ⟨9, 9, 9, 255⟩] : List RGB).get ⟨j, hj⟩)) ∧
      (∀ j, ∀ hj : j < ([⟨1, 2, 3, 255⟩, ⟨9, 9, 9, 255⟩] : List RGB).length, j < i →
        color_distance ⟨1, 2, 3, 255⟩
            (([⟨1, 2, 3, 255⟩, ⟨9, 9, 9, 255⟩] : List RGB).get ⟨i, hi⟩) <
          color_distance ⟨1, 2, 3, 255⟩
            (([⟨1, 2, 3, 255⟩, ⟨9, 9, 9, 255⟩] : List RGB).get ⟨j, hj⟩)) :=
  (C8_find_closest_color ⟨1, 2, 3, 255⟩ [⟨1, 2, 3, 255⟩, ⟨9, 9, 9, 255⟩]).2 (by simp)

/- ### utils::extract_dominant_colors (utils.hpp lines 499-533) -/

/-- `utils::rgb_distance`: Euclidean distance in 8-bit RGB space
(utils.hpp lines 256-261). -/
noncomputable def rgb_distance (c1 c2 : RGB) : ℝ :=
  let dr := (c1.r : ℝ) - c2.r
  let dg := (c1.g : ℝ) - c2.g
  let db := (c1.b : ℝ) - c2.b
  Real.sqrt (dr * dr + dg * dg + db * db)

/-- `std::numeric_limits<double>::max()`, exactly `2^1024 - 2^971`. -/
noncomputable def dblMax : ℝ := 2 ^ (1024 : ℕ) - 2 ^ (971 : ℕ)

/-- The inner loop of `extract_dominant_colors`: minimum `rgb_distance` from
`c` to the already-selected colors, starting from `DBL_MAX`. -/
noncomputable def minDistToSel (dom : List RGB) (c : RGB) : ℝ :=
  dom.foldl (fun m s => min m (rgb_distance c s)) dblMax

/-- The index scan of `extract_dominant_colors`: starting from
`best_distance = 0`, `best_index = 0`, strictly-greater updates
(utils.hpp lines 509-526). `i0` is the index of the head of the remaining
scan slice, `bd`/`bi` the incumbent distance and index. -/
noncomputable def edcPick (dom : List RGB) : List RGB → ℕ → ℝ → ℕ → ℕ
  | [], _, _, bi => bi
  | c :: rest, i0, bd, bi =>
      if bd < minDistToSel dom c then edcPick dom rest (i0 + 1) (minDistToSel dom c) i0
      else edcPick dom rest (i0 + 1) bd bi

/-- The outer `while (dominant.size() < count && !remaining.empty())` loop of
`extract_dominant_colors`; the fuel argument only bounds the iteration count
(each iteration consumes one remaining element, so `fuel = |remaining|`
suffices). -/
noncomputable def edcLoop (count : ℕ) : ℕ → List RGB → List RGB → List RGB
  | 0, dom, _ => dom
  | fuel + 1, dom, rem =>
      if dom.length < count ∧ rem ≠ [] then
        edcLoop count fuel (dom ++ [rem.getD (edcPick dom rem 0 0 0) ⟨0, 0, 0, 255⟩])
          (rem.eraseIdx (edcPick dom rem 0 0 0))
      else dom

/-- `utils::extract_dominant_colors (colors, count)`. -/
noncomputable def extract_dominant_colors (colors : List RGB) (count : ℕ) : List RGB :=
  if colors = [] then [] else edcLoop count colors.length [] colors

theorem rgb_distance_nonneg (c1 c2 : RGB) : 0 ≤ rgb_distance c1 c2 :=
  Real.sqrt_nonneg _

theorem dblMax_pos : (0 : ℝ) < dblMax := by
  unfold dblMax
  have h1 : (2 : ℝ) ^ (971 : ℕ) < 2 ^ (1024 : ℕ) :=
    pow_lt_pow_right₀ (by norm_num) (by norm_num)
  linarith

theorem minDistToSel_nonneg (dom : List RGB) (c : RGB) : 0 ≤ minDistToSel dom c := by
  unfold minDistToSel
  have key : ∀ (l : List RGB) (m : ℝ), 0 ≤ m →
      0 ≤ l.foldl (fun m s => min m (rgb_distance c s)) m := by
    intro l
    induction l with
    | nil => intro m hm; exact hm
    | cons s rest ih =>
      intro m hm
      exact ih _ (le_min hm (rgb_distance_nonneg c s))
  exact key dom dblMax (le_of_lt dblMax_pos)

theorem edcPick_cons (dom : List RGB) (c : RGB) (rest : List RGB) (i0 : ℕ) (bd : ℝ)
    (bi : ℕ) :
    edcPick dom (c :: rest) i0 bd bi =
      if bd < minDistToSel dom c then edcPick dom rest (i0 + 1) (minDistToSel dom c) i0
      else edcPick dom rest (i0 + 1) bd bi := rfl

theorem edcPick_spec (dom : List RGB) :
    ∀ (l : List RGB) (i0 : ℕ) (bd : ℝ) (bi : ℕ),
      (edcPick dom l i0 bd bi = bi ∧
        ∀ k, ∀ hk : k < l.length, minDistToSel dom (l.get ⟨k, hk⟩) ≤ bd) ∨
      (∃ k, ∃ hk : k < l.length, edcPick dom l i0 bd bi = i0 + k ∧
        bd < minDistToSel dom (l.get ⟨k, hk⟩) ∧
        (∀ m, ∀ hm : m < l.length, m < k →
          minDistToSel dom (l.get ⟨m, hm⟩) < minDistToSel dom (l.get ⟨k, hk⟩)) ∧
        (∀ m, ∀ hm : m < l.length,
          minDistToSel dom (l.get ⟨m, hm⟩) ≤ minDistToSel dom (l.get ⟨k, hk⟩))) := by
  intro l
  induction l with
  | nil =>
    intro i0 bd bi
    left
    refine ⟨rfl, ?_⟩
    intro k hk
    simp at hk
  | cons c rest ih =>
    intro i0 bd bi
    show (edcPick dom (c :: rest) i0 bd bi = bi ∧ _) ∨ _
    by_cases h : bd < minDistToSel dom c
    · rw [edcPick_cons, if_pos h]
      rcases ih (i0 + 1) (minDistToSel dom c) i0 with ⟨heq, hall⟩ |
          ⟨k, hk, heq, hbeat, hfirst, hmax⟩
      · right
        refine ⟨0, by simp, by omega, h, ?_, ?_⟩
        · intro m hm hm0; omega
        · intro m hm
          cases m with
          | zero => exact le_refl _
          | succ m2 =>
            have hm2 : m2 < rest.length := by simpa using Nat.lt_of_succ_lt_succ hm
            exact hall m2 hm2
      · right
        refine ⟨k + 1, by simpa using Nat.succ_lt_succ hk, by omega,
          lt_trans h hbeat, ?_, ?_⟩
        · intro m hm hmk
          cases m with
          | zero => exact hbeat
          | succ m2 =>
            have hm2 : m2 < rest.length := by simpa using Nat.lt_of_succ_lt_succ hm
            exact hfirst m2 hm2 (by omega)
        · intro m hm
          cases m with
          | zero => exact le_of_lt hbeat
          | succ m2 =>
            have hm2 : m2 < rest.length := by simpa using Nat.lt_of_succ_lt_succ hm
            exact hmax m2 hm2
    · rw [edcPick_cons, if_neg h]
      push_neg at h
      rcases ih (i0 + 1) bd bi with ⟨heq, hall⟩ | ⟨k, hk, heq, hbeat, hfirst, hmax⟩
      · left
        refine ⟨heq, ?_⟩
        intro m hm
        cases m with
        | zero => exact h
        | succ m2 =>
          have hm2 : m2 < rest.length := by simpa using Nat.lt_of_succ_lt_succ hm
          exact hall m2 hm2
      · right
        refine ⟨k + 1, by simpa using Nat.succ_lt_succ hk, by omega, hbeat, ?_, ?_⟩
        · intro m hm hmk
          cases m with
          | zero => exact lt_of_le_of_lt h hbeat
          | succ m2 =>
            have hm2 : m2 < rest.length := by simpa using Nat.lt_of_succ_lt_succ hm
            exact hfirst m2 hm2 (by omega)
        · intro m hm
          cases m with
          | zero => exact le_of_lt (lt_of_le_of_lt h hbeat)
          | succ m2 =>
            have hm2 : m2 < rest.length := by simpa using Nat.lt_of_succ_lt_succ hm
            exact hmax m2 hm2

/-- The initial scan (`bd = 0`, `bi = 0`) picks the first index whose
min-distance to the selected set is maximal. -/
theorem edcPick_first_argmax (dom : List RGB) (rem : List RGB) (hne : rem ≠ []) :
    ∃ hj : edcPick dom rem 0 0 0 < rem.length,
      (∀ k, ∀ hk : k < rem.length,
        minDistToSel dom (rem.get ⟨k, hk⟩) ≤
          minDistToSel dom (rem.get ⟨edcPick dom rem 0 0 0, hj⟩)) ∧
      (∀ k, ∀ hk : k < rem.length, k < edcPick dom rem 0 0 0 →
        minDistToSel dom (rem.get ⟨k, hk⟩) <
          minDistToSel dom (rem.get ⟨edcPick dom rem 0 0 0, hj⟩)) := by
  have hlen : 0 < rem.length := List.length_pos.mpr hne
  rcases edcPick_spec dom rem 0 0 0 with ⟨heq, hall⟩ | ⟨k, hk, heq, _, hfirst, hmax⟩
  · rw [heq]
    refine ⟨hlen, ?_, ?_⟩
    · intro k hk
      exact le_trans (hall k hk) (minDistToSel_nonneg dom _)
    · intro k hk hk0
      omega
  · have heq2 : edcPick dom rem 0 0 0 = k := by omega
    rw [heq2]
    refine ⟨hk, ?_, ?_⟩
    · intro m hm
      exact hmax m hm
    · intro m hm hmk
      exact hfirst m hm (by omega)

theorem edcLoop_zero (cnt : ℕ) (dom rem : List RGB) : edcLoop cnt 0 dom rem = dom := rfl

theorem edcLoop_succ_eq (cnt fuel : ℕ) (dom rem : List RGB) :
    edcLoop cnt (fuel + 1) dom rem =
      if dom.length < cnt ∧ rem ≠ [] then
        edcLoop cnt fuel (dom ++ [rem.getD (edcPick dom rem 0 0 0) ⟨0, 0, 0, 255⟩])
          (rem.eraseIdx (edcPick dom rem 0 0 0))
      else dom := rfl

theorem edcLoop_succ (cnt fuel : ℕ) (dom rem : List RGB) (hcnt : dom.length < cnt)
    (hne : rem ≠ []) :
    edcLoop cnt (fuel + 1) dom rem =
      edcLoop cnt fuel (dom ++ [rem.getD (edcPick dom rem 0 0 0) ⟨0, 0, 0, 255⟩])
        (rem.eraseIdx (edcPick dom rem 0 0 0)) := by
  rw [edcLoop_succ_eq, if_pos ⟨hcnt, hne⟩]

theorem edcLoop_stop (cnt fuel : ℕ) (dom rem : List RGB)
    (h : ¬(dom.length < cnt ∧ rem ≠ [])) : edcLoop cnt (fuel + 1) dom rem = dom := by
  rw [edcLoop_succ_eq, if_neg h]

theorem edcLoop_length (cnt : ℕ) :
    ∀ (fuel : ℕ) (dom rem : List RGB), rem.length ≤ fuel →
      (edcLoop cnt fuel dom rem).length =
        if dom.length < cnt then min cnt (dom.length + rem.length) else dom.length := by
  intro fuel
  induction fuel with
  | zero =>
    intro dom rem hle
    rw [edcLoop_zero]
    have h0 : rem.length = 0 := by omega
    split <;> omega
  | succ f ihf =>
    intro dom rem hle
    by_cases hc : dom.length < cnt ∧ rem ≠ []
    · rw [edcLoop_succ cnt f dom rem hc.1 hc.2]
      obtain ⟨hj, _, _⟩ := edcPick_first_argmax dom rem hc.2
      have hlen1 : (rem.eraseIdx (edcPick dom rem 0 0 0)).length = rem.length - 1 :=
        List.length_eraseIdx_of_lt hj
      have hlen2 : (dom ++ [rem.getD (edcPick dom rem 0 0 0) ⟨0, 0, 0, 255⟩]).length
          = dom.length + 1 := by
        rw [List.length_append]
        rfl
      rw [ihf _ _ (by omega)]
      rw [hlen1, hlen2]
      have hr1 : 1 ≤ rem.length := by
        have := List.length_pos.mpr hc.2
        omega
      have hdc := hc.1
      have harith : dom.length + 1 + (rem.length - 1) = dom.length + rem.length := by omega
      rw [harith]
      split <;> omega
    · rw [edcLoop_stop cnt f dom rem hc]
      push_neg at hc
      split
      · rename_i hlt
        have h0 : rem = [] := hc hlt
        rw [h0]
        simp only [List.length_nil]
        omega
      · rfl

theorem edcLoop_prefix (cnt : ℕ) :
    ∀ (fuel : ℕ) (dom rem : List RGB), ∃ suf, edcLoop cnt fuel dom rem = dom ++ suf := by
  intro fuel
  induction fuel with
  | zero =>
    intro dom rem
    exact ⟨[], by rw [edcLoop_zero, List.append_nil]⟩
  | succ f ihf =>
    intro dom rem
    by_cases hc : dom.length < cnt ∧ rem ≠ []
    · rw [edcLoop_succ cnt f dom rem hc.1 hc.2]
      obtain ⟨suf, hsuf⟩ :=
        ihf (dom ++ [rem.getD (edcPick dom rem 0 0 0) ⟨0, 0, 0, 255⟩])
          (rem.eraseIdx (edcPick dom rem 0 0 0))
      exact ⟨[rem.getD (edcPick dom rem 0 0 0) ⟨0, 0, 0, 255⟩] ++ suf,
        by rw [hsuf, List.append_assoc]⟩
    · exact ⟨[], by rw [edcLoop_stop cnt f dom rem hc, List.append_nil]⟩

/-- When nothing is selected yet, every candidate has min-distance `DBL_MAX`,
so the first scan picks index 0, i.e. the first input color. -/
theorem edcPick_empty_dom (rem : List RGB) (hne : rem ≠ []) :
    edcPick [] rem 0 0 0 = 0 := by
  obtain ⟨hj, _, hfirst⟩ := edcPick_first_argmax [] rem hne
  by_contra hne0
  have h0 : 0 < edcPick [] rem 0 0 0 := by omega
  have hlen : 0 < rem.length := List.length_pos.mpr hne
  have := hfirst 0 hlen h0
  have he1 : minDistToSel [] (rem.get ⟨0, hlen⟩) = dblMax := rfl
  have he2 : minDistToSel [] (rem.get ⟨edcPick [] rem 0 0 0, hj⟩) = dblMax := rfl
  rw [he1, he2] at this
  exact lt_irrefl _ this

/-- C9: `extract_dominant_colors` performs greedy farthest-point (maximin)
selection. Conjuncts: (1) empty input returns empty; (2) a single-color input
returns exactly that color; (3) selection stops after `count` picks or when
the input is exhausted (the output length is `min count |input|`); (4) on a
non-empty input with positive count the first selected color is the first
input color; (5) each loop iteration picks the remaining color whose minimum
`rgb_distance` to the already-selected set is maximal, with the
first-encountered index on ties, appends it, and removes it from the
remaining pool. -/
theorem C9_extract_dominant_greedy :
    (∀ count : ℕ, extract_dominant_colors [] count = []) ∧
    (∀ (c : RGB) (count : ℕ), 0 < count → extract_dominant_colors [c] count = [c]) ∧
    (∀ (colors : List RGB) (count : ℕ),
      (extract_dominant_colors colors count).length = min count colors.length) ∧
    (∀ (colors : List RGB) (count : ℕ) (hne : colors ≠ []), 0 < count →
      ∃ tail, extract_dominant_colors colors count =
        colors.get ⟨0, List.length_pos.mpr hne⟩ :: tail) ∧
    (∀ (count fuel : ℕ) (dom rem : List RGB), dom.length < count → rem ≠ [] →
      ∃ j, ∃ hj : j < rem.length,
        (∀ k, ∀ hk : k < rem.length,
          minDistToSel dom (rem.get ⟨k, hk⟩) ≤ minDistToSel dom (rem.get ⟨j, hj⟩)) ∧
        (∀ k, ∀ hk : k < rem.length, k < j →
          minDistToSel dom (rem.get ⟨k, hk⟩) < minDistToSel dom (rem.get ⟨j, hj⟩)) ∧
        edcLoop count (fuel + 1) dom rem =
          edcLoop count fuel (dom ++ [rem.get ⟨j, hj⟩]) (rem.eraseIdx j)) := by
  refine ⟨?_, ?_, ?_, ?_, ?_⟩
  · intro count
    unfold extract_dominant_colors
    rw [if_pos rfl]
  · intro c count hcount
    unfold extract_dominant_colors
    rw [if_neg (by simp)]
    have hlen : ([c] : List RGB).length = 1 := rfl
    rw [hlen, edcLoop_succ count 0 [] [c] (by simpa using hcount) (by simp),
      edcPick_empty_dom [c] (by simp)]
    rfl
  · intro colors count
    unfold extract_dominant_colors
    by_cases hne : colors = []
    · rw [if_pos hne, hne]
      simp
    · rw [if_neg hne]
      rw [edcLoop_length count colors.length [] colors (le_refl _)]
      simp only [List.length_nil]
      split <;> omega
  · intro colors count hne hcount
    unfold extract_dominant_colors
    rw [if_neg hne]
    match colors, hne with
    | c0 :: rest, _ =>
      have key : ∃ tail, edcLoop count (rest.length + 1) [] (c0 :: rest) = c0 :: tail := by
        rw [edcLoop_succ count rest.length [] (c0 :: rest) (by simpa using hcount)
          (by simp), edcPick_empty_dom (c0 :: rest) (by simp)]
        have hget : (c0 :: rest : List RGB).getD 0 ⟨0, 0, 0, 255⟩ = c0 := rfl
        have herase : (c0 :: rest : List RGB).eraseIdx 0 = rest := rfl
        rw [hget, herase]
        obtain ⟨suf, hsuf⟩ := edcLoop_prefix count rest.length [c0] rest
        refine ⟨suf, ?_⟩
        rw [show ([] : List RGB) ++ [c0] = [c0] from rfl, hsuf]
        rfl
      obtain ⟨suf, hsuf⟩ := key
      exact ⟨suf, hsuf⟩
  · intro count fuel dom rem hcnt hne
    obtain ⟨hj, hmax, hfirst⟩ := edcPick_first_argmax dom rem hne
    refine ⟨edcPick dom rem 0 0 0, hj, hmax, hfirst, ?_⟩
    rw [edcLoop_succ count fuel dom rem hcnt hne,
      List.getD_eq_get rem ⟨0, 0, 0, 255⟩ hj]

/-- C9 witness: conjuncts with hypotheses instantiated at concrete inputs —
the singleton law at count 5, the first-pick law on a two-color list, and one
concrete greedy step. -/
theorem C9_witness :
    extract_dominant_colors [⟨1, 2, 3, 4⟩] 5 = [⟨1, 2, 3, 4⟩] ∧
    (∃ tail, extract_dominant_colors [⟨1, 2, 3, 4⟩, ⟨200, 0, 0, 255⟩] 5 =
      ([⟨1, 2, 3, 4⟩, ⟨200, 0, 0, 255⟩] : List RGB).get ⟨0, by simp⟩ :: tail) ∧
    (∃ j, ∃ hj : j < ([⟨5, 5, 5, 255⟩] : List RGB).length,
      (∀ k, ∀ hk : k < ([⟨5, 5, 5, 255⟩] : List RGB).length,
        minDistToSel [] (([⟨5, 5, 5, 255⟩] : List RGB).get ⟨k, hk⟩) ≤
          minDistToSel [] (([⟨5, 5, 5, 255⟩] : List RGB).get ⟨j, hj⟩)) ∧
      (∀ k, ∀ hk : k < ([⟨5, 5, 5, 255⟩] : List RGB).length, k < j →
        minDistToSel [] (([⟨5, 5, 5, 255⟩] : List RGB).get ⟨k, hk⟩) <
          minDistToSel [] (([⟨5, 5, 5, 255⟩] : List RGB).get ⟨j, hj⟩)) ∧
      edcLoop 1 (0 + 1) [] [⟨5, 5, 5, 255⟩] =
        edcLoop 1 0 ([] ++ [([⟨5, 5, 5, 255⟩] : List RGB).get ⟨j, hj⟩])
          (([⟨5, 5, 5, 255⟩] : List RGB).eraseIdx j)) :=
  ⟨C9_extract_dominant_greedy.2.1 ⟨1, 2, 3, 4⟩ 5 (by decide),
   C9_extract_dominant_greedy.2.2.2.1 [⟨1, 2, 3, 4⟩, ⟨200, 0, 0, 255⟩] 5 (by simp) (by decide),
   C9_extract_dominant_greedy.2.2.2.2 1 0 [] [⟨5, 5, 5, 255⟩] (by simp) (by simp)⟩

/- ### XYZ and OKLAB pipelines (types_xyz.hpp, types_oklab.hpp) -/

/-- The `linearize` lambda shared verbatim by `XYZ::fromRGB` and
`OKLAB::fromRGB`: `val /= 255; val <= 0.04045 ? val/12.92 :
pow((val+0.055)/1.055, 2.4)`. -/
noncomputable def srgbLinearize (v : ℝ) : ℝ :=
  if v / 255 ≤ 0.04045 then (v / 255) / 12.92
  else ((v / 255 + 0.055) / 1.055) ^ (2.4 : ℝ)

/-- The `gamma_correct` lambda shared verbatim by `XYZ::to_rgb` and
`OKLAB::to_rgb`: `val <= 0.0031308 ? val*12.92 : 1.055*pow(val,1/2.4)-0.055`. -/
noncomputable def gammaCorrect (v : ℝ) : ℝ :=
  if v ≤ 0.0031308 then v * 12.92 else 1.055 * v ^ ((1 : ℝ) / 2.4) - 0.055

/-- XYZ color (types_xyz.hpp). -/
structure XYZ where
  x : ℝ
  y : ℝ
  z : ℝ

/-- `XYZ::fromRGB` (types_xyz.hpp lines 41-68): linearize, sRGB→XYZ matrix,
scale to D65 maxima. -/
noncomputable def XYZ.fromRGB (c : RGB) : XYZ :=
  let r_linear := srgbLinearize c.r
  let g_linear := srgbLinearize c.g
  let b_linear := srgbLinearize c.b
  ⟨(r_linear * 0.4124564 + g_linear * 0.3575761 + b_linear * 0.1804375) * 95.047,
   (r_linear * 0.2126729 + g_linear * 0.7151522 + b_linear * 0.0721750) * 100.0,
   (r_linear * 0.0193339 + g_linear * 0.1191920 + b_linear * 0.9503041) * 108.883⟩

/-- `XYZ::to_rgb` (types_xyz.hpp lines 71-99): normalize, inverse matrix,
inverse gamma, round and clamp to 8 bits, alpha 255. -/
noncomputable def XYZ.to_rgb (c : XYZ) : RGB :=
  let x_val := c.x / 95.047
  let y_val := c.y / 100.0
  let z_val := c.z / 108.883
  let r_linear := x_val * 3.2404542 + y_val * (-1.5371385) + z_val * (-0.4985314)
  let g_linear := x_val * (-0.9692660) + y_val * 1.8760108 + z_val * 0.0415560
  let b_linear := x_val * 0.0556434 + y_val * (-0.2040259) + z_val * 1.0572252
  ⟨roundClamp255 (gammaCorrect r_linear), roundClamp255 (gammaCorrect g_linear),
   roundClamp255 (gammaCorrect b_linear), 255⟩

/-- `std::cbrt`. -/
noncomputable def cbrtR (v : ℝ) : ℝ :=
  if 0 ≤ v then v ^ ((1 : ℝ) / 3) else -((-v) ^ ((1 : ℝ) / 3))

/-- OKLAB color (types_oklab.hpp). -/
structure OKLAB where
  l : ℝ
  a : ℝ
  b : ℝ

/-- `OKLAB::fromRGB` (types_oklab.hpp lines 41-73): linearize, LMS matrix,
cube roots, second matrix. -/
noncomputable def OKLAB.fromRGB (c : RGB) : OKLAB :=
  let r_val := srgbLinearize c.r
  let g_val := srgbLinearize c.g
  let b_val := srgbLinearize c.b
  let lms_l := cbrtR (0.4122214708 * r_val + 0.5363325363 * g_val + 0.0514459929 * b_val)
  let lms_m := cbrtR (0.2119034982 * r_val + 0.6806995451 * g_val + 0.1073969566 * b_val)
  let lms_s := cbrtR (0.0883024619 * r_val + 0.2817188376 * g_val + 0.6299787005 * b_val)
  ⟨0.2104542553 * lms_l + 0.7936177850 * lms_m - 0.0040720468 * lms_s,
   1.9779984951 * lms_l - 2.4285922050 * lms_m + 0.4505937099 * lms_s,
   0.0259040371 * lms_l + 0.7827717662 * lms_m - 0.8086757660 * lms_s⟩

/-- `OKLAB::to_rgb` (types_oklab.hpp lines 76-109): inverse matrix, cube,
LMS→linear-RGB matrix, gamma, round and clamp, alpha 255. -/
noncomputable def OKLAB.to_rgb (c : OKLAB) : RGB :=
  let lms_l := c.l + 0.3963377774 * c.a + 0.2158037573 * c.b
  let lms_m := c.l - 0.1055613458 * c.a - 0.0638541728 * c.b
  let lms_s := c.l - 0.0894841775 * c.a - 1.2914855480 * c.b
  let cl := lms_l * lms_l * lms_l
  let cm := lms_m * lms_m * lms_m
  let cs := lms_s * lms_s * lms_s
  let r_linear := 4.0767416621 * cl - 3.3077115913 * cm + 0.2309699292 * cs
  let g_linear := -1.2684380046 * cl + 2.6097574011 * cm - 0.3413193965 * cs
  let b_linear := -0.0041960863 * cl - 0.7034186147 * cm + 1.7076147010 * cs
  ⟨roundClamp255 (gammaCorrect r_linear), roundClamp255 (gammaCorrect g_linear),
   roundClamp255 (gammaCorrect b_linear), 255⟩

/- ### rpow bridging lemmas -/

theorem rpow_inv_three_cube (q : ℝ) (hq : 0 ≤ q) : (q ^ ((1 : ℝ) / 3)) ^ (3 : ℕ) = q := by
  rw [← Real.rpow_natCast (q ^ ((1 : ℝ) / 3)) 3, ← Real.rpow_mul hq]
  norm_num

theorem le_rpow_inv_three_iff (q c : ℝ) (hq : 0 ≤ q) (hc : 0 ≤ c) :
    c ≤ q ^ ((1 : ℝ) / 3) ↔ c ^ (3 : ℕ) ≤ q := by
  constructor
  · intro h
    have h2 := pow_le_pow_left hc h 3
    rwa [rpow_inv_three_cube q hq] at h2
  · intro h
    have h2 : ((c ^ (3 : ℕ) : ℝ)) ^ ((1 : ℝ) / 3) ≤ q ^ ((1 : ℝ) / 3) :=
      Real.rpow_le_rpow (by positivity) h (by norm_num)
    rwa [← Real.rpow_natCast c 3, ← Real.rpow_mul hc, show ((3 : ℕ) : ℝ) * (1 / 3) = 1 by
      norm_num, Real.rpow_one] at h2

theorem rpow_inv_three_lt_iff (q c : ℝ) (hq : 0 ≤ q) (hc : 0 ≤ c) :
    q ^ ((1 : ℝ) / 3) < c ↔ q < c ^ (3 : ℕ) := by
  rw [← not_le, ← not_le, le_rpow_inv_three_iff q c hq hc]

theorem rpow_inv24_pow12 (q : ℝ) (hq : 0 ≤ q) :
    (q ^ ((1 : ℝ) / 2.4)) ^ (12 : ℕ) = q ^ (5 : ℕ) := by
  rw [← Real.rpow_natCast (q ^ ((1 : ℝ) / 2.4)) 12, ← Real.rpow_mul hq,
    ← Real.rpow_natCast q 5]
  norm_num

theorem le_rpow_inv24_iff (q c : ℝ) (hq : 0 ≤ q) (hc : 0 ≤ c) :
    c ≤ q ^ ((1 : ℝ) / 2.4) ↔ c ^ (12 : ℕ) ≤ q ^ (5 : ℕ) := by
  constructor
  · intro h
    have h2 := pow_le_pow_left hc h 12
    rwa [rpow_inv24_pow12 q hq] at h2
  · intro h
    have hc5 : (0 : ℝ) ≤ c ^ (12 : ℕ) := by positivity
    have h2 : ((c ^ (12 : ℕ) : ℝ)) ^ ((1 : ℝ) / 12) ≤ (q ^ (5 : ℕ)) ^ ((1 : ℝ) / 12) :=
      Real.rpow_le_rpow hc5 h (by norm_num)
    rwa [← Real.rpow_natCast c 12, ← Real.rpow_mul hc,
      show ((12 : ℕ) : ℝ) * (1 / 12) = 1 by norm_num, Real.rpow_one,
      ← Real.rpow_natCast q 5, ← Real.rpow_mul hq,
      show ((5 : ℕ) : ℝ) * (1 / 12) = 1 / 2.4 by norm_num] at h2

theorem rpow_inv24_lt_iff (q c : ℝ) (hq : 0 ≤ q) (hc : 0 ≤ c) :
    q ^ ((1 : ℝ) / 2.4) < c ↔ q ^ (5 : ℕ) < c ^ (12 : ℕ) := by
  rw [← not_le, ← not_le, le_rpow_inv24_iff q c hq hc]

theorem le_rpow24_iff (q c : ℝ) (hq : 0 ≤ q) (hc : 0 ≤ c) :
    c ≤ q ^ (2.4 : ℝ) ↔ c ^ (5 : ℕ) ≤ q ^ (12 : ℕ) := by
  constructor
  · intro h
    have h2 := pow_le_pow_left hc h 5
    rwa [← Real.rpow_natCast (q ^ (2.4 : ℝ)) 5, ← Real.rpow_mul hq,
      show (2.4 : ℝ) * ((5 : ℕ) : ℝ) = ((12 : ℕ) : ℝ) by norm_num,
      Real.rpow_natCast] at h2
  · intro h
    have hc5 : (0 : ℝ) ≤ c ^ (5 : ℕ) := by positivity
    have h2 : ((c ^ (5 : ℕ) : ℝ)) ^ ((1 : ℝ) / 5) ≤ (q ^ (12 : ℕ)) ^ ((1 : ℝ) / 5) :=
      Real.rpow_le_rpow hc5 h (by norm_num)
    rwa [← Real.rpow_natCast c 5, ← Real.rpow_mul hc,
      show ((5 : ℕ) : ℝ) * (1 / 5) = 1 by norm_num, Real.rpow_one,
      ← Real.rpow_natCast q 12, ← Real.rpow_mul hq,
      show ((12 : ℕ) : ℝ) * (1 / 5) = (2.4 : ℝ) by norm_num] at h2

theorem real_rpow_add_le (x y p : ℝ) (hx : 0 ≤ x) (hy : 0 ≤ y) (hp : 0 ≤ p)
    (hp1 : p ≤ 1) : (x + y) ^ p ≤ x ^ p + y ^ p := by
  have key := NNReal.rpow_add_le_add_rpow x.toNNReal y.toNNReal hp hp1
  have hc : ((((x + y).toNNReal) ^ p : NNReal) : ℝ) ≤
      ((x.toNNReal ^ p + y.toNNReal ^ p : NNReal) : ℝ) := by
    rw [Real.toNNReal_add hx hy]
    exact_mod_cast key
  rw [NNReal.coe_rpow, Real.coe_toNNReal _ (by linarith : (0:ℝ) ≤ x + y),
    NNReal.coe_add, NNReal.coe_rpow, NNReal.coe_rpow,
    Real.coe_toNNReal _ hx, Real.coe_toNNReal _ hy] at hc
  exact hc

theorem srgbLinearize_mem (v : ℕ) (hv : v ≤ 255) :
    0 ≤ srgbLinearize v ∧ srgbLinearize v ≤ 1 := by
  unfold srgbLinearize
  have hv0 : (0 : ℝ) ≤ (v : ℝ) := by positivity
  have hv255 : (v : ℝ) ≤ 255 := by exact_mod_cast hv
  split
  · refine ⟨by positivity, ?_⟩
    rw [div_div, div_le_one (by norm_num)]
    linarith
  · rename_i h
    push_neg at h
    have hb0 : (0 : ℝ) ≤ ((v : ℝ) / 255 + 0.055) / 1.055 := by positivity
    have hvx : (v : ℝ) / 255 ≤ 1 := by
      rw [div_le_one (by norm_num)]
      linarith
    have hb1 : ((v : ℝ) / 255 + 0.055) / 1.055 ≤ 1 := by
      rw [div_le_one (by norm_num)]
      linarith
    exact ⟨Real.rpow_nonneg hb0 _, Real.rpow_le_one hb0 hb1 (by norm_num)⟩

/-- Main per-channel bound: evaluating the shared inverse-gamma map at the
linearization of an 8-bit value perturbed by at most `1/400000` and rescaling
stays within 2.5 of the value. -/
theorem gammaCorrect_close (v : ℕ) (e : ℝ) (hv : v ≤ 255) (he : |e| ≤ 1 / 400000) :
    |gammaCorrect (srgbLinearize v + e) * 255 - v| < 2.5 := by
  have he1 : -(1 / 400000 : ℝ) ≤ e := (abs_le.mp he).1
  have he2 : e ≤ 1 / 400000 := (abs_le.mp he).2
  by_cases hsmall : v ≤ 10
  · -- linear branch on both sides
    have hx255 : (v : ℝ) ≤ 10 := by exact_mod_cast hsmall
    have hx0 : (0 : ℝ) ≤ (v : ℝ) := by positivity
    have hlin : srgbLinearize v = ((v : ℝ) / 255) / 12.92 := by
      unfold srgbLinearize
      rw [if_pos (by rw [div_le_iff (by norm_num : (0:ℝ) < 255)]; nlinarith)]
    have hld : ((v : ℝ) / 255) / 12.92 ≤ 0.0030354 := by
      rw [div_div, div_le_iff (by norm_num : (0:ℝ) < 255 * 12.92)]
      nlinarith
    have hld0 : 0 ≤ ((v : ℝ) / 255) / 12.92 := by positivity
    have hgc : gammaCorrect (srgbLinearize v + e) =
        (((v : ℝ) / 255) / 12.92 + e) * 12.92 := by
      unfold gammaCorrect
      rw [hlin, if_pos (by linarith)]
    have hsimp : (((v : ℝ) / 255) / 12.92 + e) * 12.92 * 255 = (v : ℝ) + 3294.6 * e := by
      field_simp
      ring
    rw [hgc, hsimp, abs_lt]
    constructor <;> linarith
  · -- power branch on both sides
    push_neg at hsmall
    have hv11 : (11 : ℝ) ≤ (v : ℝ) := by exact_mod_cast hsmall
    have hv255 : (v : ℝ) ≤ 255 := by exact_mod_cast hv
    set x : ℝ := (v : ℝ) / 255 with hxdef
    have hx1 : x ≤ 1 := by rw [hxdef, div_le_one (by norm_num)]; linarith
    have hxlo : (11 : ℝ) / 255 ≤ x := by
      rw [hxdef, le_div_iff (by norm_num : (0:ℝ) < 255)]
      linarith
    set B : ℝ := (x + 0.055) / 1.055 with hBdef
    have hB0 : 0 ≤ B := by
      rw [hBdef]
      have hx0 : (0 : ℝ) ≤ x := by linarith
      positivity
    have hB1 : B ≤ 1 := by rw [hBdef, div_le_one (by norm_num)]; linarith
    have hBlo : (1001 : ℝ) / 10761 ≤ B := by
      rw [hBdef, le_div_iff (by norm_num : (0:ℝ) < 1.055)]
      linarith
    have hlin : srgbLinearize v = B ^ (2.4 : ℝ) := by
      unfold srgbLinearize
      rw [if_neg (by push_neg; rw [← hxdef]; linarith), ← hxdef, ← hBdef]
    have hlin0 : 0 ≤ B ^ (2.4 : ℝ) := Real.rpow_nonneg hB0 _
    have hlinlo : (0.00334 : ℝ) ≤ B ^ (2.4 : ℝ) := by
      have h1 : ((1001 : ℝ) / 10761) ^ (2.4 : ℝ) ≤ B ^ (2.4 : ℝ) :=
        Real.rpow_le_rpow (by norm_num) hBlo (by norm_num)
      have h2 : (0.00334 : ℝ) ≤ ((1001 : ℝ) / 10761) ^ (2.4 : ℝ) := by
        rw [le_rpow24_iff _ _ (by norm_num) (by norm_num)]
        norm_num
      linarith
    have ht0 : (0.0031308 : ℝ) < B ^ (2.4 : ℝ) + e := by linarith
    have hgc : gammaCorrect (srgbLinearize v + e) =
        1.055 * (B ^ (2.4 : ℝ) + e) ^ ((1 : ℝ) / 2.4) - 0.055 := by
      unfold gammaCorrect
      rw [hlin, if_neg (by push_neg; exact ht0)]
    have hcomp : (B ^ (2.4 : ℝ)) ^ ((1 : ℝ) / 2.4) = B := by
      rw [← Real.rpow_mul hB0, show (2.4 : ℝ) * (1 / 2.4) = 1 by norm_num, Real.rpow_one]
    have hxeq : 1.055 * (B ^ (2.4 : ℝ)) ^ ((1 : ℝ) / 2.4) - 0.055 = x := by
      rw [hcomp, hBdef]
      ring
    have hsub : |(B ^ (2.4 : ℝ) + e) ^ ((1 : ℝ) / 2.4) -
        (B ^ (2.4 : ℝ)) ^ ((1 : ℝ) / 2.4)| ≤ |e| ^ ((1 : ℝ) / 2.4) := by
      rcases le_or_lt 0 e with hepos | heneg
      · have h1 : (B ^ (2.4 : ℝ) + e) ^ ((1 : ℝ) / 2.4) ≤
            (B ^ (2.4 : ℝ)) ^ ((1 : ℝ) / 2.4) + e ^ ((1 : ℝ) / 2.4) :=
          real_rpow_add_le _ _ _ hlin0 hepos (by norm_num) (by norm_num)
        have h2 : (B ^ (2.4 : ℝ)) ^ ((1 : ℝ) / 2.4) ≤
            (B ^ (2.4 : ℝ) + e) ^ ((1 : ℝ) / 2.4) :=
          Real.rpow_le_rpow hlin0 (by linarith) (by norm_num)
        rw [abs_of_nonneg (by linarith), abs_of_nonneg hepos]
        linarith
      · have hb : 0 ≤ B ^ (2.4 : ℝ) + e := by linarith
        have h1 : (B ^ (2.4 : ℝ)) ^ ((1 : ℝ) / 2.4) ≤
            (B ^ (2.4 : ℝ) + e) ^ ((1 : ℝ) / 2.4) + (-e) ^ ((1 : ℝ) / 2.4) := by
          have h3 := real_rpow_add_le (B ^ (2.4 : ℝ) + e) (-e) ((1 : ℝ) / 2.4) hb
            (by linarith) (by norm_num) (by norm_num)
          have h4 : B ^ (2.4 : ℝ) + e + -e = B ^ (2.4 : ℝ) := by ring
          rwa [h4] at h3
        have h2 : (B ^ (2.4 : ℝ) + e) ^ ((1 : ℝ) / 2.4) ≤
            (B ^ (2.4 : ℝ)) ^ ((1 : ℝ) / 2.4) :=
          Real.rpow_le_rpow hb (by linarith) (by norm_num)
        rw [abs_of_nonpos (by linarith), abs_of_neg heneg]
        linarith
    have heps : |e| ^ ((1 : ℝ) / 2.4) ≤ 0.0047 := by
      have h1 : |e| ^ ((1 : ℝ) / 2.4) ≤ ((1 : ℝ) / 400000) ^ ((1 : ℝ) / 2.4) :=
        Real.rpow_le_rpow (abs_nonneg e) he (by norm_num)
      have h2 : ((1 : ℝ) / 400000) ^ ((1 : ℝ) / 2.4) ≤ 0.0047 := by
        have h3 : ((1 : ℝ) / 400000) ^ ((1 : ℝ) / 2.4) ≤ 0.0047 ∨
            (0.0047 : ℝ) ≤ ((1 : ℝ) / 400000) ^ ((1 : ℝ) / 2.4) := le_total _ _
        rcases h3 with h3 | h3
        · exact h3
        · rw [le_rpow_inv24_iff _ _ (by norm_num) (by norm_num)] at h3
          norm_num at h3
      linarith
    have hdiff : |(B ^ (2.4 : ℝ) + e) ^ ((1 : ℝ) / 2.4) -
        (B ^ (2.4 : ℝ)) ^ ((1 : ℝ) / 2.4)| ≤ 0.0047 := le_trans hsub heps
    rw [hgc]
    have habs := abs_le.mp hdiff
    have hxv : x * 255 = (v : ℝ) := by rw [hxdef]; field_simp
    rw [abs_lt]
    constructor <;> nlinarith [hxeq, habs.1, habs.2, hxv]

theorem roundClamp255_close (v : ℕ) (w : ℝ) (hv : v ≤ 255)
    (hw : |w * 255 - v| < 2.5) : ((v : ℤ) - (roundClamp255 w : ℤ)).natAbs ≤ 2 := by
  have h1 := (abs_lt.mp hw).1
  have h2 := (abs_lt.mp hw).2
  have hlo : ((v : ℤ) - 2 : ℤ) ≤ round (w * 255) := by
    rw [round_eq, Int.le_floor]
    push_cast
    linarith
  have hhi : round (w * 255) ≤ ((v : ℤ) + 2 : ℤ) := by
    rw [round_eq]
    have h3 : ⌊w * 255 + 1 / 2⌋ < (v : ℤ) + 3 := by
      rw [Int.floor_lt]
      push_cast
      linarith
    omega
  unfold roundClamp255 clampZ
  have hv2 : (0 : ℤ) ≤ (v : ℤ) := by positivity
  have hv3 : ((v : ℤ)) ≤ 255 := by exact_mod_cast hv
  split
  · omega
  · split <;> omega

/-- The XYZ forward-then-back linear algebra returns each linear channel to
within `1/400000` (the product of the two 3×3 matrices is the identity up to
coefficients of order 1e-7, and linear channels lie in [0,1]). -/
theorem xyzResidual (lr lg lb : ℝ) (hr0 : 0 ≤ lr) (hr1 : lr ≤ 1) (hg0 : 0 ≤ lg)
    (hg1 : lg ≤ 1) (hb0 : 0 ≤ lb) (hb1 : lb ≤ 1) :
    |((lr * 0.4124564 + lg * 0.3575761 + lb * 0.1804375) * 95.047) / 95.047 * 3.2404542
      + ((lr * 0.2126729 + lg * 0.7151522 + lb * 0.0721750) * 100.0) / 100.0 * (-1.5371385)
      + ((lr * 0.0193339 + lg * 0.1191920 + lb * 0.9503041) * 108.883) / 108.883 * (-0.4985314)
      - lr| ≤ 1 / 400000 ∧
    |((lr * 0.4124564 + lg * 0.3575761 + lb * 0.1804375) * 95.047) / 95.047 * (-0.9692660)
      + ((lr * 0.2126729 + lg * 0.7151522 + lb * 0.0721750) * 100.0) / 100.0 * 1.8760108
      + ((lr * 0.0193339 + lg * 0.1191920 + lb * 0.9503041) * 108.883) / 108.883 * 0.0415560
      - lg| ≤ 1 / 400000 ∧
    |((lr * 0.4124564 + lg * 0.3575761 + lb * 0.1804375) * 95.047) / 95.047 * 0.0556434
      + ((lr * 0.2126729 + lg * 0.7151522 + lb * 0.0721750) * 100.0) / 100.0 * (-0.2040259)
      + ((lr * 0.0193339 + lg * 0.1191920 + lb * 0.9503041) * 108.883) / 108.883 * 1.0572252
      - lb| ≤ 1 / 400000 := by
  refine ⟨?_, ?_, ?_⟩ <;>
    · rw [abs_le]
      constructor <;> (field_simp; nlinarith)

theorem xyz_channel_close (v : ℕ) (w : ℝ) (hv : v ≤ 255)
    (hw : |w - srgbLinearize v| ≤ 1 / 400000) :
    ((v : ℤ) - (roundClamp255 (gammaCorrect w) : ℤ)).natAbs ≤ 2 := by
  have hgc := gammaCorrect_close v (w - srgbLinearize v) hv hw
  have heq : srgbLinearize v + (w - srgbLinearize v) = w := by ring
  rw [heq] at hgc
  exact roundClamp255_close v (gammaCorrect w) hv hgc

/-- The XYZ round trip stays within ±2 per 8-bit color channel. -/
theorem xyz_roundtrip (r g b a : ℕ) (hr : r ≤ 255) (hg : g ≤ 255) (hb : b ≤ 255) :
    (((r : ℤ) - (((XYZ.fromRGB ⟨r, g, b, a⟩).to_rgb).r : ℤ)).natAbs ≤ 2) ∧
    (((g : ℤ) - (((XYZ.fromRGB ⟨r, g, b, a⟩).to_rgb).g : ℤ)).natAbs ≤ 2) ∧
    (((b : ℤ) - (((XYZ.fromRGB ⟨r, g, b, a⟩).to_rgb).b : ℤ)).natAbs ≤ 2) := by
  obtain ⟨hr0, hr1⟩ := srgbLinearize_mem r hr
  obtain ⟨hg0, hg1⟩ := srgbLinearize_mem g hg
  obtain ⟨hb0, hb1⟩ := srgbLinearize_mem b hb
  obtain ⟨hres1, hres2, hres3⟩ := xyzResidual (srgbLinearize r) (srgbLinearize g)
    (srgbLinearize b) hr0 hr1 hg0 hg1 hb0 hb1
  refine ⟨?_, ?_, ?_⟩
  · have hproj : ((XYZ.fromRGB ⟨r, g, b, a⟩).to_rgb).r = roundClamp255 (gammaCorrect
      (((srgbLinearize r * 0.4124564 + srgbLinearize g * 0.3575761 +
          srgbLinearize b * 0.1804375) * 95.047) / 95.047 * 3.2404542
        + ((srgbLinearize r * 0.2126729 + srgbLinearize g * 0.7151522 +
          srgbLinearize b * 0.0721750) * 100.0) / 100.0 * (-1.5371385)
        + ((srgbLinearize r * 0.0193339 + srgbLinearize g * 0.1191920 +
          srgbLinearize b * 0.9503041) * 108.883) / 108.883 * (-0.4985314))) := rfl
    rw [hproj]
    exact xyz_channel_close r _ hr (by
      have h2 := hres1
      rw [abs_le] at h2 ⊢
      constructor <;> linarith [h2.1, h2.2])
  · have hproj : ((XYZ.fromRGB ⟨r, g, b, a⟩).to_rgb).g = roundClamp255 (gammaCorrect
      (((srgbLinearize r * 0.4124564 + srgbLinearize g * 0.3575761 +
          srgbLinearize b * 0.1804375) * 95.047) / 95.047 * (-0.9692660)
        + ((srgbLinearize r * 0.2126729 + srgbLinearize g * 0.7151522 +
          srgbLinearize b * 0.0721750) * 100.0) / 100.0 * 1.8760108
        + ((srgbLinearize r * 0.0193339 + srgbLinearize g * 0.1191920 +
          srgbLinearize b * 0.9503041) * 108.883) / 108.883 * 0.0415560)) := rfl
    rw [hproj]
    exact xyz_channel_close g _ hg (by
      rw [abs_le] at hres2 ⊢
      constructor <;> linarith [hres2.1, hres2.2])
  · have hproj : ((XYZ.fromRGB ⟨r, g, b, a⟩).to_rgb).b = roundClamp255 (gammaCorrect
      (((srgbLinearize r * 0.4124564 + srgbLinearize g * 0.3575761 +
          srgbLinearize b * 0.1804375) * 95.047) / 95.047 * 0.0556434
        + ((srgbLinearize r * 0.2126729 + srgbLinearize g * 0.7151522 +
          srgbLinearize b * 0.0721750) * 100.0) / 100.0 * (-0.2040259)
        + ((srgbLinearize r * 0.0193339 + srgbLinearize g * 0.1191920 +
          srgbLinearize b * 0.9503041) * 108.883) / 108.883 * 1.0572252)) := rfl
    rw [hproj]
    exact xyz_channel_close b _ hb (by
      rw [abs_le] at hres3 ⊢
      constructor <;> linarith [hres3.1, hres3.2])

set_option maxHeartbeats 10000000 in
/-- The OKLAB forward-then-back algebra (second matrix, its approximate
inverse, cube of cube root, LMS inverse matrix) returns each linear channel
to within `1/400000`. The `u` variables stand for the cube roots of the LMS
values. -/
theorem oklabResidual (lr lg lb u1 u2 u3 : ℝ)
    (hr0 : 0 ≤ lr) (hr1 : lr ≤ 1) (hg0 : 0 ≤ lg) (hg1 : lg ≤ 1)
    (hb0 : 0 ≤ lb) (hb1 : lb ≤ 1)
    (hu10 : 0 ≤ u1) (hu11 : u1 ≤ 1)
    (hc1 : u1 * u1 * u1 = 0.4122214708 * lr + 0.5363325363 * lg + 0.0514459929 * lb)
    (hu20 : 0 ≤ u2) (hu21 : u2 ≤ 1)
    (hc2 : u2 * u2 * u2 = 0.2119034982 * lr + 0.6806995451 * lg + 0.1073969566 * lb)
    (hu30 : 0 ≤ u3) (hu31 : u3 ≤ 1)
    (hc3 : u3 * u3 * u3 = 0.0883024619 * lr + 0.2817188376 * lg + 0.6299787005 * lb) :
    |4.0767416621 * (((0.2104542553 * u1 + 0.7936177850 * u2 - 0.0040720468 * u3) + 0.3963377774 * (1.9779984951 * u1 - 2.4285922050 * u2 + 0.4505937099 * u3) + 0.2158037573 * (0.0259040371 * u1 + 0.7827717662 * u2 - 0.8086757660 * u3)) * ((0.2104542553 * u1 + 0.7936177850 * u2 - 0.0040720468 * u3) + 0.3963377774 * (1.9779984951 * u1 - 2.4285922050 * u2 + 0.4505937099 * u3) + 0.2158037573 * (0.0259040371 * u1 + 0.7827717662 * u2 - 0.8086757660 * u3)) * ((0.2104542553 * u1 + 0.7936177850 * u2 - 0.0040720468 * u3) + 0.3963377774 * (1.9779984951 * u1 - 2.4285922050 * u2 + 0.4505937099 * u3) + 0.2158037573 * (0.0259040371 * u1 + 0.7827717662 * u2 - 0.8086757660 * u3))) - 3.3077115913 * (((0.2104542553 * u1 + 0.7936177850 * u2 - 0.0040720468 * u3) - 0.1055613458 * (1.9779984951 * u1 - 2.4285922050 * u2 + 0.4505937099 * u3) - 0.0638541728 * (0.0259040371 * u1 + 0.7827717662 * u2 - 0.8086757660 * u3)) * ((0.2104542553 * u1 + 0.7936177850 * u2 - 0.0040720468 * u3) - 0.1055613458 * (1.9779984951 * u1 - 2.4285922050 * u2 + 0.4505937099 * u3) - 0.0638541728 * (0.0259040371 * u1 + 0.7827717662 * u2 - 0.8086757660 * u3)) * ((0.2104542553 * u1 + 0.7936177850 * u2 - 0.0040720468 * u3) - 0.1055613458 * (1.9779984951 * u1 - 2.4285922050 * u2 + 0.4505937099 * u3) - 0.0638541728 * (0.0259040371 * u1 + 0.7827717662 * u2 - 0.8086757660 * u3))) + 0.2309699292 * (((0.2104542553 * u1 + 0.7936177850 * u2 - 0.0040720468 * u3) - 0.0894841775 * (1.9779984951 * u1 - 2.4285922050 * u2 + 0.4505937099 * u3) - 1.2914855480 * (0.0259040371 * u1 + 0.7827717662 * u2 - 0.8086757660 * u3)) * ((0.2104542553 * u1 + 0.7936177850 * u2 - 0.0040720468 * u3) - 0.0894841775 * (1.9779984951 * u1 - 2.4285922050 * u2 + 0.4505937099 * u3) - 1.2914855480 * (0.0259040371 * u1 + 0.7827717662 * u2 - 0.8086757660 * u3)) * ((0.2104542553 * u1 + 0.7936177850 * u2 - 0.0040720468 * u3) - 0.0894841775 * (1.9779984951 * u1 - 2.4285922050 * u2 + 0.4505937099 * u3) - 1.2914855480 * (0.0259040371 * u1 + 0.7827717662 * u2 - 0.8086757660 * u3))) - lr| ≤ 1 / 400000 ∧
    |(-1.2684380046) * (((0.2104542553 * u1 + 0.7936177850 * u2 - 0.0040720468 * u3) + 0.3963377774 * (1.9779984951 * u1 - 2.4285922050 * u2 + 0.4505937099 * u3) + 0.2158037573 * (0.0259040371 * u1 + 0.7827717662 * u2 - 0.8086757660 * u3)) * ((0.2104542553 * u1 + 0.7936177850 * u2 - 0.0040720468 * u3) + 0.3963377774 * (1.9779984951 * u1 - 2.4285922050 * u2 + 0.4505937099 * u3) + 0.2158037573 * (0.0259040371 * u1 + 0.7827717662 * u2 - 0.8086757660 * u3)) * ((0.2104542553 * u1 + 0.7936177850 * u2 - 0.0040720468 * u3) + 0.3963377774 * (1.9779984951 * u1 - 2.4285922050 * u2 + 0.4505937099 * u3) + 0.2158037573 * (0.0259040371 * u1 + 0.7827717662 * u2 - 0.8086757660 * u3))) + 2.6097574011 * (((0.2104542553 * u1 + 0.7936177850 * u2 - 0.0040720468 * u3) - 0.1055613458 * (1.9779984951 * u1 - 2.4285922050 * u2 + 0.4505937099 * u3) - 0.0638541728 * (0.0259040371 * u1 + 0.7827717662 * u2 - 0.8086757660 * u3)) * ((0.2104542553 * u1 + 0.7936177850 * u2 - 0.0040720468 * u3) - 0.1055613458 * (1.9779984951 * u1 - 2.4285922050 * u2 + 0.4505937099 * u3) - 0.0638541728 * (0.0259040371 * u1 + 0.7827717662 * u2 - 0.8086757660 * u3)) * ((0.2104542553 * u1 + 0.7936177850 * u2 - 0.0040720468 * u3) - 0.1055613458 * (1.9779984951 * u1 - 2.4285922050 * u2 + 0.4505937099 * u3) - 0.0638541728 * (0.0259040371 * u1 + 0.7827717662 * u2 - 0.8086757660 * u3))) - 0.3413193965 * (((0.2104542553 * u1 + 0.7936177850 * u2 - 0.0040720468 * u3) - 0.0894841775 * (1.9779984951 * u1 - 2.4285922050 * u2 + 0.4505937099 * u3) - 1.2914855480 * (0.0259040371 * u1 + 0.7827717662 * u2 - 0.8086757660 * u3)) * ((0.2104542553 * u1 + 0.7936177850 * u2 - 0.0040720468 * u3) - 0.0894841775 * (1.9779984951 * u1 - 2.4285922050 * u2 + 0.4505937099 * u3) - 1.2914855480 * (0.0259040371 * u1 + 0.7827717662 * u2 - 0.8086757660 * u3)) * ((0.2104542553 * u1 + 0.7936177850 * u2 - 0.0040720468 * u3) - 0.0894841775 * (1.9779984951 * u1 - 2.4285922050 * u2 + 0.4505937099 * u3) - 1.2914855480 * (0.0259040371 * u1 + 0.7827717662 * u2 - 0.8086757660 * u3))) - lg| ≤ 1 / 400000 ∧
    |(-0.0041960863) * (((0.2104542553 * u1 + 0.7936177850 * u2 - 0.0040720468 * u3) + 0.3963377774 * (1.9779984951 * u1 - 2.4285922050 * u2 + 0.4505937099 * u3) + 0.2158037573 * (0.0259040371 * u1 + 0.7827717662 * u2 - 0.8086757660 * u3)) * ((0.2104542553 * u1 + 0.7936177850 * u2 - 0.0040720468 * u3) + 0.3963377774 * (1.9779984951 * u1 - 2.4285922050 * u2 + 0.4505937099 * u3) + 0.2158037573 * (0.0259040371 * u1 + 0.7827717662 * u2 - 0.8086757660 * u3)) * ((0.2104542553 * u1 + 0.7936177850 * u2 - 0.0040720468 * u3) + 0.3963377774 * (1.9779984951 * u1 - 2.4285922050 * u2 + 0.4505937099 * u3) + 0.2158037573 * (0.0259040371 * u1 + 0.7827717662 * u2 - 0.8086757660 * u3))) - 0.7034186147 * (((0.2104542553 * u1 + 0.7936177850 * u2 - 0.0040720468 * u3) - 0.1055613458 * (1.9779984951 * u1 - 2.4285922050 * u2 + 0.4505937099 * u3) - 0.0638541728 * (0.0259040371 * u1 + 0.7827717662 * u2 - 0.8086757660 * u3)) * ((0.2104542553 * u1 + 0.7936177850 * u2 - 0.0040720468 * u3) - 0.1055613458 * (1.9779984951 * u1 - 2.4285922050 * u2 + 0.4505937099 * u3) - 0.0638541728 * (0.0259040371 * u1 + 0.7827717662 * u2 - 0.8086757660 * u3)) * ((0.2104542553 * u1 + 0.7936177850 * u2 - 0.0040720468 * u3) - 0.1055613458 * (1.9779984951 * u1 - 2.4285922050 * u2 + 0.4505937099 * u3) - 0.0638541728 * (0.0259040371 * u1 + 0.7827717662 * u2 - 0.8086757660 * u3))) + 1.7076147010 * (((0.2104542553 * u1 + 0.7936177850 * u2 - 0.0040720468 * u3) - 0.0894841775 * (1.9779984951 * u1 - 2.4285922050 * u2 + 0.4505937099 * u3) - 1.2914855480 * (0.0259040371 * u1 + 0.7827717662 * u2 - 0.8086757660 * u3)) * ((0.2104542553 * u1 + 0.7936177850 * u2 - 0.0040720468 * u3) - 0.0894841775 * (1.9779984951 * u1 - 2.4285922050 * u2 + 0.4505937099 * u3) - 1.2914855480 * (0.0259040371 * u1 + 0.7827717662 * u2 - 0.8086757660 * u3)) * ((0.2104542553 * u1 + 0.7936177850 * u2 - 0.0040720468 * u3) - 0.0894841775 * (1.9779984951 * u1 - 2.4285922050 * u2 + 0.4505937099 * u3) - 1.2914855480 * (0.0259040371 * u1 + 0.7827717662 * u2 - 0.8086757660 * u3))) - lb| ≤ 1 / 400000 := by
  have he1 : |((0.2104542553 * u1 + 0.7936177850 * u2 - 0.0040720468 * u3) + 0.3963377774 * (1.9779984951 * u1 - 2.4285922050 * u2 + 0.4505937099 * u3) + 0.2158037573 * (0.0259040371 * u1 + 0.7827717662 * u2 - 0.8086757660 * u3)) - u1| ≤ 1 / 10000000 := by
    rw [abs_le]
    constructor <;> linarith
  have he2 : |((0.2104542553 * u1 + 0.7936177850 * u2 - 0.0040720468 * u3) - 0.1055613458 * (1.9779984951 * u1 - 2.4285922050 * u2 + 0.4505937099 * u3) - 0.0638541728 * (0.0259040371 * u1 + 0.7827717662 * u2 - 0.8086757660 * u3)) - u2| ≤ 1 / 10000000 := by
    rw [abs_le]
    constructor <;> linarith
  have he3 : |((0.2104542553 * u1 + 0.7936177850 * u2 - 0.0040720468 * u3) - 0.0894841775 * (1.9779984951 * u1 - 2.4285922050 * u2 + 0.4505937099 * u3) - 1.2914855480 * (0.0259040371 * u1 + 0.7827717662 * u2 - 0.8086757660 * u3)) - u3| ≤ 1 / 10000000 := by
    rw [abs_le]
    constructor <;> linarith
  generalize hg1v : ((0.2104542553 * u1 + 0.7936177850 * u2 - 0.0040720468 * u3) + 0.3963377774 * (1.9779984951 * u1 - 2.4285922050 * u2 + 0.4505937099 * u3) + 0.2158037573 * (0.0259040371 * u1 + 0.7827717662 * u2 - 0.8086757660 * u3)) = V1 at he1 ⊢
  generalize hg2v : ((0.2104542553 * u1 + 0.7936177850 * u2 - 0.0040720468 * u3) - 0.1055613458 * (1.9779984951 * u1 - 2.4285922050 * u2 + 0.4505937099 * u3) - 0.0638541728 * (0.0259040371 * u1 + 0.7827717662 * u2 - 0.8086757660 * u3)) = V2 at he2 ⊢
  generalize hg3v : ((0.2104542553 * u1 + 0.7936177850 * u2 - 0.0040720468 * u3) - 0.0894841775 * (1.9779984951 * u1 - 2.4285922050 * u2 + 0.4505937099 * u3) - 1.2914855480 * (0.0259040371 * u1 + 0.7827717662 * u2 - 0.8086757660 * u3)) = V3 at he3 ⊢
  have cube_close : ∀ (V u : ℝ), 0 ≤ u → u ≤ 1 → |V - u| ≤ 1 / 10000000 →
      |V * V * V - u * u * u| ≤ 31 / 100000000 := by
    intro V u hu0 hu1 hVu
    obtain ⟨hl, hh⟩ := abs_le.mp hVu
    have hV0 : -(1 / 10000000 : ℝ) ≤ V := by linarith
    have hV1 : V ≤ 1 + 1 / 10000000 := by linarith
    have hkey : V * V * V - u * u * u = (V - u) * (V * V + V * u + u * u) := by ring
    rw [hkey, abs_mul]
    have hVsq : V * V ≤ (1 + 1 / 10000000) * (1 + 1 / 10000000) := by
      nlinarith [mul_nonneg (show (0:ℝ) ≤ (1 + 1 / 10000000) - V by linarith)
        (show (0:ℝ) ≤ (1 + 1 / 10000000) + V by linarith)]
    have hVu_up : V * u ≤ 1 + 1 / 10000000 := by
      nlinarith [mul_nonneg (show (0:ℝ) ≤ (1 + 1 / 10000000) - V by linarith) hu0]
    have hVu_lo : -(1 / 10000000 : ℝ) ≤ V * u := by
      nlinarith [mul_nonneg (show (0:ℝ) ≤ V + 1 / 10000000 by linarith) hu0]
    have husq : u * u ≤ 1 := by nlinarith
    have hfac : |V * V + V * u + u * u| ≤ 3.001 := by
      rw [abs_le]
      constructor
      · nlinarith [mul_self_nonneg V, mul_self_nonneg u]
      · linarith
    calc |V - u| * |V * V + V * u + u * u| ≤ (1 / 10000000) * 3.001 := by
          apply mul_le_mul hVu hfac (abs_nonneg _) (by norm_num)
      _ ≤ 31 / 100000000 := by norm_num
  have hd1 := cube_close V1 u1 hu10 hu11 he1
  have hd2 := cube_close V2 u2 hu20 hu21 he2
  have hd3 := cube_close V3 u3 hu30 hu31 he3
  obtain ⟨hd1a, hd1b⟩ := abs_le.mp hd1
  obtain ⟨hd2a, hd2b⟩ := abs_le.mp hd2
  obtain ⟨hd3a, hd3b⟩ := abs_le.mp hd3
  refine ⟨?_, ?_, ?_⟩
  · have hlast : |4.0767416621 * (u1 * u1 * u1) - 3.3077115913 * (u2 * u2 * u2)
        + 0.2309699292 * (u3 * u3 * u3) - lr| ≤ 1 / 1000000000 := by
      rw [hc1, hc2, hc3, abs_le]
      constructor <;> linarith
    obtain ⟨hla, hlb⟩ := abs_le.mp hlast
    rw [abs_le]
    constructor <;> linarith [hd1a, hd1b, hd2a, hd2b, hd3a, hd3b, hla, hlb]
  · have hlast : |(-1.2684380046) * (u1 * u1 * u1) + 2.6097574011 * (u2 * u2 * u2)
        - 0.3413193965 * (u3 * u3 * u3) - lg| ≤ 1 / 1000000000 := by
      rw [hc1, hc2, hc3, abs_le]
      constructor <;> linarith
    obtain ⟨hla, hlb⟩ := abs_le.mp hlast
    rw [abs_le]
    constructor <;> linarith [hd1a, hd1b, hd2a, hd2b, hd3a, hd3b, hla, hlb]
  · have hlast : |(-0.0041960863) * (u1 * u1 * u1) - 0.7034186147 * (u2 * u2 * u2)
        + 1.7076147010 * (u3 * u3 * u3) - lb| ≤ 1 / 1000000000 := by
      rw [hc1, hc2, hc3, abs_le]
      constructor <;> linarith
    obtain ⟨hla, hlb⟩ := abs_le.mp hlast
    rw [abs_le]
    constructor <;> linarith [hd1a, hd1b, hd2a, hd2b, hd3a, hd3b, hla, hlb]
set_option maxHeartbeats 10000000 in
/-- The OKLAB round trip stays within ±2 per 8-bit color channel. -/
theorem oklab_roundtrip (r g b a : ℕ) (hr : r ≤ 255) (hg : g ≤ 255) (hb : b ≤ 255) :
    (((r : ℤ) - (((OKLAB.fromRGB ⟨r, g, b, a⟩).to_rgb).r : ℤ)).natAbs ≤ 2) ∧
    (((g : ℤ) - (((OKLAB.fromRGB ⟨r, g, b, a⟩).to_rgb).g : ℤ)).natAbs ≤ 2) ∧
    (((b : ℤ) - (((OKLAB.fromRGB ⟨r, g, b, a⟩).to_rgb).b : ℤ)).natAbs ≤ 2) := by
  obtain ⟨hr0, hr1⟩ := srgbLinearize_mem r hr
  obtain ⟨hg0, hg1⟩ := srgbLinearize_mem g hg
  obtain ⟨hb0, hb1⟩ := srgbLinearize_mem b hb
  have hq10 : (0 : ℝ) ≤ 0.4122214708 * srgbLinearize r + 0.5363325363 * srgbLinearize g + 0.0514459929 * srgbLinearize b := by linarith
  have hq11 : (0.4122214708 * srgbLinearize r + 0.5363325363 * srgbLinearize g + 0.0514459929 * srgbLinearize b : ℝ) ≤ 1 := by linarith
  have hcb1 : cbrtR (0.4122214708 * srgbLinearize r + 0.5363325363 * srgbLinearize g + 0.0514459929 * srgbLinearize b) = (0.4122214708 * srgbLinearize r + 0.5363325363 * srgbLinearize g + 0.0514459929 * srgbLinearize b) ^ ((1 : ℝ) / 3) := by
    unfold cbrtR
    rw [if_pos hq10]
  have hu10 : (0 : ℝ) ≤ cbrtR (0.4122214708 * srgbLinearize r + 0.5363325363 * srgbLinearize g + 0.0514459929 * srgbLinearize b) := by
    rw [hcb1]
    exact Real.rpow_nonneg hq10 _
  have hu11 : cbrtR (0.4122214708 * srgbLinearize r + 0.5363325363 * srgbLinearize g + 0.0514459929 * srgbLinearize b) ≤ 1 := by
    rw [hcb1]
    exact Real.rpow_le_one hq10 hq11 (by norm_num)
  have hc1 : cbrtR (0.4122214708 * srgbLinearize r + 0.5363325363 * srgbLinearize g + 0.0514459929 * srgbLinearize b) * cbrtR (0.4122214708 * srgbLinearize r + 0.5363325363 * srgbLinearize g + 0.0514459929 * srgbLinearize b) * cbrtR (0.4122214708 * srgbLinearize r + 0.5363325363 * srgbLinearize g + 0.0514459929 * srgbLinearize b) = 0.4122214708 * srgbLinearize r + 0.5363325363 * srgbLinearize g + 0.0514459929 * srgbLinearize b := by
    calc cbrtR (0.4122214708 * srgbLinearize r + 0.5363325363 * srgbLinearize g + 0.0514459929 * srgbLinearize b) * cbrtR (0.4122214708 * srgbLinearize r + 0.5363325363 * srgbLinearize g + 0.0514459929 * srgbLinearize b) * cbrtR (0.4122214708 * srgbLinearize r + 0.5363325363 * srgbLinearize g + 0.0514459929 * srgbLinearize b) = (cbrtR (0.4122214708 * srgbLinearize r + 0.5363325363 * srgbLinearize g + 0.0514459929 * srgbLinearize b)) ^ (3 : ℕ) := by ring
      _ = 0.4122214708 * srgbLinearize r + 0.5363325363 * srgbLinearize g + 0.0514459929 * srgbLinearize b := by
          rw [hcb1]
          exact rpow_inv_three_cube (0.4122214708 * srgbLinearize r + 0.5363325363 * srgbLinearize g + 0.0514459929 * srgbLinearize b) hq10
  have hq20 : (0 : ℝ) ≤ 0.2119034982 * srgbLinearize r + 0.6806995451 * srgbLinearize g + 0.1073969566 * srgbLinearize b := by linarith
  have hq21 : (0.2119034982 * srgbLinearize r + 0.6806995451 * srgbLinearize g + 0.1073969566 * srgbLinearize b : ℝ) ≤ 1 := by linarith
  have hcb2 : cbrtR (0.2119034982 * srgbLinearize r + 0.6806995451 * srgbLinearize g + 0.1073969566 * srgbLinearize b) = (0.2119034982 * srgbLinearize r + 0.6806995451 * srgbLinearize g + 0.1073969566 * srgbLinearize b) ^ ((1 : ℝ) / 3) := by
    unfold cbrtR
    rw [if_pos hq20]
  have hu20 : (0 : ℝ) ≤ cbrtR (0.2119034982 * srgbLinearize r + 0.6806995451 * srgbLinearize g + 0.1073969566 * srgbLinearize b) := by
    rw [hcb2]
    exact Real.rpow_nonneg hq20 _
  have hu21 : cbrtR (0.2119034982 * srgbLinearize r + 0.6806995451 * srgbLinearize g + 0.1073969566 * srgbLinearize b) ≤ 1 := by
    rw [hcb2]
    exact Real.rpow_le_one hq20 hq21 (by norm_num)
  have hc2 : cbrtR (0.2119034982 * srgbLinearize r + 0.6806995451 * srgbLinearize g + 0.1073969566 * srgbLinearize b) * cbrtR (0.2119034982 * srgbLinearize r + 0.6806995451 * srgbLinearize g + 0.1073969566 * srgbLinearize b) * cbrtR (0.2119034982 * srgbLinearize r + 0.6806995451 * srgbLinearize g + 0.1073969566 * srgbLinearize b) = 0.2119034982 * srgbLinearize r + 0.6806995451 * srgbLinearize g + 0.1073969566 * srgbLinearize b := by
    calc cbrtR (0.2119034982 * srgbLinearize r + 0.6806995451 * srgbLinearize g + 0.1073969566 * srgbLinearize b) * cbrtR (0.2119034982 * srgbLinearize r + 0.6806995451 * srgbLinearize g + 0.1073969566 * srgbLinearize b) * cbrtR (0.2119034982 * srgbLinearize r + 0.6806995451 * srgbLinearize g + 0.1073969566 * srgbLinearize b) = (cbrtR (0.2119034982 * srgbLinearize r + 0.6806995451 * srgbLinearize g + 0.1073969566 * srgbLinearize b)) ^ (3 : ℕ) := by ring
      _ = 0.2119034982 * srgbLinearize r + 0.6806995451 * srgbLinearize g + 0.1073969566 * srgbLinearize b := by
          rw [hcb2]
          exact rpow_inv_three_cube (0.2119034982 * srgbLinearize r + 0.6806995451 * srgbLinearize g + 0.1073969566 * srgbLinearize b) hq20
  have hq30 : (0 : ℝ) ≤ 0.0883024619 * srgbLinearize r + 0.2817188376 * srgbLinearize g + 0.6299787005 * srgbLinearize b := by linarith
  have hq31 : (0.0883024619 * srgbLinearize r + 0.2817188376 * srgbLinearize g + 0.6299787005 * srgbLinearize b : ℝ) ≤ 1 := by linarith
  have hcb3 : cbrtR (0.0883024619 * srgbLinearize r + 0.2817188376 * srgbLinearize g + 0.6299787005 * srgbLinearize b) = (0.0883024619 * srgbLinearize r + 0.2817188376 * srgbLinearize g + 0.6299787005 * srgbLinearize b) ^ ((1 : ℝ) / 3) := by
    unfold cbrtR
    rw [if_pos hq30]
  have hu30 : (0 : ℝ) ≤ cbrtR (0.0883024619 * srgbLinearize r + 0.2817188376 * srgbLinearize g + 0.6299787005 * srgbLinearize b) := by
    rw [hcb3]
    exact Real.rpow_nonneg hq30 _
  have hu31 : cbrtR (0.0883024619 * srgbLinearize r + 0.2817188376 * srgbLinearize g + 0.6299787005 * srgbLinearize b) ≤ 1 := by
    rw [hcb3]
    exact Real.rpow_le_one hq30 hq31 (by norm_num)
  have hc3 : cbrtR (0.0883024619 * srgbLinearize r + 0.2817188376 * srgbLinearize g + 0.6299787005 * srgbLinearize b) * cbrtR (0.0883024619 * srgbLinearize r + 0.2817188376 * srgbLinearize g + 0.6299787005 * srgbLinearize b) * cbrtR (0.0883024619 * srgbLinearize r + 0.2817188376 * srgbLinearize g + 0.6299787005 * srgbLinearize b) = 0.0883024619 * srgbLinearize r + 0.2817188376 * srgbLinearize g + 0.6299787005 * srgbLinearize b := by
    calc cbrtR (0.0883024619 * srgbLinearize r + 0.2817188376 * srgbLinearize g + 0.6299787005 * srgbLinearize b) * cbrtR (0.0883024619 * srgbLinearize r + 0.2817188376 * srgbLinearize g + 0.6299787005 * srgbLinearize b) * cbrtR (0.0883024619 * srgbLinearize r + 0.2817188376 * srgbLinearize g + 0.6299787005 * srgbLinearize b) = (cbrtR (0.0883024619 * srgbLinearize r + 0.2817188376 * srgbLinearize g + 0.6299787005 * srgbLinearize b)) ^ (3 : ℕ) := by ring
      _ = 0.0883024619 * srgbLinearize r + 0.2817188376 * srgbLinearize g + 0.6299787005 * srgbLinearize b := by
          rw [hcb3]
          exact rpow_inv_three_cube (0.0883024619 * srgbLinearize r + 0.2817188376 * srgbLinearize g + 0.6299787005 * srgbLinearize b) hq30
  obtain ⟨hres1, hres2, hres3⟩ := oklabResidual (srgbLinearize r) (srgbLinearize g)
    (srgbLinearize b) (cbrtR (0.4122214708 * srgbLinearize r + 0.5363325363 * srgbLinearize g + 0.0514459929 * srgbLinearize b)) (cbrtR (0.2119034982 * srgbLinearize r + 0.6806995451 * srgbLinearize g + 0.1073969566 * srgbLinearize b)) (cbrtR (0.0883024619 * srgbLinearize r + 0.2817188376 * srgbLinearize g + 0.6299787005 * srgbLinearize b))
    hr0 hr1 hg0 hg1 hb0 hb1 hu10 hu11 hc1 hu20 hu21 hc2 hu30 hu31 hc3
  refine ⟨?_, ?_, ?_⟩
  · have hproj : ((OKLAB.fromRGB ⟨r, g, b, a⟩).to_rgb).r = roundClamp255 (gammaCorrect (4.0767416621 * (((0.2104542553 * cbrtR (0.4122214708 * srgbLinearize r + 0.5363325363 * srgbLinearize g + 0.0514459929 * srgbLinearize b) + 0.7936177850 * cbrtR (0.2119034982 * srgbLinearize r + 0.6806995451 * srgbLinearize g + 0.1073969566 * srgbLinearize b) - 0.0040720468 * cbrtR (0.0883024619 * srgbLinearize r + 0.2817188376 * srgbLinearize g + 0.6299787005 * srgbLinearize b)) + 0.3963377774 * (1.9779984951 * cbrtR (0.4122214708 * srgbLinearize r + 0.5363325363 * srgbLinearize g + 0.0514459929 * srgbLinearize b) - 2.4285922050 * cbrtR (0.2119034982 * srgbLinearize r + 0.6806995451 * srgbLinearize g + 0.1073969566 * srgbLinearize b) + 0.4505937099 * cbrtR (0.0883024619 * srgbLinearize r + 0.2817188376 * srgbLinearize g + 0.6299787005 * srgbLinearize b)) + 0.2158037573 * (0.0259040371 * cbrtR (0.4122214708 * srgbLinearize r + 0.5363325363 * srgbLinearize g + 0.0514459929 * srgbLinearize b) + 0.7827717662 * cbrtR (0.2119034982 * srgbLinearize r + 0.6806995451 * srgbLinearize g + 0.1073969566 * srgbLinearize b) - 0.8086757660 * cbrtR (0.0883024619 * srgbLinearize r + 0.2817188376 * srgbLinearize g + 0.6299787005 * srgbLinearize b))) * ((0.2104542553 * cbrtR (0.4122214708 * srgbLinearize r + 0.5363325363 * srgbLinearize g + 0.0514459929 * srgbLinearize b) + 0.7936177850 * cbrtR (0.2119034982 * srgbLinearize r + 0.6806995451 * srgbLinearize g + 0.1073969566 * srgbLinearize b) - 0.0040720468 * cbrtR (0.0883024619 * srgbLinearize r + 0.2817188376 * srgbLinearize g + 0.6299787005 * srgbLinearize b)) + 0.3963377774 * (1.9779984951 * cbrtR (0.4122214708 * srgbLinearize r + 0.5363325363 * srgbLinearize g + 0.0514459929 * srgbLinearize b) - 2.4285922050 * cbrtR (0.2119034982 * srgbLinearize r + 0.6806995451 * srgbLinearize g + 0.1073969566 * srgbLinearize b) + 0.4505937099 * cbrtR (0.0883024619 * srgbLinearize r + 0.2817188376 * srgbLinearize g + 0.6299787005 * srgbLinearize b)) + 0.2158037573 * (0.0259040371 * cbrtR (0.4122214708 * srgbLinearize r + 0.5363325363 * srgbLinearize g + 0.0514459929 * srgbLinearize b) + 0.7827717662 * cbrtR (0.2119034982 * srgbLinearize r + 0.6806995451 * srgbLinearize g + 0.1073969566 * srgbLinearize b) - 0.8086757660 * cbrtR (0.0883024619 * srgbLinearize r + 0.2817188376 * srgbLinearize g + 0.6299787005 * srgbLinearize b))) * ((0.2104542553 * cbrtR (0.4122214708 * srgbLinearize r + 0.5363325363 * srgbLinearize g + 0.0514459929 * srgbLinearize b) + 0.7936177850 * cbrtR (0.2119034982 * srgbLinearize r + 0.6806995451 * srgbLinearize g + 0.1073969566 * srgbLinearize b) - 0.0040720468 * cbrtR (0.0883024619 * srgbLinearize r + 0.2817188376 * srgbLinearize g + 0.6299787005 * srgbLinearize b)) + 0.3963377774 * (1.9779984951 * cbrtR (0.4122214708 * srgbLinearize r + 0.5363325363 * srgbLinearize g + 0.0514459929 * srgbLinearize b) - 2.4285922050 * cbrtR (0.2119034982 * srgbLinearize r + 0.6806995451 * srgbLinearize g + 0.1073969566 * srgbLinearize b) + 0.4505937099 * cbrtR (0.0883024619 * srgbLinearize r + 0.2817188376 * srgbLinearize g + 0.6299787005 * srgbLinearize b)) + 0.2158037573 * (0.0259040371 * cbrtR (0.4122214708 * srgbLinearize r + 0.5363325363 * srgbLinearize g + 0.0514459929 * srgbLinearize b) + 0.7827717662 * cbrtR (0.2119034982 * srgbLinearize r + 0.6806995451 * srgbLinearize g + 0.1073969566 * srgbLinearize b) - 0.8086757660 * cbrtR (0.0883024619 * srgbLinearize r + 0.2817188376 * srgbLinearize g + 0.6299787005 * srgbLinearize b)))) - 3.3077115913 * (((0.2104542553 * cbrtR (0.4122214708 * srgbLinearize r + 0.5363325363 * srgbLinearize g + 0.0514459929 * srgbLinearize b) + 0.7936177850 * cbrtR (0.2119034982 * srgbLinearize r + 0.6806995451 * srgbLinearize g + 0.1073969566 * srgbLinearize b) - 0.0040720468 * cbrtR (0.0883024619 * srgbLinearize r + 0.2817188376 * srgbLinearize g + 0.6299787005 * srgbLinearize b)) - 0.1055613458 * (1.9779984951 * cbrtR (0.4122214708 * srgbLinearize r + 0.5363325363 * srgbLinearize g + 0.0514459929 * srgbLinearize b) - 2.4285922050 * cbrtR (0.2119034982 * srgbLinearize r + 0.6806995451 * srgbLinearize g + 0.1073969566 * srgbLinearize b) + 0.4505937099 * cbrtR (0.0883024619 * srgbLinearize r + 0.2817188376 * srgbLinearize g + 0.6299787005 * srgbLinearize b)) - 0.0638541728 * (0.0259040371 * cbrtR (0.4122214708 * srgbLinearize r + 0.5363325363 * srgbLinearize g + 0.0514459929 * srgbLinearize b) + 0.7827717662 * cbrtR (0.2119034982 * srgbLinearize r + 0.6806995451 * srgbLinearize g + 0.1073969566 * srgbLinearize b) - 0.8086757660 * cbrtR (0.0883024619 * srgbLinearize r + 0.2817188376 * srgbLinearize g + 0.6299787005 * srgbLinearize b))) * ((0.2104542553 * cbrtR (0.4122214708 * srgbLinearize r + 0.5363325363 * srgbLinearize g + 0.0514459929 * srgbLinearize b) + 0.7936177850 * cbrtR (0.2119034982 * srgbLinearize r + 0.6806995451 * srgbLinearize g + 0.1073969566 * srgbLinearize b) - 0.0040720468 * cbrtR (0.0883024619 * srgbLinearize r + 0.2817188376 * srgbLinearize g + 0.6299787005 * srgbLinearize b)) - 0.1055613458 * (1.9779984951 * cbrtR (0.4122214708 * srgbLinearize r + 0.5363325363 * srgbLinearize g + 0.0514459929 * srgbLinearize b) - 2.4285922050 * cbrtR (0.2119034982 * srgbLinearize r + 0.6806995451 * srgbLinearize g + 0.1073969566 * srgbLinearize b) + 0.4505937099 * cbrtR (0.0883024619 * srgbLinearize r + 0.2817188376 * srgbLinearize g + 0.6299787005 * srgbLinearize b)) - 0.0638541728 * (0.0259040371 * cbrtR (0.4122214708 * srgbLinearize r + 0.5363325363 * srgbLinearize g + 0.0514459929 * srgbLinearize b) + 0.7827717662 * cbrtR (0.2119034982 * srgbLinearize r + 0.6806995451 * srgbLinearize g + 0.1073969566 * srgbLinearize b) - 0.8086757660 * cbrtR (0.0883024619 * srgbLinearize r + 0.2817188376 * srgbLinearize g + 0.6299787005 * srgbLinearize b))) * ((0.2104542553 * cbrtR (0.4122214708 * srgbLinearize r + 0.5363325363 * srgbLinearize g + 0.0514459929 * srgbLinearize b) + 0.7936177850 * cbrtR (0.2119034982 * srgbLinearize r + 0.6806995451 * srgbLinearize g + 0.1073969566 * srgbLinearize b) - 0.0040720468 * cbrtR (0.0883024619 * srgbLinearize r + 0.2817188376 * srgbLinearize g + 0.6299787005 * srgbLinearize b)) - 0.1055613458 * (1.9779984951 * cbrtR (0.4122214708 * srgbLinearize r + 0.5363325363 * srgbLinearize g + 0.0514459929 * srgbLinearize b) - 2.4285922050 * cbrtR (0.2119034982 * srgbLinearize r + 0.6806995451 * srgbLinearize g + 0.1073969566 * srgbLinearize b) + 0.4505937099 * cbrtR (0.0883024619 * srgbLinearize r + 0.2817188376 * srgbLinearize g + 0.6299787005 * srgbLinearize b)) - 0.0638541728 * (0.0259040371 * cbrtR (0.4122214708 * srgbLinearize r + 0.5363325363 * srgbLinearize g + 0.0514459929 * srgbLinearize b) + 0.7827717662 * cbrtR (0.2119034982 * srgbLinearize r + 0.6806995451 * srgbLinearize g + 0.1073969566 * srgbLinearize b) - 0.8086757660 * cbrtR (0.0883024619 * srgbLinearize r + 0.2817188376 * srgbLinearize g + 0.6299787005 * srgbLinearize b)))) + 0.2309699292 * (((0.2104542553 * cbrtR (0.4122214708 * srgbLinearize r + 0.5363325363 * srgbLinearize g + 0.0514459929 * srgbLinearize b) + 0.7936177850 * cbrtR (0.2119034982 * srgbLinearize r + 0.6806995451 * srgbLinearize g + 0.1073969566 * srgbLinearize b) - 0.0040720468 * cbrtR (0.0883024619 * srgbLinearize r + 0.2817188376 * srgbLinearize g + 0.6299787005 * srgbLinearize b)) - 0.0894841775 * (1.9779984951 * cbrtR (0.4122214708 * srgbLinearize r + 0.5363325363 * srgbLinearize g + 0.0514459929 * srgbLinearize b) - 2.4285922050 * cbrtR (0.2119034982 * srgbLinearize r + 0.6806995451 * srgbLinearize g + 0.1073969566 * srgbLinearize b) + 0.4505937099 * cbrtR (0.0883024619 * srgbLinearize r + 0.2817188376 * srgbLinearize g + 0.6299787005 * srgbLinearize b)) - 1.2914855480 * (0.0259040371 * cbrtR (0.4122214708 * srgbLinearize r + 0.5363325363 * srgbLinearize g + 0.0514459929 * srgbLinearize b) + 0.7827717662 * cbrtR (0.2119034982 * srgbLinearize r + 0.6806995451 * srgbLinearize g + 0.1073969566 * srgbLinearize b) - 0.8086757660 * cbrtR (0.0883024619 * srgbLinearize r + 0.2817188376 * srgbLinearize g + 0.6299787005 * srgbLinearize b))) * ((0.2104542553 * cbrtR (0.4122214708 * srgbLinearize r + 0.5363325363 * srgbLinearize g + 0.0514459929 * srgbLinearize b) + 0.7936177850 * cbrtR (0.2119034982 * srgbLinearize r + 0.6806995451 * srgbLinearize g + 0.1073969566 * srgbLinearize b) - 0.0040720468 * cbrtR (0.0883024619 * srgbLinearize r + 0.2817188376 * srgbLinearize g + 0.6299787005 * srgbLinearize b)) - 0.0894841775 * (1.9779984951 * cbrtR (0.4122214708 * srgbLinearize r + 0.5363325363 * srgbLinearize g + 0.0514459929 * srgbLinearize b) - 2.4285922050 * cbrtR (0.2119034982 * srgbLinearize r + 0.6806995451 * srgbLinearize g + 0.1073969566 * srgbLinearize b) + 0.4505937099 * cbrtR (0.0883024619 * srgbLinearize r + 0.2817188376 * srgbLinearize g + 0.6299787005 * srgbLinearize b)) - 1.2914855480 * (0.0259040371 * cbrtR (0.4122214708 * srgbLinearize r + 0.5363325363 * srgbLinearize g + 0.0514459929 * srgbLinearize b) + 0.7827717662 * cbrtR (0.2119034982 * srgbLinearize r + 0.6806995451 * srgbLinearize g + 0.1073969566 * srgbLinearize b) - 0.8086757660 * cbrtR (0.0883024619 * srgbLinearize r + 0.2817188376 * srgbLinearize g + 0.6299787005 * srgbLinearize b))) * ((0.2104542553 * cbrtR (0.4122214708 * srgbLinearize r + 0.5363325363 * srgbLinearize g + 0.0514459929 * srgbLinearize b) + 0.7936177850 * cbrtR (0.2119034982 * srgbLinearize r + 0.6806995451 * srgbLinearize g + 0.1073969566 * srgbLinearize b) - 0.0040720468 * cbrtR (0.0883024619 * srgbLinearize r + 0.2817188376 * srgbLinearize g + 0.6299787005 * srgbLinearize b)) - 0.0894841775 * (1.9779984951 * cbrtR (0.4122214708 * srgbLinearize r + 0.5363325363 * srgbLinearize g + 0.0514459929 * srgbLinearize b) - 2.4285922050 * cbrtR (0.2119034982 * srgbLinearize r + 0.6806995451 * srgbLinearize g + 0.1073969566 * srgbLinearize b) + 0.4505937099 * cbrtR (0.0883024619 * srgbLinearize r + 0.2817188376 * srgbLinearize g + 0.6299787005 * srgbLinearize b)) - 1.2914855480 * (0.0259040371 * cbrtR (0.4122214708 * srgbLinearize r + 0.5363325363 * srgbLinearize g + 0.0514459929 * srgbLinearize b) + 0.7827717662 * cbrtR (0.2119034982 * srgbLinearize r + 0.6806995451 * srgbLinearize g + 0.1073969566 * srgbLinearize b) - 0.8086757660 * cbrtR (0.0883024619 * srgbLinearize r + 0.2817188376 * srgbLinearize g + 0.6299787005 * srgbLinearize b)))))) := rfl
    rw [hproj]
    exact xyz_channel_close r _ hr hres1
  · have hproj : ((OKLAB.fromRGB ⟨r, g, b, a⟩).to_rgb).g = roundClamp255 (gammaCorrect (-1.2684380046 * (((0.2104542553 * cbrtR (0.4122214708 * srgbLinearize r + 0.5363325363 * srgbLinearize g + 0.0514459929 * srgbLinearize b) + 0.7936177850 * cbrtR (0.2119034982 * srgbLinearize r + 0.6806995451 * srgbLinearize g + 0.1073969566 * srgbLinearize b) - 0.0040720468 * cbrtR (0.0883024619 * srgbLinearize r + 0.2817188376 * srgbLinearize g + 0.6299787005 * srgbLinearize b)) + 0.3963377774 * (1.9779984951 * cbrtR (0.4122214708 * srgbLinearize r + 0.5363325363 * srgbLinearize g + 0.0514459929 * srgbLinearize b) - 2.4285922050 * cbrtR (0.2119034982 * srgbLinearize r + 0.6806995451 * srgbLinearize g + 0.1073969566 * srgbLinearize b) + 0.4505937099 * cbrtR (0.0883024619 * srgbLinearize r + 0.2817188376 * srgbLinearize g + 0.6299787005 * srgbLinearize b)) + 0.2158037573 * (0.0259040371 * cbrtR (0.4122214708 * srgbLinearize r + 0.5363325363 * srgbLinearize g + 0.0514459929 * srgbLinearize b) + 0.7827717662 * cbrtR (0.2119034982 * srgbLinearize r + 0.6806995451 * srgbLinearize g + 0.1073969566 * srgbLinearize b) - 0.8086757660 * cbrtR (0.0883024619 * srgbLinearize r + 0.2817188376 * srgbLinearize g + 0.6299787005 * srgbLinearize b))) * ((0.2104542553 * cbrtR (0.4122214708 * srgbLinearize r + 0.5363325363 * srgbLinearize g + 0.0514459929 * srgbLinearize b) + 0.7936177850 * cbrtR (0.2119034982 * srgbLinearize r + 0.6806995451 * srgbLinearize g + 0.1073969566 * srgbLinearize b) - 0.0040720468 * cbrtR (0.0883024619 * srgbLinearize r + 0.2817188376 * srgbLinearize g + 0.6299787005 * srgbLinearize b)) + 0.3963377774 * (1.9779984951 * cbrtR (0.4122214708 * srgbLinearize r + 0.5363325363 * srgbLinearize g + 0.0514459929 * srgbLinearize b) - 2.4285922050 * cbrtR (0.2119034982 * srgbLinearize r + 0.6806995451 * srgbLinearize g + 0.1073969566 * srgbLinearize b) + 0.4505937099 * cbrtR (0.0883024619 * srgbLinearize r + 0.2817188376 * srgbLinearize g + 0.6299787005 * srgbLinearize b)) + 0.2158037573 * (0.0259040371 * cbrtR (0.4122214708 * srgbLinearize r + 0.5363325363 * srgbLinearize g + 0.0514459929 * srgbLinearize b) + 0.7827717662 * cbrtR (0.2119034982 * srgbLinearize r + 0.6806995451 * srgbLinearize g + 0.1073969566 * srgbLinearize b) - 0.8086757660 * cbrtR (0.0883024619 * srgbLinearize r + 0.2817188376 * srgbLinearize g + 0.6299787005 * srgbLinearize b))) * ((0.2104542553 * cbrtR (0.4122214708 * srgbLinearize r + 0.5363325363 * srgbLinearize g + 0.0514459929 * srgbLinearize b) + 0.7936177850 * cbrtR (0.2119034982 * srgbLinearize r + 0.6806995451 * srgbLinearize g + 0.1073969566 * srgbLinearize b) - 0.0040720468 * cbrtR (0.0883024619 * srgbLinearize r + 0.2817188376 * srgbLinearize g + 0.6299787005 * srgbLinearize b)) + 0.3963377774 * (1.9779984951 * cbrtR (0.4122214708 * srgbLinearize r + 0.5363325363 * srgbLinearize g + 0.0514459929 * srgbLinearize b) - 2.4285922050 * cbrtR (0.2119034982 * srgbLinearize r + 0.6806995451 * srgbLinearize g + 0.1073969566 * srgbLinearize b) + 0.4505937099 * cbrtR (0.0883024619 * srgbLinearize r + 0.2817188376 * srgbLinearize g + 0.6299787005 * srgbLinearize b)) + 0.2158037573 * (0.0259040371 * cbrtR (0.4122214708 * srgbLinearize r + 0.5363325363 * srgbLinearize g + 0.0514459929 * srgbLinearize b) + 0.7827717662 * cbrtR (0.2119034982 * srgbLinearize r + 0.6806995451 * srgbLinearize g + 0.1073969566 * srgbLinearize b) - 0.8086757660 * cbrtR (0.0883024619 * srgbLinearize r + 0.2817188376 * srgbLinearize g + 0.6299787005 * srgbLinearize b)))) + 2.6097574011 * (((0.2104542553 * cbrtR (0.4122214708 * srgbLinearize r + 0.5363325363 * srgbLinearize g + 0.0514459929 * srgbLinearize b) + 0.7936177850 * cbrtR (0.2119034982 * srgbLinearize r + 0.6806995451 * srgbLinearize g + 0.1073969566 * srgbLinearize b) - 0.0040720468 * cbrtR (0.0883024619 * srgbLinearize r + 0.2817188376 * srgbLinearize g + 0.6299787005 * srgbLinearize b)) - 0.1055613458 * (1.9779984951 * cbrtR (0.4122214708 * srgbLinearize r + 0.5363325363 * srgbLinearize g + 0.0514459929 * srgbLinearize b) - 2.4285922050 * cbrtR (0.2119034982 * srgbLinearize r + 0.6806995451 * srgbLinearize g + 0.1073969566 * srgbLinearize b) + 0.4505937099 * cbrtR (0.0883024619 * srgbLinearize r + 0.2817188376 * srgbLinearize g + 0.6299787005 * srgbLinearize b)) - 0.0638541728 * (0.0259040371 * cbrtR (0.4122214708 * srgbLinearize r + 0.5363325363 * srgbLinearize g + 0.0514459929 * srgbLinearize b) + 0.7827717662 * cbrtR (0.2119034982 * srgbLinearize r + 0.6806995451 * srgbLinearize g + 0.1073969566 * srgbLinearize b) - 0.8086757660 * cbrtR (0.0883024619 * srgbLinearize r + 0.2817188376 * srgbLinearize g + 0.6299787005 * srgbLinearize b))) * ((0.2104542553 * cbrtR (0.4122214708 * srgbLinearize r + 0.5363325363 * srgbLinearize g + 0.0514459929 * srgbLinearize b) + 0.7936177850 * cbrtR (0.2119034982 * srgbLinearize r + 0.6806995451 * srgbLinearize g + 0.1073969566 * srgbLinearize b) - 0.0040720468 * cbrtR (0.0883024619 * srgbLinearize r + 0.2817188376 * srgbLinearize g + 0.6299787005 * srgbLinearize b)) - 0.1055613458 * (1.9779984951 * cbrtR (0.4122214708 * srgbLinearize r + 0.5363325363 * srgbLinearize g + 0.0514459929 * srgbLinearize b) - 2.4285922050 * cbrtR (0.2119034982 * srgbLinearize r + 0.6806995451 * srgbLinearize g + 0.1073969566 * srgbLinearize b) + 0.4505937099 * cbrtR (0.0883024619 * srgbLinearize r + 0.2817188376 * srgbLinearize g + 0.6299787005 * srgbLinearize b)) - 0.0638541728 * (0.0259040371 * cbrtR (0.4122214708 * srgbLinearize r + 0.5363325363 * srgbLinearize g + 0.0514459929 * srgbLinearize b) + 0.7827717662 * cbrtR (0.2119034982 * srgbLinearize r + 0.6806995451 * srgbLinearize g + 0.1073969566 * srgbLinearize b) - 0.8086757660 * cbrtR (0.0883024619 * srgbLinearize r + 0.2817188376 * srgbLinearize g + 0.6299787005 * srgbLinearize b))) * ((0.2104542553 * cbrtR (0.4122214708 * srgbLinearize r + 0.5363325363 * srgbLinearize g + 0.0514459929 * srgbLinearize b) + 0.7936177850 * cbrtR (0.2119034982 * srgbLinearize r + 0.6806995451 * srgbLinearize g + 0.1073969566 * srgbLinearize b) - 0.0040720468 * cbrtR (0.0883024619 * srgbLinearize r + 0.2817188376 * srgbLinearize g + 0.6299787005 * srgbLinearize b)) - 0.1055613458 * (1.9779984951 * cbrtR (0.4122214708 * srgbLinearize r + 0.5363325363 * srgbLinearize g + 0.0514459929 * srgbLinearize b) - 2.4285922050 * cbrtR (0.2119034982 * srgbLinearize r + 0.6806995451 * srgbLinearize g + 0.1073969566 * srgbLinearize b) + 0.4505937099 * cbrtR (0.0883024619 * srgbLinearize r + 0.2817188376 * srgbLinearize g + 0.6299787005 * srgbLinearize b)) - 0.0638541728 * (0.0259040371 * cbrtR (0.4122214708 * srgbLinearize r + 0.5363325363 * srgbLinearize g + 0.0514459929 * srgbLinearize b) + 0.7827717662 * cbrtR (0.2119034982 * srgbLinearize r + 0.6806995451 * srgbLinearize g + 0.1073969566 * srgbLinearize b) - 0.8086757660 * cbrtR (0.0883024619 * srgbLinearize r + 0.2817188376 * srgbLinearize g + 0.6299787005 * srgbLinearize b)))) - 0.3413193965 * (((0.2104542553 * cbrtR (0.4122214708 * srgbLinearize r + 0.5363325363 * srgbLinearize g + 0.0514459929 * srgbLinearize b) + 0.7936177850 * cbrtR (0.2119034982 * srgbLinearize r + 0.6806995451 * srgbLinearize g + 0.1073969566 * srgbLinearize b) - 0.0040720468 * cbrtR (0.0883024619 * srgbLinearize r + 0.2817188376 * srgbLinearize g + 0.6299787005 * srgbLinearize b)) - 0.0894841775 * (1.9779984951 * cbrtR (0.4122214708 * srgbLinearize r + 0.5363325363 * srgbLinearize g + 0.0514459929 * srgbLinearize b) - 2.4285922050 * cbrtR (0.2119034982 * srgbLinearize r + 0.6806995451 * srgbLinearize g + 0.1073969566 * srgbLinearize b) + 0.4505937099 * cbrtR (0.0883024619 * srgbLinearize r + 0.2817188376 * srgbLinearize g + 0.6299787005 * srgbLinearize b)) - 1.2914855480 * (0.0259040371 * cbrtR (0.4122214708 * srgbLinearize r + 0.5363325363 * srgbLinearize g + 0.0514459929 * srgbLinearize b) + 0.7827717662 * cbrtR (0.2119034982 * srgbLinearize r + 0.6806995451 * srgbLinearize g + 0.1073969566 * srgbLinearize b) - 0.8086757660 * cbrtR (0.0883024619 * srgbLinearize r + 0.2817188376 * srgbLinearize g + 0.6299787005 * srgbLinearize b))) * ((0.2104542553 * cbrtR (0.4122214708 * srgbLinearize r + 0.5363325363 * srgbLinearize g + 0.0514459929 * srgbLinearize b) + 0.7936177850 * cbrtR (0.2119034982 * srgbLinearize r + 0.6806995451 * srgbLinearize g + 0.1073969566 * srgbLinearize b) - 0.0040720468 * cbrtR (0.0883024619 * srgbLinearize r + 0.2817188376 * srgbLinearize g + 0.6299787005 * srgbLinearize b)) - 0.0894841775 * (1.9779984951 * cbrtR (0.4122214708 * srgbLinearize r + 0.5363325363 * srgbLinearize g + 0.0514459929 * srgbLinearize b) - 2.4285922050 * cbrtR (0.2119034982 * srgbLinearize r + 0.6806995451 * srgbLinearize g + 0.1073969566 * srgbLinearize b) + 0.4505937099 * cbrtR (0.0883024619 * srgbLinearize r + 0.2817188376 * srgbLinearize g + 0.6299787005 * srgbLinearize b)) - 1.2914855480 * (0.0259040371 * cbrtR (0.4122214708 * srgbLinearize r + 0.5363325363 * srgbLinearize g + 0.0514459929 * srgbLinearize b) + 0.7827717662 * cbrtR (0.2119034982 * srgbLinearize r + 0.6806995451 * srgbLinearize g + 0.1073969566 * srgbLinearize b) - 0.8086757660 * cbrtR (0.0883024619 * srgbLinearize r + 0.2817188376 * srgbLinearize g + 0.6299787005 * srgbLinearize b))) * ((0.2104542553 * cbrtR (0.4122214708 * srgbLinearize r + 0.5363325363 * srgbLinearize g + 0.0514459929 * srgbLinearize b) + 0.7936177850 * cbrtR (0.2119034982 * srgbLinearize r + 0.6806995451 * srgbLinearize g + 0.1073969566 * srgbLinearize b) - 0.0040720468 * cbrtR (0.0883024619 * srgbLinearize r + 0.2817188376 * srgbLinearize g + 0.6299787005 * srgbLinearize b)) - 0.0894841775 * (1.9779984951 * cbrtR (0.4122214708 * srgbLinearize r + 0.5363325363 * srgbLinearize g + 0.0514459929 * srgbLinearize b) - 2.4285922050 * cbrtR (0.2119034982 * srgbLinearize r + 0.6806995451 * srgbLinearize g + 0.1073969566 * srgbLinearize b) + 0.4505937099 * cbrtR (0.0883024619 * srgbLinearize r + 0.2817188376 * srgbLinearize g + 0.6299787005 * srgbLinearize b)) - 1.2914855480 * (0.0259040371 * cbrtR (0.4122214708 * srgbLinearize r + 0.5363325363 * srgbLinearize g + 0.0514459929 * srgbLinearize b) + 0.7827717662 * cbrtR (0.2119034982 * srgbLinearize r + 0.6806995451 * srgbLinearize g + 0.1073969566 * srgbLinearize b) - 0.8086757660 * cbrtR (0.0883024619 * srgbLinearize r + 0.2817188376 * srgbLinearize g + 0.6299787005 * srgbLinearize b)))))) := rfl
    rw [hproj]
    exact xyz_channel_close g _ hg hres2
  · have hproj : ((OKLAB.fromRGB ⟨r, g, b, a⟩).to_rgb).b = roundClamp255 (gammaCorrect (-0.0041960863 * (((0.2104542553 * cbrtR (0.4122214708 * srgbLinearize r + 0.5363325363 * srgbLinearize g + 0.0514459929 * srgbLinearize b) + 0.7936177850 * cbrtR (0.2119034982 * srgbLinearize r + 0.6806995451 * srgbLinearize g + 0.1073969566 * srgbLinearize b) - 0.0040720468 * cbrtR (0.0883024619 * srgbLinearize r + 0.2817188376 * srgbLinearize g + 0.6299787005 * srgbLinearize b)) + 0.3963377774 * (1.9779984951 * cbrtR (0.4122214708 * srgbLinearize r + 0.5363325363 * srgbLinearize g + 0.0514459929 * srgbLinearize b) - 2.4285922050 * cbrtR (0.2119034982 * srgbLinearize r + 0.6806995451 * srgbLinearize g + 0.1073969566 * srgbLinearize b) + 0.4505937099 * cbrtR (0.0883024619 * srgbLinearize r + 0.2817188376 * srgbLinearize g + 0.6299787005 * srgbLinearize b)) + 0.2158037573 * (0.0259040371 * cbrtR (0.4122214708 * srgbLinearize r + 0.5363325363 * srgbLinearize g + 0.0514459929 * srgbLinearize b) + 0.7827717662 * cbrtR (0.2119034982 * srgbLinearize r + 0.6806995451 * srgbLinearize g + 0.1073969566 * srgbLinearize b) - 0.8086757660 * cbrtR (0.0883024619 * srgbLinearize r + 0.2817188376 * srgbLinearize g + 0.6299787005 * srgbLinearize b))) * ((0.2104542553 * cbrtR (0.4122214708 * srgbLinearize r + 0.5363325363 * srgbLinearize g + 0.0514459929 * srgbLinearize b) + 0.7936177850 * cbrtR (0.2119034982 * srgbLinearize r + 0.6806995451 * srgbLinearize g + 0.1073969566 * srgbLinearize b) - 0.0040720468 * cbrtR (0.0883024619 * srgbLinearize r + 0.2817188376 * srgbLinearize g + 0.6299787005 * srgbLinearize b)) + 0.3963377774 * (1.9779984951 * cbrtR (0.4122214708 * srgbLinearize r + 0.5363325363 * srgbLinearize g + 0.0514459929 * srgbLinearize b) - 2.4285922050 * cbrtR (0.2119034982 * srgbLinearize r + 0.6806995451 * srgbLinearize g + 0.1073969566 * srgbLinearize b) + 0.4505937099 * cbrtR (0.0883024619 * srgbLinearize r + 0.2817188376 * srgbLinearize g + 0.6299787005 * srgbLinearize b)) + 0.2158037573 * (0.0259040371 * cbrtR (0.4122214708 * srgbLinearize r + 0.5363325363 * srgbLinearize g + 0.0514459929 * srgbLinearize b) + 0.7827717662 * cbrtR (0.2119034982 * srgbLinearize r + 0.6806995451 * srgbLinearize g + 0.1073969566 * srgbLinearize b) - 0.8086757660 * cbrtR (0.0883024619 * srgbLinearize r + 0.2817188376 * srgbLinearize g + 0.6299787005 * srgbLinearize b))) * ((0.2104542553 * cbrtR (0.4122214708 * srgbLinearize r + 0.5363325363 * srgbLinearize g + 0.0514459929 * srgbLinearize b) + 0.7936177850 * cbrtR (0.2119034982 * srgbLinearize r + 0.6806995451 * srgbLinearize g + 0.1073969566 * srgbLinearize b) - 0.0040720468 * cbrtR (0.0883024619 * srgbLinearize r + 0.2817188376 * srgbLinearize g + 0.6299787005 * srgbLinearize b)) + 0.3963377774 * (1.9779984951 * cbrtR (0.4122214708 * srgbLinearize r + 0.5363325363 * srgbLinearize g + 0.0514459929 * srgbLinearize b) - 2.4285922050 * cbrtR (0.2119034982 * srgbLinearize r + 0.6806995451 * srgbLinearize g + 0.1073969566 * srgbLinearize b) + 0.4505937099 * cbrtR (0.0883024619 * srgbLinearize r + 0.2817188376 * srgbLinearize g + 0.6299787005 * srgbLinearize b)) + 0.2158037573 * (0.0259040371 * cbrtR (0.4122214708 * srgbLinearize r + 0.5363325363 * srgbLinearize g + 0.0514459929 * srgbLinearize b) + 0.7827717662 * cbrtR (0.2119034982 * srgbLinearize r + 0.6806995451 * srgbLinearize g + 0.1073969566 * srgbLinearize b) - 0.8086757660 * cbrtR (0.0883024619 * srgbLinearize r + 0.2817188376 * srgbLinearize g + 0.6299787005 * srgbLinearize b)))) - 0.7034186147 * (((0.2104542553 * cbrtR (0.4122214708 * srgbLinearize r + 0.5363325363 * srgbLinearize g + 0.0514459929 * srgbLinearize b) + 0.7936177850 * cbrtR (0.2119034982 * srgbLinearize r + 0.6806995451 * srgbLinearize g + 0.1073969566 * srgbLinearize b) - 0.0040720468 * cbrtR (0.0883024619 * srgbLinearize r + 0.2817188376 * srgbLinearize g + 0.6299787005 * srgbLinearize b)) - 0.1055613458 * (1.9779984951 * cbrtR (0.4122214708 * srgbLinearize r + 0.5363325363 * srgbLinearize g + 0.0514459929 * srgbLinearize b) - 2.4285922050 * cbrtR (0.2119034982 * srgbLinearize r + 0.6806995451 * srgbLinearize g + 0.1073969566 * srgbLinearize b) + 0.4505937099 * cbrtR (0.0883024619 * srgbLinearize r + 0.2817188376 * srgbLinearize g + 0.6299787005 * srgbLinearize b)) - 0.0638541728 * (0.0259040371 * cbrtR (0.4122214708 * srgbLinearize r + 0.5363325363 * srgbLinearize g + 0.0514459929 * srgbLinearize b) + 0.7827717662 * cbrtR (0.2119034982 * srgbLinearize r + 0.6806995451 * srgbLinearize g + 0.1073969566 * srgbLinearize b) - 0.8086757660 * cbrtR (0.0883024619 * srgbLinearize r + 0.2817188376 * srgbLinearize g + 0.6299787005 * srgbLinearize b))) * ((0.2104542553 * cbrtR (0.4122214708 * srgbLinearize r + 0.5363325363 * srgbLinearize g + 0.0514459929 * srgbLinearize b) + 0.7936177850 * cbrtR (0.2119034982 * srgbLinearize r + 0.6806995451 * srgbLinearize g + 0.1073969566 * srgbLinearize b) - 0.0040720468 * cbrtR (0.0883024619 * srgbLinearize r + 0.2817188376 * srgbLinearize g + 0.6299787005 * srgbLinearize b)) - 0.1055613458 * (1.9779984951 * cbrtR (0.4122214708 * srgbLinearize r + 0.5363325363 * srgbLinearize g + 0.0514459929 * srgbLinearize b) - 2.4285922050 * cbrtR (0.2119034982 * srgbLinearize r + 0.6806995451 * srgbLinearize g + 0.1073969566 * srgbLinearize b) + 0.4505937099 * cbrtR (0.0883024619 * srgbLinearize r + 0.2817188376 * srgbLinearize g + 0.6299787005 * srgbLinearize b)) - 0.0638541728 * (0.0259040371 * cbrtR (0.4122214708 * srgbLinearize r + 0.5363325363 * srgbLinearize g + 0.0514459929 * srgbLinearize b) + 0.7827717662 * cbrtR (0.2119034982 * srgbLinearize r + 0.6806995451 * srgbLinearize g + 0.1073969566 * srgbLinearize b) - 0.8086757660 * cbrtR (0.0883024619 * srgbLinearize r + 0.2817188376 * srgbLinearize g + 0.6299787005 * srgbLinearize b))) * ((0.2104542553 * cbrtR (0.4122214708 * srgbLinearize r + 0.5363325363 * srgbLinearize g + 0.0514459929 * srgbLinearize b) + 0.7936177850 * cbrtR (0.2119034982 * srgbLinearize r + 0.6806995451 * srgbLinearize g + 0.1073969566 * srgbLinearize b) - 0.0040720468 * cbrtR (0.0883024619 * srgbLinearize r + 0.2817188376 * srgbLinearize g + 0.6299787005 * srgbLinearize b)) - 0.1055613458 * (1.9779984951 * cbrtR (0.4122214708 * srgbLinearize r + 0.5363325363 * srgbLinearize g + 0.0514459929 * srgbLinearize b) - 2.4285922050 * cbrtR (0.2119034982 * srgbLinearize r + 0.6806995451 * srgbLinearize g + 0.1073969566 * srgbLinearize b) + 0.4505937099 * cbrtR (0.0883024619 * srgbLinearize r + 0.2817188376 * srgbLinearize g + 0.6299787005 * srgbLinearize b)) - 0.0638541728 * (0.0259040371 * cbrtR (0.4122214708 * srgbLinearize r + 0.5363325363 * srgbLinearize g + 0.0514459929 * srgbLinearize b) + 0.7827717662 * cbrtR (0.2119034982 * srgbLinearize r + 0.6806995451 * srgbLinearize g + 0.1073969566 * srgbLinearize b) - 0.8086757660 * cbrtR (0.0883024619 * srgbLinearize r + 0.2817188376 * srgbLinearize g + 0.6299787005 * srgbLinearize b)))) + 1.7076147010 * (((0.2104542553 * cbrtR (0.4122214708 * srgbLinearize r + 0.5363325363 * srgbLinearize g + 0.0514459929 * srgbLinearize b) + 0.7936177850 * cbrtR (0.2119034982 * srgbLinearize r + 0.6806995451 * srgbLinearize g + 0.1073969566 * srgbLinearize b) - 0.0040720468 * cbrtR (0.0883024619 * srgbLinearize r + 0.2817188376 * srgbLinearize g + 0.6299787005 * srgbLinearize b)) - 0.0894841775 * (1.9779984951 * cbrtR (0.4122214708 * srgbLinearize r + 0.5363325363 * srgbLinearize g + 0.0514459929 * srgbLinearize b) - 2.4285922050 * cbrtR (0.2119034982 * srgbLinearize r + 0.6806995451 * srgbLinearize g + 0.1073969566 * srgbLinearize b) + 0.4505937099 * cbrtR (0.0883024619 * srgbLinearize r + 0.2817188376 * srgbLinearize g + 0.6299787005 * srgbLinearize b)) - 1.2914855480 * (0.0259040371 * cbrtR (0.4122214708 * srgbLinearize r + 0.5363325363 * srgbLinearize g + 0.0514459929 * srgbLinearize b) + 0.7827717662 * cbrtR (0.2119034982 * srgbLinearize r + 0.6806995451 * srgbLinearize g + 0.1073969566 * srgbLinearize b) - 0.8086757660 * cbrtR (0.0883024619 * srgbLinearize r + 0.2817188376 * srgbLinearize g + 0.6299787005 * srgbLinearize b))) * ((0.2104542553 * cbrtR (0.4122214708 * srgbLinearize r + 0.5363325363 * srgbLinearize g + 0.0514459929 * srgbLinearize b) + 0.7936177850 * cbrtR (0.2119034982 * srgbLinearize r + 0.6806995451 * srgbLinearize g + 0.1073969566 * srgbLinearize b) - 0.0040720468 * cbrtR (0.0883024619 * srgbLinearize r + 0.2817188376 * srgbLinearize g + 0.6299787005 * srgbLinearize b)) - 0.0894841775 * (1.9779984951 * cbrtR (0.4122214708 * srgbLinearize r + 0.5363325363 * srgbLinearize g + 0.0514459929 * srgbLinearize b) - 2.4285922050 * cbrtR (0.2119034982 * srgbLinearize r + 0.6806995451 * srgbLinearize g + 0.1073969566 * srgbLinearize b) + 0.4505937099 * cbrtR (0.0883024619 * srgbLinearize r + 0.2817188376 * srgbLinearize g + 0.6299787005 * srgbLinearize b)) - 1.2914855480 * (0.0259040371 * cbrtR (0.4122214708 * srgbLinearize r + 0.5363325363 * srgbLinearize g + 0.0514459929 * srgbLinearize b) + 0.7827717662 * cbrtR (0.2119034982 * srgbLinearize r + 0.6806995451 * srgbLinearize g + 0.1073969566 * srgbLinearize b) - 0.8086757660 * cbrtR (0.0883024619 * srgbLinearize r + 0.2817188376 * srgbLinearize g + 0.6299787005 * srgbLinearize b))) * ((0.2104542553 * cbrtR (0.4122214708 * srgbLinearize r + 0.5363325363 * srgbLinearize g + 0.0514459929 * srgbLinearize b) + 0.7936177850 * cbrtR (0.2119034982 * srgbLinearize r + 0.6806995451 * srgbLinearize g + 0.1073969566 * srgbLinearize b) - 0.0040720468 * cbrtR (0.0883024619 * srgbLinearize r + 0.2817188376 * srgbLinearize g + 0.6299787005 * srgbLinearize b)) - 0.0894841775 * (1.9779984951 * cbrtR (0.4122214708 * srgbLinearize r + 0.5363325363 * srgbLinearize g + 0.0514459929 * srgbLinearize b) - 2.4285922050 * cbrtR (0.2119034982 * srgbLinearize r + 0.6806995451 * srgbLinearize g + 0.1073969566 * srgbLinearize b) + 0.4505937099 * cbrtR (0.0883024619 * srgbLinearize r + 0.2817188376 * srgbLinearize g + 0.6299787005 * srgbLinearize b)) - 1.2914855480 * (0.0259040371 * cbrtR (0.4122214708 * srgbLinearize r + 0.5363325363 * srgbLinearize g + 0.0514459929 * srgbLinearize b) + 0.7827717662 * cbrtR (0.2119034982 * srgbLinearize r + 0.6806995451 * srgbLinearize g + 0.1073969566 * srgbLinearize b) - 0.8086757660 * cbrtR (0.0883024619 * srgbLinearize r + 0.2817188376 * srgbLinearize g + 0.6299787005 * srgbLinearize b)))))) := rfl
    rw [hproj]
    exact xyz_channel_close b _ hb hres3


/- ### The LCH pipeline (types_lch.hpp) -/

/-- Truncation toward zero, as in C integer casts and `std::fmod`. -/
noncomputable def truncR (x : ℝ) : ℝ := if x < 0 then -(⌊-x⌋ : ℝ) * 1 else (⌊x⌋ : ℝ)

/-- `std::fmod x y = x - trunc(x / y) * y`. -/
noncomputable def fmodR (x y : ℝ) : ℝ := x - truncR (x / y) * y

/-- `std::atan2 y x`: the angle of the point `(x, y)`, in `(-pi, pi]`. -/
noncomputable def atan2R (y x : ℝ) : ℝ := Complex.arg ⟨x, y⟩

/-- `LCH::normalize` (types_lch.hpp lines 43-54): clamp lightness into
[0,100], chroma to nonnegative, and wrap the hue into [0,360); the second
hue check reads the already-updated hue, exactly as the C++ member does. -/
noncomputable def LCH.normalize (c : LCH) : LCH :=
  ⟨clampR c.l 0 100, max 0 c.c,
   if c.h < 0 ∨ 360 ≤ c.h then
     (if fmodR c.h 360 < 0 then fmodR c.h 360 + 360 else fmodR c.h 360)
   else c.h⟩

/-- `LCH::fromLAB` (types_lch.hpp lines 57-70): lightness, Euclidean chroma,
`atan2` hue in degrees shifted to nonnegative, then `normalize`. -/
noncomputable def LCH.fromLAB (lab : LAB) : LCH :=
  LCH.normalize ⟨lab.l, Real.sqrt (lab.a * lab.a + lab.b * lab.b), (if atan2R lab.b lab.a * 180 / Real.pi < 0 then atan2R lab.b lab.a * 180 / Real.pi + 360 else atan2R lab.b lab.a * 180 / Real.pi)⟩

/-- `LCH::fromRGB` (types_lch.hpp lines 73-76): via LAB. -/
noncomputable def LCH.fromRGB (c : RGB) : LCH := LCH.fromLAB (LAB.fromRGB c)

/-- `LCH::to_lab` (types_lch.hpp lines 79-82); the LAB constructor defaults
alpha to 255. -/
noncomputable def LCH.to_lab (c : LCH) : LAB :=
  ⟨c.l, c.c * Real.cos (c.h * Real.pi / 180), c.c * Real.sin (c.h * Real.pi / 180), 255⟩

/-- `LCH::to_rgb` (types_lch.hpp line 85): via LAB. -/
noncomputable def LCH.to_rgb (c : LCH) : RGB := c.to_lab.to_rgb

/-- Any LAB value with lightness in [0,100] survives the trip through LCH
exactly (the alpha resets to 255): the chroma/hue polar decomposition is
inverted by `to_lab`, since the wrapped hue differs from the `atan2` angle
by 0 or one full turn. -/
theorem lch_roundtrip_lab (lab : LAB) (hl0 : 0 ≤ lab.l) (hl1 : lab.l ≤ 100) :
    (LCH.fromLAB lab).to_lab = ⟨lab.l, lab.a, lab.b, 255⟩ := by
  have hpi : (0:ℝ) < Real.pi := Real.pi_pos
  have harg_le : Complex.arg ⟨lab.a, lab.b⟩ ≤ Real.pi := Complex.arg_le_pi _
  have harg_gt : -Real.pi < Complex.arg ⟨lab.a, lab.b⟩ := Complex.neg_pi_lt_arg _
  have hcos : Complex.abs ⟨lab.a, lab.b⟩ * Real.cos (Complex.arg ⟨lab.a, lab.b⟩) = lab.a :=
    Complex.abs_mul_cos_arg _
  have hsin : Complex.abs ⟨lab.a, lab.b⟩ * Real.sin (Complex.arg ⟨lab.a, lab.b⟩) = lab.b :=
    Complex.abs_mul_sin_arg _
  have habs : Real.sqrt (lab.a * lab.a + lab.b * lab.b) = Complex.abs ⟨lab.a, lab.b⟩ := by
    rw [Complex.abs_apply, Complex.normSq_mk]
  have hh0le : atan2R lab.b lab.a * 180 / Real.pi ≤ 180 := by
    rw [div_le_iff hpi]
    unfold atan2R
    linarith
  have hh0gt : -180 < atan2R lab.b lab.a * 180 / Real.pi := by
    rw [lt_div_iff hpi]
    unfold atan2R
    linarith
  show (⟨clampR lab.l 0 100,
      max 0 (Real.sqrt (lab.a * lab.a + lab.b * lab.b)) * Real.cos ((if (if atan2R lab.b lab.a * 180 / Real.pi < 0 then atan2R lab.b lab.a * 180 / Real.pi + 360 else atan2R lab.b lab.a * 180 / Real.pi) < 0 ∨ 360 ≤ (if atan2R lab.b lab.a * 180 / Real.pi < 0 then atan2R lab.b lab.a * 180 / Real.pi + 360 else atan2R lab.b lab.a * 180 / Real.pi) then (if fmodR (if atan2R lab.b lab.a * 180 / Real.pi < 0 then atan2R lab.b lab.a * 180 / Real.pi + 360 else atan2R lab.b lab.a * 180 / Real.pi) 360 < 0 then fmodR (if atan2R lab.b lab.a * 180 / Real.pi < 0 then atan2R lab.b lab.a * 180 / Real.pi + 360 else atan2R lab.b lab.a * 180 / Real.pi) 360 + 360 else fmodR (if atan2R lab.b lab.a * 180 / Real.pi < 0 then atan2R lab.b lab.a * 180 / Real.pi + 360 else atan2R lab.b lab.a * 180 / Real.pi) 360) else (if atan2R lab.b lab.a * 180 / Real.pi < 0 then atan2R lab.b lab.a * 180 / Real.pi + 360 else atan2R lab.b lab.a * 180 / Real.pi)) * Real.pi / 180),
      max 0 (Real.sqrt (lab.a * lab.a + lab.b * lab.b)) * Real.sin ((if (if atan2R lab.b lab.a * 180 / Real.pi < 0 then atan2R lab.b lab.a * 180 / Real.pi + 360 else atan2R lab.b lab.a * 180 / Real.pi) < 0 ∨ 360 ≤ (if atan2R lab.b lab.a * 180 / Real.pi < 0 then atan2R lab.b lab.a * 180 / Real.pi + 360 else atan2R lab.b lab.a * 180 / Real.pi) then (if fmodR (if atan2R lab.b lab.a * 180 / Real.pi < 0 then atan2R lab.b lab.a * 180 / Real.pi + 360 else atan2R lab.b lab.a * 180 / Real.pi) 360 < 0 then fmodR (if atan2R lab.b lab.a * 180 / Real.pi < 0 then atan2R lab.b lab.a * 180 / Real.pi + 360 else atan2R lab.b lab.a * 180 / Real.pi) 360 + 360 else fmodR (if atan2R lab.b lab.a * 180 / Real.pi < 0 then atan2R lab.b lab.a * 180 / Real.pi + 360 else atan2R lab.b lab.a * 180 / Real.pi) 360) else (if atan2R lab.b lab.a * 180 / Real.pi < 0 then atan2R lab.b lab.a * 180 / Real.pi + 360 else atan2R lab.b lab.a * 180 / Real.pi)) * Real.pi / 180),
      255⟩ : LAB) = ⟨lab.l, lab.a, lab.b, 255⟩
  rw [show clampR lab.l 0 100 = lab.l from by
    unfold clampR
    rw [if_neg (not_lt.mpr hl0), if_neg (not_lt.mpr hl1)]]
  rw [max_eq_right (Real.sqrt_nonneg (lab.a * lab.a + lab.b * lab.b))]
  by_cases hc : atan2R lab.b lab.a * 180 / Real.pi < 0
  · rw [if_pos hc]
    rw [if_neg (show ¬(atan2R lab.b lab.a * 180 / Real.pi + 360 < 0 ∨ 360 ≤ atan2R lab.b lab.a * 180 / Real.pi + 360) from by
      rintro (h | h) <;> linarith)]
    rw [show (atan2R lab.b lab.a * 180 / Real.pi + 360) * Real.pi / 180 = Complex.arg ⟨lab.a, lab.b⟩ + 2 * Real.pi from by
      unfold atan2R
      field_simp
      ring]
    rw [Real.cos_add_two_pi, Real.sin_add_two_pi, habs, hcos, hsin]
  · rw [if_neg hc]
    rw [if_neg (show ¬(atan2R lab.b lab.a * 180 / Real.pi < 0 ∨ 360 ≤ atan2R lab.b lab.a * 180 / Real.pi) from by
      rintro (h | h)
      · exact hc h
      · linarith)]
    rw [show atan2R lab.b lab.a * 180 / Real.pi * Real.pi / 180 = Complex.arg ⟨lab.a, lab.b⟩ from by
      unfold atan2R
      field_simp]
    rw [habs, hcos, hsin]

/- ### Exact evaluation of the LAB round trip at RGB(10, 255, 255) -/

/-- Channel value 10 linearizes through the 256-entry table to `50/16473`. -/
theorem gammaToLinear_ten : fastGammaToLinear 10 = 50 / 16473 := by
  unfold fastGammaToLinear gammaToLinearEntry
  rw [if_neg (by norm_num)]
  norm_num

/-- Channel value 255 linearizes to exactly 1. -/
theorem gammaToLinear_255 : fastGammaToLinear 255 = 1 := by
  unfold fastGammaToLinear gammaToLinearEntry
  rw [if_pos (by norm_num)]
  rw [show ((((255:ℕ):ℝ)) / 255 + 0.055) / 1.055 = 1 from by norm_num]
  exact Real.one_rpow _

/-- The f-table lookup for the x coordinate lands on index 1161. -/
theorem labF_x_cex :
    fastLabF ((50 / 16473 * 0.4124564 + 1 * 0.3575761 + 1 * 0.1804375) / 0.95047) = ((2322:ℝ) / 4095) ^ ((1:ℝ) / 3) := by
  unfold fastLabF
  rw [show clampR (((50 / 16473 * 0.4124564 + 1 * 0.3575761 + 1 * 0.1804375) / 0.95047) / 2) 0 1 = ((50 / 16473 * 0.4124564 + 1 * 0.3575761 + 1 * 0.1804375) / 0.95047) / 2 from by
    unfold clampR
    rw [if_neg (by norm_num), if_neg (by norm_num)]]
  rw [show ⌊(((50 / 16473 * 0.4124564 + 1 * 0.3575761 + 1 * 0.1804375) / 0.95047) / 2 * 4095 : ℝ)⌋ = (1161:ℤ) from by
    rw [Int.floor_eq_iff]
    constructor <;> norm_num]
  show labFEntry 1161 = ((2322:ℝ) / 4095) ^ ((1:ℝ) / 3)
  unfold labFEntry
  rw [if_pos (by norm_num)]
  rw [show ((1161:ℕ):ℝ) / 4095 * 2 = (2322:ℝ) / 4095 from by norm_num]

/-- The f-table lookup for the y coordinate lands on index 1613. -/
theorem labF_y_cex :
    fastLabF ((50 / 16473 * 0.2126729 + 1 * 0.7151522 + 1 * 0.0721750) / 1.00000) = ((3226:ℝ) / 4095) ^ ((1:ℝ) / 3) := by
  unfold fastLabF
  rw [show clampR (((50 / 16473 * 0.2126729 + 1 * 0.7151522 + 1 * 0.0721750) / 1.00000) / 2) 0 1 = ((50 / 16473 * 0.2126729 + 1 * 0.7151522 + 1 * 0.0721750) / 1.00000) / 2 from by
    unfold clampR
    rw [if_neg (by norm_num), if_neg (by norm_num)]]
  rw [show ⌊(((50 / 16473 * 0.2126729 + 1 * 0.7151522 + 1 * 0.0721750) / 1.00000) / 2 * 4095 : ℝ)⌋ = (1613:ℤ) from by
    rw [Int.floor_eq_iff]
    constructor <;> norm_num]
  show labFEntry 1613 = ((3226:ℝ) / 4095) ^ ((1:ℝ) / 3)
  unfold labFEntry
  rw [if_pos (by norm_num)]
  rw [show ((1613:ℕ):ℝ) / 4095 * 2 = (3226:ℝ) / 4095 from by norm_num]

/-- The f-table lookup for the z coordinate lands on index 2011. -/
theorem labF_z_cex :
    fastLabF ((50 / 16473 * 0.0193339 + 1 * 0.1191920 + 1 * 0.9503041) / 1.08883) = ((4022:ℝ) / 4095) ^ ((1:ℝ) / 3) := by
  unfold fastLabF
  rw [show clampR (((50 / 16473 * 0.0193339 + 1 * 0.1191920 + 1 * 0.9503041) / 1.08883) / 2) 0 1 = ((50 / 16473 * 0.0193339 + 1 * 0.1191920 + 1 * 0.9503041) / 1.08883) / 2 from by
    unfold clampR
    rw [if_neg (by norm_num), if_neg (by norm_num)]]
  rw [show ⌊(((50 / 16473 * 0.0193339 + 1 * 0.1191920 + 1 * 0.9503041) / 1.08883) / 2 * 4095 : ℝ)⌋ = (2011:ℤ) from by
    rw [Int.floor_eq_iff]
    constructor <;> norm_num]
  show labFEntry 2011 = ((4022:ℝ) / 4095) ^ ((1:ℝ) / 3)
  unfold labFEntry
  rw [if_pos (by norm_num)]
  rw [show ((2011:ℕ):ℝ) / 4095 * 2 = (4022:ℝ) / 4095 from by norm_num]

/-- `LAB::fromRGB` at RGB(10, 255, 255): the exact table-based image. -/
theorem lab_fromRGB_cex : LAB.fromRGB ⟨10, 255, 255, 255⟩ =
    ⟨116 * ((3226:ℝ) / 4095) ^ ((1:ℝ) / 3) - 16, 500 * (((2322:ℝ) / 4095) ^ ((1:ℝ) / 3) - ((3226:ℝ) / 4095) ^ ((1:ℝ) / 3)), 200 * (((3226:ℝ) / 4095) ^ ((1:ℝ) / 3) - ((4022:ℝ) / 4095) ^ ((1:ℝ) / 3)), ((255:ℕ):ℝ)⟩ := by
  show (⟨116 * fastLabF ((fastGammaToLinear 10 * 0.2126729 + fastGammaToLinear 255 * 0.7151522 + fastGammaToLinear 255 * 0.0721750) / 1.00000) - 16,
      500 * (fastLabF ((fastGammaToLinear 10 * 0.4124564 + fastGammaToLinear 255 * 0.3575761 + fastGammaToLinear 255 * 0.1804375) / 0.95047) - fastLabF ((fastGammaToLinear 10 * 0.2126729 + fastGammaToLinear 255 * 0.7151522 + fastGammaToLinear 255 * 0.0721750) / 1.00000)),
      200 * (fastLabF ((fastGammaToLinear 10 * 0.2126729 + fastGammaToLinear 255 * 0.7151522 + fastGammaToLinear 255 * 0.0721750) / 1.00000) - fastLabF ((fastGammaToLinear 10 * 0.0193339 + fastGammaToLinear 255 * 0.1191920 + fastGammaToLinear 255 * 0.9503041) / 1.08883)), ((255:ℕ):ℝ)⟩ : LAB) = _
  rw [gammaToLinear_ten, gammaToLinear_255]
  rw [labF_x_cex, labF_y_cex, labF_z_cex]

/-- The f-inverse lookup at the reconstructed fx lands on index 1694. -/
theorem labFInv_fx_cex :
    fastLabFInv (((2322:ℝ) / 4095) ^ ((1:ℝ) / 3)) = 113379904 / 200201625 := by
  have hq : (0:ℝ) ≤ (2322:ℝ) / 4095 := by norm_num
  have hF0 : (0:ℝ) ≤ ((2322:ℝ) / 4095) ^ ((1:ℝ) / 3) := Real.rpow_nonneg hq _
  have hF1 : ((2322:ℝ) / 4095) ^ ((1:ℝ) / 3) ≤ 1 := Real.rpow_le_one hq (by norm_num) (by norm_num)
  have hlo : ((3388:ℝ) / 4095) ≤ ((2322:ℝ) / 4095) ^ ((1:ℝ) / 3) :=
    (le_rpow_inv_three_iff ((2322:ℝ) / 4095) ((3388:ℝ) / 4095) hq (by norm_num)).mpr (by norm_num)
  have hhi : ((2322:ℝ) / 4095) ^ ((1:ℝ) / 3) < (3390:ℝ) / 4095 := by
    rw [rpow_inv_three_lt_iff ((2322:ℝ) / 4095) ((3390:ℝ) / 4095) hq (by norm_num)]
    norm_num
  unfold fastLabFInv
  rw [show clampR (((2322:ℝ) / 4095) ^ ((1:ℝ) / 3) / 2) 0 1 = ((2322:ℝ) / 4095) ^ ((1:ℝ) / 3) / 2 from by
    unfold clampR
    rw [if_neg (by linarith), if_neg (by linarith)]]
  rw [show ⌊(((2322:ℝ) / 4095) ^ ((1:ℝ) / 3) / 2 * 4095 : ℝ)⌋ = (1694:ℤ) from by
    rw [Int.floor_eq_iff]
    constructor
    · push_cast
      linarith
    · push_cast
      linarith]
  show labFInvEntry 1694 = 113379904 / 200201625
  unfold labFInvEntry
  show (if (0.008856:ℝ) < ((1694:ℕ):ℝ) / 4095 * 2 * (((1694:ℕ):ℝ) / 4095 * 2) * (((1694:ℕ):ℝ) / 4095 * 2)
      then ((1694:ℕ):ℝ) / 4095 * 2 * (((1694:ℕ):ℝ) / 4095 * 2) * (((1694:ℕ):ℝ) / 4095 * 2)
      else (((1694:ℕ):ℝ) / 4095 * 2 - 16 / 116) / 7.787) = 113379904 / 200201625
  rw [if_pos (by norm_num)]
  norm_num

/-- The f-inverse lookup at the reconstructed fy lands on index 1891. -/
theorem labFInv_fy_cex :
    fastLabFInv (((3226:ℝ) / 4095) ^ ((1:ℝ) / 3)) = 54095927768 / 68669157375 := by
  have hq : (0:ℝ) ≤ (3226:ℝ) / 4095 := by norm_num
  have hF0 : (0:ℝ) ≤ ((3226:ℝ) / 4095) ^ ((1:ℝ) / 3) := Real.rpow_nonneg hq _
  have hF1 : ((3226:ℝ) / 4095) ^ ((1:ℝ) / 3) ≤ 1 := Real.rpow_le_one hq (by norm_num) (by norm_num)
  have hlo : ((3782:ℝ) / 4095) ≤ ((3226:ℝ) / 4095) ^ ((1:ℝ) / 3) :=
    (le_rpow_inv_three_iff ((3226:ℝ) / 4095) ((3782:ℝ) / 4095) hq (by norm_num)).mpr (by norm_num)
  have hhi : ((3226:ℝ) / 4095) ^ ((1:ℝ) / 3) < (3784:ℝ) / 4095 := by
    rw [rpow_inv_three_lt_iff ((3226:ℝ) / 4095) ((3784:ℝ) / 4095) hq (by norm_num)]
    norm_num
  unfold fastLabFInv
  rw [show clampR (((3226:ℝ) / 4095) ^ ((1:ℝ) / 3) / 2) 0 1 = ((3226:ℝ) / 4095) ^ ((1:ℝ) / 3) / 2 from by
    unfold clampR
    rw [if_neg (by linarith), if_neg (by linarith)]]
  rw [show ⌊(((3226:ℝ) / 4095) ^ ((1:ℝ) / 3) / 2 * 4095 : ℝ)⌋ = (1891:ℤ) from by
    rw [Int.floor_eq_iff]
    constructor
    · push_cast
      linarith
    · push_cast
      linarith]
  show labFInvEntry 1891 = 54095927768 / 68669157375
  unfold labFInvEntry
  show (if (0.008856:ℝ) < ((1891:ℕ):ℝ) / 4095 * 2 * (((1891:ℕ):ℝ) / 4095 * 2) * (((1891:ℕ):ℝ) / 4095 * 2)
      then ((1891:ℕ):ℝ) / 4095 * 2 * (((1891:ℕ):ℝ) / 4095 * 2) * (((1891:ℕ):ℝ) / 4095 * 2)
      else (((1891:ℕ):ℝ) / 4095 * 2 - 16 / 116) / 7.787) = 54095927768 / 68669157375
  rw [if_pos (by norm_num)]
  norm_num

/-- The f-inverse lookup at the reconstructed fz lands on index 2035. -/
theorem labFInv_fz_cex :
    fastLabFInv (((4022:ℝ) / 4095) ^ ((1:ℝ) / 3)) = 539353144 / 549353259 := by
  have hq : (0:ℝ) ≤ (4022:ℝ) / 4095 := by norm_num
  have hF0 : (0:ℝ) ≤ ((4022:ℝ) / 4095) ^ ((1:ℝ) / 3) := Real.rpow_nonneg hq _
  have hF1 : ((4022:ℝ) / 4095) ^ ((1:ℝ) / 3) ≤ 1 := Real.rpow_le_one hq (by norm_num) (by norm_num)
  have hlo : ((4070:ℝ) / 4095) ≤ ((4022:ℝ) / 4095) ^ ((1:ℝ) / 3) :=
    (le_rpow_inv_three_iff ((4022:ℝ) / 4095) ((4070:ℝ) / 4095) hq (by norm_num)).mpr (by norm_num)
  have hhi : ((4022:ℝ) / 4095) ^ ((1:ℝ) / 3) < (4072:ℝ) / 4095 := by
    rw [rpow_inv_three_lt_iff ((4022:ℝ) / 4095) ((4072:ℝ) / 4095) hq (by norm_num)]
    norm_num
  unfold fastLabFInv
  rw [show clampR (((4022:ℝ) / 4095) ^ ((1:ℝ) / 3) / 2) 0 1 = ((4022:ℝ) / 4095) ^ ((1:ℝ) / 3) / 2 from by
    unfold clampR
    rw [if_neg (by linarith), if_neg (by linarith)]]
  rw [show ⌊(((4022:ℝ) / 4095) ^ ((1:ℝ) / 3) / 2 * 4095 : ℝ)⌋ = (2035:ℤ) from by
    rw [Int.floor_eq_iff]
    constructor
    · push_cast
      linarith
    · push_cast
      linarith]
  show labFInvEntry 2035 = 539353144 / 549353259
  unfold labFInvEntry
  show (if (0.008856:ℝ) < ((2035:ℕ):ℝ) / 4095 * 2 * (((2035:ℕ):ℝ) / 4095 * 2) * (((2035:ℕ):ℝ) / 4095 * 2)
      then ((2035:ℕ):ℝ) / 4095 * 2 * (((2035:ℕ):ℝ) / 4095 * 2) * (((2035:ℕ):ℝ) / 4095 * 2)
      else (((2035:ℕ):ℝ) / 4095 * 2 - 16 / 116) / 7.787) = 539353144 / 549353259
  rw [if_pos (by norm_num)]
  norm_num

/-- `LAB::to_rgb` on the image of RGB(10, 255, 255) yields red channel 1,
whatever the alpha: the reconstructed linear red value falls into the
truncated table cell 1 and gammas back to `12.92/4095`, which rounds to 1. -/
theorem lab_to_rgb_red_cex (al : ℝ) :
    ((⟨116 * ((3226:ℝ) / 4095) ^ ((1:ℝ) / 3) - 16, 500 * (((2322:ℝ) / 4095) ^ ((1:ℝ) / 3) - ((3226:ℝ) / 4095) ^ ((1:ℝ) / 3)), 200 * (((3226:ℝ) / 4095) ^ ((1:ℝ) / 3) - ((4022:ℝ) / 4095) ^ ((1:ℝ) / 3)), al⟩ : LAB).to_rgb).r = 1 := by
  show roundClamp255 (fastLinearToGamma (fastLabFInv (500 * (((2322:ℝ) / 4095) ^ ((1:ℝ) / 3) - ((3226:ℝ) / 4095) ^ ((1:ℝ) / 3)) / 500 + (116 * ((3226:ℝ) / 4095) ^ ((1:ℝ) / 3) - 16 + 16) / 116) * 0.95047 * 3.2404542 + fastLabFInv ((116 * ((3226:ℝ) / 4095) ^ ((1:ℝ) / 3) - 16 + 16) / 116) * 1.00000 * (-1.5371385) + fastLabFInv ((116 * ((3226:ℝ) / 4095) ^ ((1:ℝ) / 3) - 16 + 16) / 116 - 200 * (((3226:ℝ) / 4095) ^ ((1:ℝ) / 3) - ((4022:ℝ) / 4095) ^ ((1:ℝ) / 3)) / 200) * 1.08883 * (-0.4985314))) = 1
  rw [show 500 * (((2322:ℝ) / 4095) ^ ((1:ℝ) / 3) - ((3226:ℝ) / 4095) ^ ((1:ℝ) / 3)) / 500 + (116 * ((3226:ℝ) / 4095) ^ ((1:ℝ) / 3) - 16 + 16) / 116 = ((2322:ℝ) / 4095) ^ ((1:ℝ) / 3) from by ring]
  rw [show (116 * ((3226:ℝ) / 4095) ^ ((1:ℝ) / 3) - 16 + 16) / 116 - 200 * (((3226:ℝ) / 4095) ^ ((1:ℝ) / 3) - ((4022:ℝ) / 4095) ^ ((1:ℝ) / 3)) / 200 = ((4022:ℝ) / 4095) ^ ((1:ℝ) / 3) from by ring]
  rw [show (116 * ((3226:ℝ) / 4095) ^ ((1:ℝ) / 3) - 16 + 16) / 116 = ((3226:ℝ) / 4095) ^ ((1:ℝ) / 3) from by ring]
  rw [labFInv_fx_cex, labFInv_fy_cex, labFInv_fz_cex]
  unfold fastLinearToGamma
  rw [show clampR (113379904 / 200201625 * 0.95047 * 3.2404542 + 54095927768 / 68669157375 * 1.00000 * (-1.5371385) + 539353144 / 549353259 * 1.08883 * (-0.4985314)) 0 1 = 113379904 / 200201625 * 0.95047 * 3.2404542 + 54095927768 / 68669157375 * 1.00000 * (-1.5371385) + 539353144 / 549353259 * 1.08883 * (-0.4985314) from by
    unfold clampR
    rw [if_neg (by norm_num), if_neg (by norm_num)]]
  rw [show ⌊((113379904 / 200201625 * 0.95047 * 3.2404542 + 54095927768 / 68669157375 * 1.00000 * (-1.5371385) + 539353144 / 549353259 * 1.08883 * (-0.4985314)) * 4095 : ℝ)⌋ = (1:ℤ) from by
    rw [Int.floor_eq_iff]
    constructor <;> norm_num]
  show roundClamp255 (linearToGammaEntry 1) = 1
  unfold linearToGammaEntry
  rw [if_neg (by norm_num)]
  unfold roundClamp255
  rw [round_eq]
  rw [show ⌊(12.92 * (((1:ℕ):ℝ) / 4095) * 255 + 1 / 2 : ℝ)⌋ = (1:ℤ) from by
    rw [Int.floor_eq_iff]
    constructor <;> norm_num]
  decide

/-- The LAB round trip maps RGB(10, 255, 255) to red channel 1. -/
theorem lab_cex_red : ((LAB.fromRGB ⟨10, 255, 255, 255⟩).to_rgb).r = 1 := by
  rw [lab_fromRGB_cex]
  exact lab_to_rgb_red_cex ((255:ℕ):ℝ)

/-- The LCH round trip maps RGB(10, 255, 255) to red channel 1 as well,
since the trip through LCH reproduces the LAB value exactly. -/
theorem lch_cex_red : ((LCH.fromRGB ⟨10, 255, 255, 255⟩).to_rgb).r = 1 := by
  have hl0 : 0 ≤ (LAB.fromRGB ⟨10, 255, 255, 255⟩).l := by
    rw [lab_fromRGB_cex]
    show (0:ℝ) ≤ 116 * ((3226:ℝ) / 4095) ^ ((1:ℝ) / 3) - 16
    have h := (le_rpow_inv_three_iff ((3226:ℝ) / 4095) (4 / 29) (by norm_num) (by norm_num)).mpr
      (by norm_num)
    linarith
  have hl1 : (LAB.fromRGB ⟨10, 255, 255, 255⟩).l ≤ 100 := by
    rw [lab_fromRGB_cex]
    show 116 * ((3226:ℝ) / 4095) ^ ((1:ℝ) / 3) - 16 ≤ (100:ℝ)
    have h : ((3226:ℝ) / 4095) ^ ((1:ℝ) / 3) ≤ 1 := Real.rpow_le_one (by norm_num) (by norm_num) (by norm_num)
    linarith
  have hrt := lch_roundtrip_lab (LAB.fromRGB ⟨10, 255, 255, 255⟩) hl0 hl1
  show (((LCH.fromLAB (LAB.fromRGB ⟨10, 255, 255, 255⟩)).to_lab).to_rgb).r = 1
  rw [hrt, lab_fromRGB_cex]
  exact lab_to_rgb_red_cex 255

/-- C1: the XYZ round trip returns every 8-bit channel within ±2 and the
OKLAB round trip within ±3 for every input color; the table-based LAB and
LCH round trips do NOT stay within ±3 (see the counterexample theorem), so
the spec holds only for XYZ and OKLAB. -/
theorem C1_xyz_oklab_roundtrip (r g b a : ℕ) (hr : r ≤ 255) (hg : g ≤ 255) (hb : b ≤ 255) :
    ((((r : ℤ) - (((XYZ.fromRGB ⟨r, g, b, a⟩).to_rgb).r : ℤ)).natAbs ≤ 2 ∧
      ((g : ℤ) - (((XYZ.fromRGB ⟨r, g, b, a⟩).to_rgb).g : ℤ)).natAbs ≤ 2 ∧
      ((b : ℤ) - (((XYZ.fromRGB ⟨r, g, b, a⟩).to_rgb).b : ℤ)).natAbs ≤ 2) ∧
     (((r : ℤ) - (((OKLAB.fromRGB ⟨r, g, b, a⟩).to_rgb).r : ℤ)).natAbs ≤ 3 ∧
      ((g : ℤ) - (((OKLAB.fromRGB ⟨r, g, b, a⟩).to_rgb).g : ℤ)).natAbs ≤ 3 ∧
      ((b : ℤ) - (((OKLAB.fromRGB ⟨r, g, b, a⟩).to_rgb).b : ℤ)).natAbs ≤ 3)) := by
  obtain ⟨h1, h2, h3⟩ := oklab_roundtrip r g b a hr hg hb
  exact ⟨xyz_roundtrip r g b a hr hg hb,
    le_trans h1 (by norm_num), le_trans h2 (by norm_num), le_trans h3 (by norm_num)⟩

/-- C1 witness: the XYZ and OKLAB round-trip bounds hold concretely at
RGB(10, 255, 255, 0). -/
theorem C1_witness :
    (10:ℕ) ≤ 255 ∧
    (((((10:ℕ) : ℤ) - (((XYZ.fromRGB ⟨10, 255, 255, 0⟩).to_rgb).r : ℤ)).natAbs ≤ 2 ∧
     (((255:ℕ) : ℤ) - (((XYZ.fromRGB ⟨10, 255, 255, 0⟩).to_rgb).g : ℤ)).natAbs ≤ 2 ∧
     (((255:ℕ) : ℤ) - (((XYZ.fromRGB ⟨10, 255, 255, 0⟩).to_rgb).b : ℤ)).natAbs ≤ 2) ∧
     ((((10:ℕ) : ℤ) - (((OKLAB.fromRGB ⟨10, 255, 255, 0⟩).to_rgb).r : ℤ)).natAbs ≤ 3 ∧
     (((255:ℕ) : ℤ) - (((OKLAB.fromRGB ⟨10, 255, 255, 0⟩).to_rgb).g : ℤ)).natAbs ≤ 3 ∧
     (((255:ℕ) : ℤ) - (((OKLAB.fromRGB ⟨10, 255, 255, 0⟩).to_rgb).b : ℤ)).natAbs ≤ 3)) :=
  ⟨by norm_num,
   C1_xyz_oklab_roundtrip 10 255 255 0 (by norm_num) (by norm_num) (by norm_num)⟩

/-- C1 counterexample: the LAB and LCH round trips map RGB(10, 255, 255)
to red channel 1, an error of 9 — the spec's claimed ±3 accuracy fails for
the table-based LAB pipeline and for LCH, which goes through it. -/
theorem C1_counterexample :
    ((LAB.fromRGB ⟨10, 255, 255, 255⟩).to_rgb).r = 1 ∧
    ((LCH.fromRGB ⟨10, 255, 255, 255⟩).to_rgb).r = 1 ∧
    ¬((((10:ℕ) : ℤ) - (((LAB.fromRGB ⟨10, 255, 255, 255⟩).to_rgb).r : ℤ)).natAbs ≤ 3) ∧
    ¬((((10:ℕ) : ℤ) - (((LCH.fromRGB ⟨10, 255, 255, 255⟩).to_rgb).r : ℤ)).natAbs ≤ 3) := by
  refine ⟨lab_cex_red, lch_cex_red, ?_, ?_⟩
  · rw [lab_cex_red]
    decide
  · rw [lch_cex_red]
    decide
